import Mathlib

/-!
# KubeRay API server: synthesis of RayCluster manifests

A shallow embedding of `apiserver/pkg/util/cluster.go`, and a model, from the
specification, of the head service builder of `ray-operator/controllers/ray/common`, of
which the sources hold the tests only.

* Go pointers that may be nil are `Option`s; a struct reached through a pointer the
  callers always allocate (group specs, volumes) is the structure itself.
* A Go `map[string]T` is an association list with pairwise distinct keys, read with
  `List.lookup` and written with `mapSet`, which is Go's `m[k] = v`.
* A run-time panic and a returned `error` are the two constructors of `Failure`; a function
  that can panic returns `Except Failure _`.
* `uint32` fields are `Nat`, `int32` fields are `Int`: the code only copies and prints them.
-/

set_option autoImplicit false
set_option linter.dupNamespace false

namespace Kuberay

/-! ## Outcomes of a call -/

/-- The run-time panics the embedded code can raise. -/
inductive Panic where
  /-- A field read through a nil pointer. -/
  | nilPointerDereference
  /-- The panic of `resource.MustParse` on a string that is not a quantity. -/
  | cannotParseQuantity (s : String)
  /-- An index past the end of a slice. -/
  | indexOutOfRange
  deriving DecidableEq, Repr

/-- Why a call hands back no result: an `error` value given to the caller, or a panic that
unwinds through the caller. -/
inductive Failure where
  | error (msg : String)
  | panic (p : Panic)
  deriving DecidableEq, Repr

deriving instance DecidableEq for Except

/-! ## Go maps -/

/-- Go's `m[k] = v`: the value of an existing key is replaced in place, a new key is added. -/
def mapSet {β : Type} : List (String × β) → String → β → List (String × β)
  | [], k, v => [(k, v)]
  | (k', v') :: rest, k, v =>
    if k' = k then (k, v) :: rest else (k', v') :: mapSet rest k v

/-- The keys of a map. -/
def mapKeys {β : Type} (m : List (String × β)) : List String := m.map Prod.fst

/-! ## The request types of the API (`proto/go_client`) -/

namespace api

/-- Modelled from the spec: the generated enum `Volume_VolumeType` is missing from src.
Host-path is the only type the spec calls supported; the code's TODO names the
persistent-volume-claim type as the one it does not handle; any other number a client
sends is `UNRECOGNIZED`. -/
inductive VolumeType where
  | PERSISTENT_VOLUME_CLAIM
  | HOST_PATH
  | UNRECOGNIZED (code : Nat)
  deriving DecidableEq, Repr

/-- Modelled from the spec: the generated enum `Volume_HostPathType` is missing from src;
directory is the zero value, file the other named one. -/
inductive HostPathType where
  | DIRECTORY
  | FILE
  | UNRECOGNIZED (code : Nat)
  deriving DecidableEq, Repr

/-- Modelled from the spec: the generated enum `Volume_MountPropagationMode` is missing from
src (none, host-to-container, bidirectional). -/
inductive MountPropagationMode where
  | NONE
  | HOSTTOCONTAINER
  | BIDIRECTIONAL
  | UNRECOGNIZED (code : Nat)
  deriving DecidableEq, Repr

/-- The message `api.Volume`. -/
structure Volume where
  MountPath : String := ""
  VolumeType : VolumeType := .PERSISTENT_VOLUME_CLAIM
  Name : String := ""
  Source : String := ""
  ReadOnly : Bool := false
  HostPathType : HostPathType := .DIRECTORY
  MountPropagationMode : MountPropagationMode := .NONE
  deriving DecidableEq, Repr

/-- The message `api.ComputeTemplate`; `Cpu`, `Memory` and `Gpu` are `uint32`. -/
structure ComputeTemplate where
  Name : String := ""
  Namespace : String := ""
  Cpu : Nat := 0
  Memory : Nat := 0
  Gpu : Nat := 0
  GpuAccelerator : String := ""
  deriving DecidableEq, Repr

/-- The generated getter `GetCpu`: zero on a nil receiver. -/
def ComputeTemplate.GetCpu : Option ComputeTemplate → Nat
  | none => 0
  | some t => t.Cpu

/-- The generated getter `GetMemory`: zero on a nil receiver. -/
def ComputeTemplate.GetMemory : Option ComputeTemplate → Nat
  | none => 0
  | some t => t.Memory

/-- The generated getter `GetGpu`: zero on a nil receiver. -/
def ComputeTemplate.GetGpu : Option ComputeTemplate → Nat
  | none => 0
  | some t => t.Gpu

/-- The generated getter `GetGpuAccelerator`: the empty string on a nil receiver. -/
def ComputeTemplate.GetGpuAccelerator : Option ComputeTemplate → String
  | none => ""
  | some t => t.GpuAccelerator

/-- The message `api.HeadGroupSpec`. -/
structure HeadGroupSpec where
  ComputeTemplate : String := ""
  Image : String := ""
  ServiceType : String := ""
  RayStartParams : List (String × String) := []
  Volumes : List Volume := []
  deriving DecidableEq, Repr

/-- The message `api.WorkerGroupSpec`; the three replica counts are `int32`. -/
structure WorkerGroupSpec where
  GroupName : String := ""
  ComputeTemplate : String := ""
  Image : String := ""
  Replicas : Int := 0
  MinReplicas : Int := 0
  MaxReplicas : Int := 0
  RayStartParams : List (String × String) := []
  Volumes : List Volume := []
  deriving DecidableEq, Repr

/-- The message `api.ClusterSpec`. -/
structure ClusterSpec where
  HeadGroupSpec : HeadGroupSpec := {}
  WorkerGroupSpec : List WorkerGroupSpec := []
  deriving DecidableEq, Repr

/-- The message `api.Cluster`; `Environment` is the number of the enum value. -/
structure Cluster where
  Name : String := ""
  Namespace : String := ""
  User : String := ""
  Version : String := ""
  Environment : Nat := 0
  ClusterSpec : ClusterSpec := {}
  Envs : List (String × String) := []
  deriving DecidableEq, Repr

end api

/-! ## The Kubernetes core types the code fills in (`k8s.io/api/core/v1`) -/

namespace v1

/-- The type `v1.MountPropagationMode`. -/
inductive MountPropagationMode where
  | MountPropagationHostToContainer
  | MountPropagationBidirectional
  deriving DecidableEq, Repr

/-- The type `v1.VolumeMount`. -/
structure VolumeMount where
  Name : String
  ReadOnly : Bool
  MountPath : String
  MountPropagation : Option MountPropagationMode := none
  deriving DecidableEq, Repr

/-- The constant `v1.HostPathDirectory`. -/
def HostPathDirectory : String := "Directory"

/-- The constant `v1.HostPathFile`. -/
def HostPathFile : String := "File"

/-- The type `v1.HostPathVolumeSource`; `Type_` is the field `Type`, a pointer to a
`HostPathType` string. -/
structure HostPathVolumeSource where
  Path : String
  Type_ : Option String := none
  deriving DecidableEq, Repr

/-- The type `v1.VolumeSource`, with the one member the code sets. -/
structure VolumeSource where
  HostPath : Option HostPathVolumeSource := none
  deriving DecidableEq, Repr

/-- The type `v1.Volume`. -/
structure Volume where
  Name : String
  VolumeSource : VolumeSource := {}
  deriving DecidableEq, Repr

end v1

/-! ## Volumes -/

/-- The function `buildVolumeMounts`: one mount per descriptor, whatever its volume type. -/
def buildVolumeMounts (apiVolumes : List api.Volume) : List v1.VolumeMount :=
  apiVolumes.foldl
    (fun volMounts vol =>
      let volMount : v1.VolumeMount :=
        { Name := vol.Name, ReadOnly := vol.ReadOnly, MountPath := vol.MountPath }
      let volMount : v1.VolumeMount :=
        match vol.MountPropagationMode with
        | .HOSTTOCONTAINER =>
          { volMount with MountPropagation := some .MountPropagationHostToContainer }
        | .BIDIRECTIONAL =>
          { volMount with MountPropagation := some .MountPropagationBidirectional }
        | _ => volMount
      volMounts ++ [volMount])
    []

/-- The function `newHostPathType`: a fresh pointer to the given type string. -/
def newHostPathType (pathType : String) : Option String := some pathType

/-- The function `buildVols`: one volume per host-path descriptor. -/
def buildVols (apiVolumes : List api.Volume) : List v1.Volume :=
  apiVolumes.foldl
    (fun vols rayVol =>
      if rayVol.VolumeType = api.VolumeType.HOST_PATH then
        let hostPath : v1.HostPathVolumeSource := { Path := rayVol.Source }
        let hostPath : v1.HostPathVolumeSource :=
          match rayVol.HostPathType with
          | .DIRECTORY => { hostPath with Type_ := newHostPathType v1.HostPathDirectory }
          | .FILE => { hostPath with Type_ := newHostPathType v1.HostPathFile }
          | _ => { hostPath with Type_ := newHostPathType v1.HostPathDirectory }
        vols ++ [{ Name := rayVol.Name, VolumeSource := { HostPath := some hostPath } }]
      else vols)
    []

/-! ## Printing numbers (`fmt`) and parsing quantities (`resource`) -/

/-- The decimal digits of `n`, least significant first; `fuel` bounds their number. -/
def decimalDigits : Nat → Nat → List Nat
  | 0, _ => []
  | fuel + 1, n => (n % 10) :: (if n / 10 = 0 then [] else decimalDigits fuel (n / 10))

/-- The character of one decimal digit. -/
def digitChar (d : Nat) : Char := Char.ofNat (48 + d)

/-- What `fmt.Sprint` and the verb `%d` print for an unsigned integer: its decimal digits,
most significant first, `0` for zero. -/
def Sprint (n : Nat) : String :=
  String.mk ((decimalDigits (n + 1) n).reverse.map digitChar)

namespace resource

/-- The type `resource.Format`, with the two formats the parsed strings can have. -/
inductive Format where
  | DecimalSI
  | BinarySI
  deriving DecidableEq, Repr

/-- A `resource.Quantity`: the amount in units of the resource (cores, bytes, devices) and
the notation it was written in. -/
structure Quantity where
  value : Nat
  format : Format
  deriving DecidableEq, Repr

/-- The multiplier and format of a quantity suffix. -/
def suffixScale : List Char → Option (Nat × Format)
  | [] => some (1, .DecimalSI)
  | ['K', 'i'] => some (2 ^ 10, .BinarySI)
  | ['M', 'i'] => some (2 ^ 20, .BinarySI)
  | ['G', 'i'] => some (2 ^ 30, .BinarySI)
  | ['T', 'i'] => some (2 ^ 40, .BinarySI)
  | ['P', 'i'] => some (2 ^ 50, .BinarySI)
  | ['E', 'i'] => some (2 ^ 60, .BinarySI)
  | ['k'] => some (10 ^ 3, .DecimalSI)
  | ['M'] => some (10 ^ 6, .DecimalSI)
  | ['G'] => some (10 ^ 9, .DecimalSI)
  | ['T'] => some (10 ^ 12, .DecimalSI)
  | ['P'] => some (10 ^ 15, .DecimalSI)
  | ['E'] => some (10 ^ 18, .DecimalSI)
  | _ => none

/-- The number written by a run of decimal digits. -/
def parseDecimal (cs : List Char) : Nat :=
  cs.foldl (fun a c => 10 * a + (c.toNat - 48)) 0

/-- The function `resource.ParseQuantity` of apimachinery on unsigned whole numbers with an
optional binary or decimal SI suffix, which is every string the code passes to it; a sign,
a fraction or an exponent is outside this fragment and is refused here. -/
def ParseQuantity (s : String) : Option Quantity :=
  match s.data.span Char.isDigit with
  | (num, suffix) =>
    if num = [] then none
    else
      match suffixScale suffix with
      | none => none
      | some (scale, format) => some { value := parseDecimal num * scale, format := format }

/-- The function `resource.MustParse`: it panics where `ParseQuantity` fails. -/
def MustParse (s : String) : Except Failure Quantity :=
  match ParseQuantity s with
  | some q => .ok q
  | none => .error (.panic (.cannotParseQuantity s))

end resource

/-! ## Pod templates (`k8s.io/api/core/v1`, `k8s.io/apimachinery/pkg/apis/meta/v1`) -/

namespace v1

/-- The type `v1.ObjectFieldSelector`. -/
structure ObjectFieldSelector where
  FieldPath : String
  deriving DecidableEq, Repr

/-- The type `v1.ResourceFieldSelector`. -/
structure ResourceFieldSelector where
  ContainerName : String
  Resource : String
  deriving DecidableEq, Repr

/-- The type `v1.EnvVarSource`. -/
structure EnvVarSource where
  FieldRef : Option ObjectFieldSelector := none
  ResourceFieldRef : Option ResourceFieldSelector := none
  deriving DecidableEq, Repr

/-- The type `v1.EnvVar`. -/
structure EnvVar where
  Name : String
  Value : String := ""
  ValueFrom : Option EnvVarSource := none
  deriving DecidableEq, Repr

/-- The type `v1.ContainerPort`; the number is an `int32`. -/
structure ContainerPort where
  Name : String := ""
  ContainerPort : Int
  deriving DecidableEq, Repr

/-- The type `v1.ExecAction`. -/
structure ExecAction where
  Command : List String
  deriving DecidableEq, Repr

/-- The type `v1.LifecycleHandler`. -/
structure LifecycleHandler where
  Exec : Option ExecAction := none
  deriving DecidableEq, Repr

/-- The type `v1.Lifecycle`. -/
structure Lifecycle where
  PreStop : Option LifecycleHandler := none
  deriving DecidableEq, Repr

/-- The constant `v1.ResourceCPU`. -/
def ResourceCPU : String := "cpu"

/-- The constant `v1.ResourceMemory`. -/
def ResourceMemory : String := "memory"

/-- The type `v1.ResourceList`, a map from resource names to quantities. -/
abbrev ResourceList := List (String × resource.Quantity)

/-- The type `v1.ResourceRequirements`. -/
structure ResourceRequirements where
  Limits : ResourceList := []
  Requests : ResourceList := []
  deriving DecidableEq, Repr

/-- The type `v1.Container`. -/
structure Container where
  Name : String
  Image : String
  Env : List EnvVar := []
  Ports : List ContainerPort := []
  Lifecycle : Option Lifecycle := none
  Resources : ResourceRequirements := {}
  VolumeMounts : List VolumeMount := []
  deriving DecidableEq, Repr

/-- The type `v1.PodSpec`. -/
structure PodSpec where
  Containers : List Container := []
  Volumes : List Volume := []
  deriving DecidableEq, Repr

/-- The type `metav1.ObjectMeta`. -/
structure ObjectMeta where
  Name : String := ""
  Namespace : String := ""
  Labels : List (String × String) := []
  Annotations : List (String × String) := []
  deriving DecidableEq, Repr

/-- The type `v1.PodTemplateSpec`. -/
structure PodTemplateSpec where
  ObjectMeta : ObjectMeta := {}
  Spec : PodSpec := {}
  deriving DecidableEq, Repr

/-- An assignment to a field of `Spec.Containers[0]`. -/
def PodTemplateSpec.modifyContainer0 (f : Container → Container) (t : PodTemplateSpec) :
    PodTemplateSpec :=
  { t with Spec := { t.Spec with Containers := t.Spec.Containers.modifyHead f } }

end v1

/-! ## Services (`k8s.io/api/core/v1`) -/

namespace v1

/-- The type `v1.ServicePort`, with the fields the tests read; the number is an `int32`. -/
structure ServicePort where
  Name : String := ""
  Port : Int := 0
  AppProtocol : Option String := none
  deriving DecidableEq, Repr

/-- The type `v1.ServiceSpec`; `Type_` is the field `Type`, a `ServiceType` string. -/
structure ServiceSpec where
  Ports : List ServicePort := []
  Selector : List (String × String) := []
  Type_ : String := ""
  deriving DecidableEq, Repr

/-- The constant `v1.ServiceTypeClusterIP`. -/
def ServiceTypeClusterIP : String := "ClusterIP"

/-- The type `v1.Service`. -/
structure Service where
  ObjectMeta : ObjectMeta := {}
  Spec : ServiceSpec := {}
  deriving DecidableEq, Repr

end v1

/-! ## The RayCluster resource (`ray-operator/apis/ray/v1alpha1`) -/

namespace rayalphaapi

/-- The type `rayalphaapi.HeadGroupSpec`, with the fields `cluster.go` sets and the head
service override the operator reads. -/
structure HeadGroupSpec where
  ServiceType : String := ""
  HeadService : Option v1.Service := none
  Template : v1.PodTemplateSpec := {}
  Replicas : Option Int := none
  RayStartParams : List (String × String) := []
  deriving DecidableEq, Repr

/-- The type `rayalphaapi.WorkerGroupSpec`, with the fields the code sets. -/
structure WorkerGroupSpec where
  GroupName : String := ""
  MinReplicas : Option Int := none
  MaxReplicas : Option Int := none
  Replicas : Option Int := none
  RayStartParams : List (String × String) := []
  Template : v1.PodTemplateSpec := {}
  deriving DecidableEq, Repr

/-- The type `rayalphaapi.RayClusterSpec`, with the fields `cluster.go` sets and the head
service annotations the operator reads. -/
structure RayClusterSpec where
  RayVersion : String := ""
  HeadServiceAnnotations : List (String × String) := []
  HeadGroupSpec : HeadGroupSpec := {}
  WorkerGroupSpecs : List WorkerGroupSpec := []
  deriving DecidableEq, Repr

/-- The type `rayalphaapi.RayCluster`. -/
structure RayCluster where
  ObjectMeta : v1.ObjectMeta := {}
  Spec : RayClusterSpec := {}
  deriving DecidableEq, Repr

end rayalphaapi

/-! ## Package constants and the runtime's choices -/

/-- The package-level constants of `util` that `cluster.go` uses and src does not declare,
and the generated `String` method of the environment enum. -/
structure Constants where
  RayClusterDefaultImageRepository : String
  RayClusterComputeTemplateAnnotationKey : String
  RayClusterImageAnnotationKey : String
  RayClusterNameLabelKey : String
  RayClusterUserLabelKey : String
  RayClusterVersionLabelKey : String
  RayClusterEnvironmentLabelKey : String
  KubernetesApplicationNameLabelKey : String
  KubernetesManagedByLabelKey : String
  ApplicationName : String
  ComponentName : String
  EnvironmentString : Nat → String

/-- A set of constants to evaluate the code with. -/
def exampleConstants : Constants where
  RayClusterDefaultImageRepository := "rayproject/ray"
  RayClusterComputeTemplateAnnotationKey := "ray.io/compute-template"
  RayClusterImageAnnotationKey := "ray.io/compute-image"
  RayClusterNameLabelKey := "ray.io/cluster-name"
  RayClusterUserLabelKey := "ray.io/user"
  RayClusterVersionLabelKey := "ray.io/version"
  RayClusterEnvironmentLabelKey := "ray.io/environment"
  KubernetesApplicationNameLabelKey := "app.kubernetes.io/name"
  KubernetesManagedByLabelKey := "app.kubernetes.io/managed-by"
  ApplicationName := "kuberay"
  ComponentName := "kuberay-apiserver"
  EnvironmentString := fun e =>
    match e with
    | 0 => "DEV"
    | 1 => "TESTING"
    | 2 => "STAGING"
    | 3 => "PRODUCTION"
    | n => Sprint n

/-- The order in which one `for k, v := range m` visits the pairs of `m`. Go leaves it to
the runtime, which picks it anew for every loop. -/
abbrev RangeOrder := List (String × String) → List (String × String)

/-- A range order visits every pair of the map once. -/
def RangeOrder.Valid (order : RangeOrder) : Prop :=
  ∀ m, (order m).Perm m

/-! ## Pod templates -/

/-- The function `buildNodeGroupAnnotations`; it reads `computeTemplate.Name` through the
pointer, without a nil check. -/
def buildNodeGroupAnnotations (K : Constants) (computeTemplate : Option api.ComputeTemplate)
    (image : String) : Except Failure (List (String × String)) :=
  match computeTemplate with
  | none => .error (.panic .nilPointerDereference)
  | some t =>
    let annotations : List (String × String) := []
    let annotations := mapSet annotations K.RayClusterComputeTemplateAnnotationKey t.Name
    let annotations := mapSet annotations K.RayClusterImageAnnotationKey image
    .ok annotations

/-- The function `constructRayImage`. -/
def constructRayImage (containerImage : String) (version : String) : String :=
  containerImage ++ ":" ++ version

/-- The GPU block shared verbatim by the two builders: the accelerator key is written to
the requests, then to the limits, of `Spec.Containers[0]`. -/
def setAccelerator (computeRuntime : Option api.ComputeTemplate)
    (podTemplateSpec : v1.PodTemplateSpec) : Except Failure v1.PodTemplateSpec :=
  if api.ComputeTemplate.GetGpu computeRuntime ≠ 0 then do
    let gpu := api.ComputeTemplate.GetGpu computeRuntime
    let accelerator := "nvidia.com/gpu"
    let accelerator :=
      if (api.ComputeTemplate.GetGpuAccelerator computeRuntime).length ≠ 0 then
        api.ComputeTemplate.GetGpuAccelerator computeRuntime
      else accelerator
    let requested ← resource.MustParse (Sprint gpu)
    let podTemplateSpec := podTemplateSpec.modifyContainer0 fun c =>
      { c with Resources :=
          { c.Resources with Requests := mapSet c.Resources.Requests accelerator requested } }
    let limited ← resource.MustParse (Sprint gpu)
    let podTemplateSpec := podTemplateSpec.modifyContainer0 fun c =>
      { c with Resources :=
          { c.Resources with Limits := mapSet c.Resources.Limits accelerator limited } }
    pure podTemplateSpec
  else pure podTemplateSpec

/-- The closing loop shared verbatim by the two builders: one literal variable is appended
to the environment of `Spec.Containers[0]` for each pair, in the order the range visits. -/
def appendEnvs (order : RangeOrder) (envs : List (String × String))
    (podTemplateSpec : v1.PodTemplateSpec) : v1.PodTemplateSpec :=
  (order envs).foldl
    (fun t kv => t.modifyContainer0 fun c =>
      { c with Env := c.Env ++ [{ Name := kv.1, Value := kv.2 }] })
    podTemplateSpec

/-- The function `buildHeadPodTemplate`. -/
def buildHeadPodTemplate (K : Constants) (order : RangeOrder) (imageVersion : String)
    (envs : List (String × String)) (spec : api.HeadGroupSpec)
    (computeRuntime : Option api.ComputeTemplate) : Except Failure v1.PodTemplateSpec := do
  let image := constructRayImage K.RayClusterDefaultImageRepository imageVersion
  let image := if spec.Image.length ≠ 0 then spec.Image else image
  -- calculate resources
  let cpu := Sprint (api.ComputeTemplate.GetCpu computeRuntime)
  let memory := Sprint (api.ComputeTemplate.GetMemory computeRuntime) ++ "Gi"
  -- build volume and volumeMounts
  let volMounts := buildVolumeMounts spec.Volumes
  let vols := buildVols spec.Volumes
  let annotations ← buildNodeGroupAnnotations K computeRuntime spec.Image
  let limitsCpu ← resource.MustParse cpu
  let limitsMemory ← resource.MustParse memory
  let requestsCpu ← resource.MustParse cpu
  let requestsMemory ← resource.MustParse memory
  let podTemplateSpec : v1.PodTemplateSpec :=
    { ObjectMeta := { Annotations := annotations }
      Spec :=
        { Containers :=
            [{ Name := "ray-head"
               Image := image
               Env :=
                 [{ Name := "MY_POD_IP"
                    ValueFrom := some { FieldRef := some { FieldPath := "status.podIP" } } }]
               Ports :=
                 [{ Name := "redis", ContainerPort := 6379 },
                  { Name := "head", ContainerPort := 10001 },
                  { Name := "dashboard", ContainerPort := 8265 },
                  { Name := "metrics", ContainerPort := 8080 }]
               Resources :=
                 { Limits := [(v1.ResourceCPU, limitsCpu), (v1.ResourceMemory, limitsMemory)]
                   Requests :=
                     [(v1.ResourceCPU, requestsCpu), (v1.ResourceMemory, requestsMemory)] }
               VolumeMounts := volMounts }]
          Volumes := vols } }
  let podTemplateSpec ← setAccelerator computeRuntime podTemplateSpec
  pure (appendEnvs order envs podTemplateSpec)

/-- The function `buildWorkerPodTemplate`. -/
def buildWorkerPodTemplate (K : Constants) (order : RangeOrder) (imageVersion : String)
    (envs : List (String × String)) (spec : api.WorkerGroupSpec)
    (computeRuntime : Option api.ComputeTemplate) : Except Failure v1.PodTemplateSpec := do
  let image := constructRayImage K.RayClusterDefaultImageRepository imageVersion
  let image := if spec.Image.length ≠ 0 then spec.Image else image
  -- calculate resources
  let cpu := Sprint (api.ComputeTemplate.GetCpu computeRuntime)
  let memory := Sprint (api.ComputeTemplate.GetMemory computeRuntime) ++ "Gi"
  -- build volume and volumeMounts
  let volMounts := buildVolumeMounts spec.Volumes
  let vols := buildVols spec.Volumes
  let annotations ← buildNodeGroupAnnotations K computeRuntime spec.Image
  let limitsCpu ← resource.MustParse cpu
  let limitsMemory ← resource.MustParse memory
  let requestsCpu ← resource.MustParse cpu
  let requestsMemory ← resource.MustParse memory
  let podTemplateSpec : v1.PodTemplateSpec :=
    { ObjectMeta := { Annotations := annotations }
      Spec :=
        { Containers :=
            [{ Name := "ray-worker"
               Image := image
               Env :=
                 [{ Name := "RAY_DISABLE_DOCKER_CPU_WARNING", Value := "1" },
                  { Name := "TYPE", Value := "worker" },
                  { Name := "CPU_REQUEST"
                    ValueFrom := some
                      { ResourceFieldRef := some
                          { ContainerName := "ray-worker", Resource := "requests.cpu" } } },
                  { Name := "CPU_LIMITS"
                    ValueFrom := some
                      { ResourceFieldRef := some
                          { ContainerName := "ray-worker", Resource := "limits.cpu" } } },
                  { Name := "MEMORY_REQUESTS"
                    ValueFrom := some
                      { ResourceFieldRef := some
                          { ContainerName := "ray-worker", Resource := "requests.cpu" } } },
                  { Name := "MEMORY_LIMITS"
                    ValueFrom := some
                      { ResourceFieldRef := some
                          { ContainerName := "ray-worker", Resource := "limits.cpu" } } },
                  { Name := "MY_POD_NAME"
                    ValueFrom := some { FieldRef := some { FieldPath := "metadata.name" } } },
                  { Name := "MY_POD_IP"
                    ValueFrom := some { FieldRef := some { FieldPath := "status.podIP" } } }]
               Ports := [{ ContainerPort := 80 }]
               Lifecycle :=
                 some { PreStop := some { Exec := some { Command := ["/bin/sh", "-c", "ray stop"] } } }
               Resources :=
                 { Limits := [(v1.ResourceCPU, limitsCpu), (v1.ResourceMemory, limitsMemory)]
                   Requests :=
                     [(v1.ResourceCPU, requestsCpu), (v1.ResourceMemory, requestsMemory)] }
               VolumeMounts := volMounts }]
          Volumes := vols } }
  let podTemplateSpec ← setAccelerator computeRuntime podTemplateSpec
  pure (appendEnvs order envs podTemplateSpec)

/-! ## The cluster -/

/-- The function `intPointer`. -/
def intPointer (value : Int) : Option Int := some value

/-- The loop of `buildRayClusterSpec` over the worker groups: `i` counts the groups done,
`workerGroupSpecs` is the list appended to. The range of the `i`-th worker template has
the order `orders (i + 1)`. -/
def buildRayClusterSpec.workers (K : Constants) (orders : Nat → RangeOrder)
    (imageVersion : String) (envs : List (String × String))
    (computeTemplateMap : List (String × api.ComputeTemplate)) :
    Nat → List api.WorkerGroupSpec → List rayalphaapi.WorkerGroupSpec →
      Except Failure (List rayalphaapi.WorkerGroupSpec)
  | _, [], workerGroupSpecs => pure workerGroupSpecs
  | i, spec :: rest, workerGroupSpecs => do
    let computeTemplate := computeTemplateMap.lookup spec.ComputeTemplate
    let workerPodTemplate ←
      buildWorkerPodTemplate K (orders (i + 1)) imageVersion envs spec computeTemplate
    let minReplicas := spec.Replicas
    let maxReplicas := spec.Replicas
    let minReplicas := if spec.MinReplicas ≠ 0 then spec.MinReplicas else minReplicas
    let maxReplicas := if spec.MaxReplicas ≠ 0 then spec.MaxReplicas else maxReplicas
    let workerNodeSpec : rayalphaapi.WorkerGroupSpec :=
      { GroupName := spec.GroupName
        MinReplicas := intPointer minReplicas
        MaxReplicas := intPointer maxReplicas
        Replicas := intPointer spec.Replicas
        RayStartParams := spec.RayStartParams
        Template := workerPodTemplate }
    buildRayClusterSpec.workers K orders imageVersion envs computeTemplateMap (i + 1) rest
      (workerGroupSpecs ++ [workerNodeSpec])

/-- The function `buildRayClusterSpec`. A template name the map lacks looks up as a nil
pointer. The range of the head template has the order `orders 0`. -/
def buildRayClusterSpec (K : Constants) (orders : Nat → RangeOrder) (imageVersion : String)
    (envs : List (String × String)) (clusterSpec : api.ClusterSpec)
    (computeTemplateMap : List (String × api.ComputeTemplate)) :
    Except Failure rayalphaapi.RayClusterSpec := do
  let computeTemplate := computeTemplateMap.lookup clusterSpec.HeadGroupSpec.ComputeTemplate
  let headPodTemplate ←
    buildHeadPodTemplate K (orders 0) imageVersion envs clusterSpec.HeadGroupSpec computeTemplate
  let headReplicas : Int := 1
  let rayClusterSpec : rayalphaapi.RayClusterSpec :=
    { RayVersion := imageVersion
      HeadGroupSpec :=
        { ServiceType := clusterSpec.HeadGroupSpec.ServiceType
          Template := headPodTemplate
          Replicas := some headReplicas
          RayStartParams := clusterSpec.HeadGroupSpec.RayStartParams }
      WorkerGroupSpecs := [] }
  let workerGroupSpecs ←
    buildRayClusterSpec.workers K orders imageVersion envs computeTemplateMap 0
      clusterSpec.WorkerGroupSpec rayClusterSpec.WorkerGroupSpecs
  pure { rayClusterSpec with WorkerGroupSpecs := workerGroupSpecs }

/-- The function `buildRayClusterLabels`. -/
def buildRayClusterLabels (K : Constants) (cluster : api.Cluster) : List (String × String) :=
  let labels : List (String × String) := []
  let labels := mapSet labels K.RayClusterNameLabelKey cluster.Name
  let labels := mapSet labels K.RayClusterUserLabelKey cluster.User
  let labels := mapSet labels K.RayClusterVersionLabelKey cluster.Version
  let labels :=
    mapSet labels K.RayClusterEnvironmentLabelKey (K.EnvironmentString cluster.Environment)
  let labels := mapSet labels K.KubernetesApplicationNameLabelKey K.ApplicationName
  let labels := mapSet labels K.KubernetesManagedByLabelKey K.ComponentName
  labels

/-- The function `buildRayClusterAnnotations`. -/
def buildRayClusterAnnotations (_cluster : api.Cluster) : List (String × String) :=
  []

/-- The function `NewRayCluster`. -/
def NewRayCluster (K : Constants) (orders : Nat → RangeOrder) (apiCluster : api.Cluster)
    (computeTemplateMap : List (String × api.ComputeTemplate)) :
    Except Failure rayalphaapi.RayCluster := do
  let labels := buildRayClusterLabels K apiCluster
  let annotations := buildRayClusterAnnotations apiCluster
  let spec ←
    buildRayClusterSpec K orders apiCluster.Version apiCluster.Envs apiCluster.ClusterSpec
      computeTemplateMap
  pure
    { ObjectMeta :=
        { Name := apiCluster.Name
          Namespace := apiCluster.Namespace
          Labels := labels
          Annotations := annotations }
      Spec := spec }

/-! ## Compute templates as configuration records -/

namespace strconv

/-- The digits of `n` in the given base, least significant first; `fuel` bounds their
number. -/
def baseDigits (base : Nat) : Nat → Nat → List Nat
  | 0, _ => []
  | fuel + 1, n =>
    (n % base) :: (if n / base = 0 then [] else baseDigits base fuel (n / base))

/-- The digit characters of `strconv`, for the bases up to 36. -/
def digits : List Char := "0123456789abcdefghijklmnopqrstuvwxyz".data

/-- The function `strconv.FormatUint`: the digits of `i` in the given base, most significant
first. -/
def FormatUint (i : Nat) (base : Nat) : String :=
  String.mk ((baseDigits base (i + 1) i).reverse.map fun d => digits.getD d '0')

/-- The function `strconv.ParseUint` for base 10 and unbounded size: the number written by
a non-empty run of decimal digits, and nothing for any other string. -/
def ParseUint (s : String) : Option Nat :=
  if s.data ≠ [] ∧ s.data.all Char.isDigit then some (resource.parseDecimal s.data) else none

end strconv

namespace v1

/-- The type `v1.ConfigMap`, with the fields the code sets. -/
structure ConfigMap where
  ObjectMeta : ObjectMeta := {}
  Data : List (String × String) := []
  deriving DecidableEq, Repr

end v1

/-- The function `NewComputeTemplate`; its error result is always nil. -/
def NewComputeTemplate (runtime : api.ComputeTemplate) : Except Failure v1.ConfigMap :=
  let config : v1.ConfigMap :=
    { ObjectMeta :=
        { Name := runtime.Name
          Namespace := runtime.Namespace
          Labels :=
            [("ray.io/config-type", "compute-template"),
             ("ray.io/compute-template", runtime.Name)] }
      Data :=
        [("name", runtime.Name),
         ("namespace", runtime.Namespace),
         ("cpu", strconv.FormatUint runtime.Cpu 10),
         ("memory", strconv.FormatUint runtime.Memory 10),
         ("gpu", strconv.FormatUint runtime.Gpu 10),
         ("gpu_accelerator", runtime.GpuAccelerator)] }
  .ok config

/-! ## Node addresses -/

namespace v1

/-- The constant `v1.NodeInternalIP`. -/
def NodeInternalIP : String := "InternalIP"

/-- The constant `v1.NodeExternalIP`. -/
def NodeExternalIP : String := "ExternalIP"

/-- The type `v1.NodeAddress`; `Type_` is the field `Type`, a `NodeAddressType` string. -/
structure NodeAddress where
  Type_ : String
  Address : String
  deriving DecidableEq, Repr

/-- The type `v1.NodeStatus`, with the field the code reads. -/
structure NodeStatus where
  Addresses : List NodeAddress := []
  deriving DecidableEq, Repr

/-- The type `v1.Node`, with the field the code reads. -/
structure Node where
  Status : NodeStatus := {}
  deriving DecidableEq, Repr

end v1

/-- What the verb `%v` prints for a slice of node addresses: the structs in braces, their
fields and the elements separated by blanks, the whole in brackets. -/
def formatAddresses (addresses : List v1.NodeAddress) : String :=
  "[" ++ " ".intercalate (addresses.map fun a => "\x7b" ++ a.Type_ ++ " " ++ a.Address ++ "\x7d")
    ++ "]"

/-- The first loop of `GetNodeHostIP`: the addresses grouped by type, each group in the
order of the list. -/
def groupAddresses (addresses : List v1.NodeAddress) : List (String × List v1.NodeAddress) :=
  addresses.foldl
    (fun addressMap a => mapSet addressMap a.Type_ ((addressMap.lookup a.Type_).getD [] ++ [a]))
    []

/-- The function `GetNodeHostIP`. The function `net.ParseIP` of the standard library is the
parameter `ParseIP`; it gives a nil address, and no error, for a string that is no IP. -/
def GetNodeHostIP {IP : Type} (ParseIP : String → IP) (node : v1.Node) : Except Failure IP :=
  let addresses := node.Status.Addresses
  let addressMap := groupAddresses addresses
  match addressMap.lookup v1.NodeInternalIP with
  | some (a :: _) => .ok (ParseIP a.Address)
  | some [] => .error (.panic .indexOutOfRange)
  | none =>
    match addressMap.lookup v1.NodeExternalIP with
    | some (a :: _) => .ok (ParseIP a.Address)
    | some [] => .error (.panic .indexOutOfRange)
    | none =>
      .error (.error ("host IP unknown; known addresses: " ++ formatAddresses addresses))

/-! ## Comparing the outputs of two calls -/

/-- Two containers that agree in every field but the environment, whose environments are a
common run of leading entries followed by the same `n` entries, in an order of their own. -/
def v1.Container.SameUpToOverrideOrder (n : Nat) (c₁ c₂ : v1.Container) : Prop :=
  { c₁ with Env := [] } = { c₂ with Env := [] } ∧
  ∃ leading o₁ o₂,
    c₁.Env = leading ++ o₁ ∧ c₂.Env = leading ++ o₂ ∧ o₁.Perm o₂ ∧ o₁.length = n

/-- Two pod templates that agree in everything but the order of the last `n` environment
entries of their containers. -/
def v1.PodTemplateSpec.SameUpToOverrideOrder (n : Nat) (t₁ t₂ : v1.PodTemplateSpec) : Prop :=
  t₁.ObjectMeta = t₂.ObjectMeta ∧ t₁.Spec.Volumes = t₂.Spec.Volumes ∧
  List.Forall₂ (v1.Container.SameUpToOverrideOrder n) t₁.Spec.Containers t₂.Spec.Containers

/-- Two clusters that agree in everything but the order of the last `n` environment entries
of the containers of their head and worker templates. -/
def rayalphaapi.RayCluster.SameUpToOverrideOrder (n : Nat) (c₁ c₂ : rayalphaapi.RayCluster) :
    Prop :=
  c₁.ObjectMeta = c₂.ObjectMeta ∧
  { c₁.Spec with HeadGroupSpec := {}, WorkerGroupSpecs := [] } =
    { c₂.Spec with HeadGroupSpec := {}, WorkerGroupSpecs := [] } ∧
  { c₁.Spec.HeadGroupSpec with Template := {} } =
    { c₂.Spec.HeadGroupSpec with Template := {} } ∧
  c₁.Spec.HeadGroupSpec.Template.SameUpToOverrideOrder n c₂.Spec.HeadGroupSpec.Template ∧
  List.Forall₂
    (fun w₁ w₂ : rayalphaapi.WorkerGroupSpec =>
      { w₁ with Template := {} } = { w₂ with Template := {} } ∧
      w₁.Template.SameUpToOverrideOrder n w₂.Template)
    c₁.Spec.WorkerGroupSpecs c₂.Spec.WorkerGroupSpecs

/-- Two calls end the same way: with the same failure, or with results related by `R`. -/
def SameOutcome {α : Type} (R : α → α → Prop) : Except Failure α → Except Failure α → Prop
  | .ok a, .ok b => R a b
  | .error e, .error f => e = f
  | _, _ => False

/-! ## The head service (`ray-operator/controllers/ray/common`) -/

/-- What `fmt.Sprint` prints for a signed integer. -/
def SprintInt : Int → String
  | .ofNat n => Sprint n
  | .negSucc n => "-" ++ Sprint (n + 1)

/-- Modelled from the spec: the constants of package `common` that the service tests name
and src does not declare. They are the five default label keys (cluster name, node type,
application, managed-by and the template-derived key), which are five different keys, and
the values of the four labels that do not come from the cluster's name; the fixed role name
of the primary container; the fixed name and default number of the metrics port and the
application protocol of the computed ports; and `GenerateServiceName`, which derives the
service's name from the cluster's name when the override names none and, as the tests
require of a generated name, gives no empty name for a cluster that has a name. -/
structure ServiceConstants where
  RayClusterLabelKey : String
  RayNodeTypeLabelKey : String
  KubernetesApplicationNameLabelKey : String
  ManagedByLabelKey : String
  TemplateLabelKey : String
  HeadNode : String
  ApplicationName : String
  ManagedByValue : String
  TemplateLabelValue : String → v1.PodTemplateSpec → String
  RayContainerName : String
  DefaultMetricsName : String
  DefaultMetricsPort : Int
  DefaultServiceAppProtocol : String
  GenerateServiceName : String → String
  keys_nodup :
    [RayClusterLabelKey, RayNodeTypeLabelKey, KubernetesApplicationNameLabelKey,
      ManagedByLabelKey, TemplateLabelKey].Nodup
  generated_ne : ∀ name, name ≠ "" → GenerateServiceName name ≠ ""

/-- A set of service constants to evaluate the model with. -/
def exampleServiceConstants : ServiceConstants where
  RayClusterLabelKey := "ray.io/cluster"
  RayNodeTypeLabelKey := "ray.io/node-type"
  KubernetesApplicationNameLabelKey := "app.kubernetes.io/name"
  ManagedByLabelKey := "app.kubernetes.io/created-by"
  TemplateLabelKey := "ray.io/identifier"
  HeadNode := "head"
  ApplicationName := "kuberay"
  ManagedByValue := "kuberay-operator"
  TemplateLabelValue := fun name _ => name ++ "-head"
  RayContainerName := "ray-head"
  DefaultMetricsName := "metrics"
  DefaultMetricsPort := 8080
  DefaultServiceAppProtocol := "tcp"
  GenerateServiceName := fun name => name ++ "-head-svc"
  keys_nodup := by decide
  generated_ne := by
    intro name _ e
    have e' : name ++ "-head-svc" = "" := e
    have h : (name ++ "-head-svc").length = 0 := by rw [e']; rfl
    rw [String.length_append] at h
    have h9 : "-head-svc".length = 9 := by decide
    omega

/-- The order in which one range over a name-to-port map visits its pairs. -/
abbrev PortRangeOrder := List (String × Int) → List (String × Int)

/-- A range order visits every pair of the map once. -/
def PortRangeOrder.Valid (order : PortRangeOrder) : Prop :=
  ∀ m, (order m).Perm m

/-- Modelled from the spec: the function `HeadServiceLabels` is missing from src. It gives
the operator's default labels, exactly the fixed five-key set. -/
def HeadServiceLabels (S : ServiceConstants) (cluster : rayalphaapi.RayCluster) :
    List (String × String) :=
  [(S.RayClusterLabelKey, cluster.ObjectMeta.Name),
   (S.RayNodeTypeLabelKey, S.HeadNode),
   (S.KubernetesApplicationNameLabelKey, S.ApplicationName),
   (S.ManagedByLabelKey, S.ManagedByValue),
   (S.TemplateLabelKey,
     S.TemplateLabelValue cluster.ObjectMeta.Name cluster.Spec.HeadGroupSpec.Template)]

/-- Modelled from the spec: the function `getPortsFromCluster` is missing from src. It
locates the primary container of the head template by its fixed role name, which is an
error when no container has that name, and collects one entry per declared container port
into a name-to-port map, under the port's own name when it has one and under
`<portNumber>-port` otherwise. -/
def getPortsFromCluster (S : ServiceConstants) (cluster : rayalphaapi.RayCluster) :
    Except Failure (List (String × Int)) :=
  match cluster.Spec.HeadGroupSpec.Template.Spec.Containers.find?
      (fun c => c.Name = S.RayContainerName) with
  | none => .error (.error "the head template has no primary container")
  | some c =>
    .ok (c.Ports.foldl
      (fun svcPorts port =>
        let name := if port.Name = "" then SprintInt port.ContainerPort ++ "-port" else port.Name
        mapSet svcPorts name port.ContainerPort)
      [])

/-- Modelled from the spec: the function `getServicePorts` is missing from src. After the
pass over the container ports, if no port uses the fixed metrics name, which includes the
case of a container with no ports at all, the default metrics port is added under that
name; a declared port of that name is left as it is. -/
def getServicePorts (S : ServiceConstants) (cluster : rayalphaapi.RayCluster) :
    Except Failure (List (String × Int)) := do
  let ports ← getPortsFromCluster S cluster
  match ports.lookup S.DefaultMetricsName with
  | some _ => pure ports
  | none => pure (mapSet ports S.DefaultMetricsName S.DefaultMetricsPort)

/-- Modelled from the spec: the union of two maps in which the value of `winner` stands
for a key both have. -/
def mapUnion (winner other : List (String × String)) : List (String × String) :=
  winner ++ other.filter fun kv => (winner.lookup kv.1).isNone

/-- Modelled from the spec: one user port is merged into the port list; it replaces the
entry of its name when there is one and is appended otherwise. -/
def mergePort (ports : List v1.ServicePort) (userPort : v1.ServicePort) : List v1.ServicePort :=
  if ports.any (fun p => p.Name = userPort.Name) then
    ports.map fun p => if p.Name = userPort.Name then userPort else p
  else ports ++ [userPort]

/-- Go's `a <= b` on strings, lexicographic, given the characters of the two strings. -/
def stringLE : List Char → List Char → Bool
  | [], _ => true
  | _ :: _, [] => false
  | a :: as, b :: bs =>
    if a.toNat < b.toNat then true
    else if b.toNat < a.toNat then false
    else stringLE as bs

/-- Modelled from the spec: the operator-computed service ports, one per entry of
`getServicePorts`, listed in ascending order of name whatever order the range over the map
takes, so that the list is the same on every call. -/
def computedServicePorts (S : ServiceConstants) (order : PortRangeOrder)
    (cluster : rayalphaapi.RayCluster) : Except Failure (List v1.ServicePort) := do
  let portsInt ← getServicePorts S cluster
  let ports : List v1.ServicePort := (order portsInt).map fun kv =>
    { Name := kv.1, Port := kv.2, AppProtocol := some S.DefaultServiceAppProtocol }
  pure (ports.insertionSort fun p q => stringLE p.Name.data q.Name.data = true)

/-- Modelled from the spec: the function `BuildServiceForHeadPod` is missing from src. The
selector has the five default keys, each with the template label's value when `labels`
defines the key and the default value otherwise. Without a user override the service has
the generated name, the cluster's namespace, the selector as labels, the caller's
annotations, the computed ports and the default type. With an override the name is the
override's when it gives one, the namespace is still the cluster's, the labels are the union
of selector and override labels with the selector winning, the annotations the union of the
caller's and the override's with the caller's winning, the ports the computed ports with
every override port merged in, and the type the override's when it gives one. -/
def BuildServiceForHeadPod (S : ServiceConstants) (order : PortRangeOrder)
    (cluster : rayalphaapi.RayCluster) (labels : List (String × String))
    (annotations : List (String × String)) : Except Failure v1.Service := do
  let defaultLabels := HeadServiceLabels S cluster
  let selector := defaultLabels.map fun kv => (kv.1, (labels.lookup kv.1).getD kv.2)
  let defaultName := S.GenerateServiceName cluster.ObjectMeta.Name
  let defaultNamespace := cluster.ObjectMeta.Namespace
  let ports ← computedServicePorts S order cluster
  match cluster.Spec.HeadGroupSpec.HeadService with
  | none =>
    pure
      { ObjectMeta :=
          { Name := defaultName
            Namespace := defaultNamespace
            Labels := selector
            Annotations := annotations }
        Spec := { Selector := selector, Ports := ports, Type_ := v1.ServiceTypeClusterIP } }
  | some headService =>
    pure
      { ObjectMeta :=
          { Name := if headService.ObjectMeta.Name = "" then defaultName
              else headService.ObjectMeta.Name
            Namespace := defaultNamespace
            Labels := mapUnion selector headService.ObjectMeta.Labels
            Annotations := mapUnion annotations headService.ObjectMeta.Annotations }
        Spec :=
          { Selector := selector
            Ports := headService.Spec.Ports.foldl mergePort ports
            Type_ := if headService.Spec.Type_ = "" then v1.ServiceTypeClusterIP
              else headService.Spec.Type_ } }

/-- The cluster of the service tests (`instanceWithWrongSvc`) with the user-specified head
service of `TestUserSpecifiedHeadService`; "client" stands for the client port's name. -/
def exampleRayCluster : rayalphaapi.RayCluster :=
  { ObjectMeta := { Name := "raycluster-sample", Namespace := "default" }
    Spec :=
      { RayVersion := "1.0"
        HeadServiceAnnotations :=
          [("HeadServiceAnnotationKey1", "HeadServiceAnnotationValue1"),
           ("HeadServiceAnnotationKey2", "HeadServiceAnnotationValue2")]
        HeadGroupSpec :=
          { Replicas := some 1
            RayStartParams :=
              [("port", "6379"), ("object-manager-port", "12345"),
               ("node-manager-port", "12346"), ("object-store-memory", "100000000"),
               ("num-cpus", "1")]
            Template :=
              { ObjectMeta := { Namespace := "default", Labels := [("groupName", "headgroup")] }
                Spec :=
                  { Containers :=
                      [{ Name := "ray-head"
                         Image := "rayproject/autoscaler"
                         Ports :=
                           [{ Name := "gcs", ContainerPort := 6379 }, { ContainerPort := 8265 }]
                         Env :=
                           [{ Name := "MY_POD_IP"
                              ValueFrom := some
                                { FieldRef := some { FieldPath := "status.podIP" } } }] }] } }
            HeadService := some
              { ObjectMeta :=
                  { Name := "user-custom-name"
                    Namespace := "user-custom-namespace"
                    Labels :=
                      [("userLabelKey", "userLabelValue"), ("ray.io/cluster", "userClusterName")]
                    Annotations :=
                      [("userAnnotationKey", "userAnnotationValue"),
                       ("HeadServiceAnnotationKey1", "user_override")] }
                Spec :=
                  { Ports :=
                      [{ Name := "userPort", Port := 12345 }, { Name := "client", Port := 98765 }]
                    Selector :=
                      [("userSelectorKey", "userSelectorValue"),
                       ("ray.io/cluster", "userSelectorClusterName")]
                    Type_ := "LoadBalancer" } } } } }

/-! ## Closed forms used in the proofs -/

/-- The requests, and the limits, the two builders leave on the container. -/
def resourcesOf (ct : api.ComputeTemplate) : v1.ResourceList :=
  let base : v1.ResourceList :=
    [(v1.ResourceCPU, { value := ct.Cpu, format := .DecimalSI }),
     (v1.ResourceMemory, { value := ct.Memory * 2 ^ 30, format := .BinarySI })]
  if ct.Gpu = 0 then base
  else
    mapSet base (if ct.GpuAccelerator = "" then "nvidia.com/gpu" else ct.GpuAccelerator)
      { value := ct.Gpu, format := .DecimalSI }

/-- What the worker loop emits for the group `spec` when it is the `k`-th. -/
def WorkerEmitted (K : Constants) (orders : Nat → RangeOrder) (imageVersion : String)
    (envs : List (String × String)) (computeTemplateMap : List (String × api.ComputeTemplate))
    (k : Nat) (spec : api.WorkerGroupSpec) (out : rayalphaapi.WorkerGroupSpec) : Prop :=
  out.GroupName = spec.GroupName ∧
  out.Replicas = some spec.Replicas ∧
  out.MinReplicas = some (if spec.MinReplicas ≠ 0 then spec.MinReplicas else spec.Replicas) ∧
  out.MaxReplicas = some (if spec.MaxReplicas ≠ 0 then spec.MaxReplicas else spec.Replicas) ∧
  out.RayStartParams = spec.RayStartParams ∧
  buildWorkerPodTemplate K (orders (k + 1)) imageVersion envs spec
    (computeTemplateMap.lookup spec.ComputeTemplate) = .ok out.Template

/-- Every compute template the cluster spec names, for its head group and for each worker
group, is a key of the map. -/
def templatesPresent (computeTemplateMap : List (String × api.ComputeTemplate))
    (clusterSpec : api.ClusterSpec) : Bool :=
  (computeTemplateMap.lookup clusterSpec.HeadGroupSpec.ComputeTemplate).isSome &&
    clusterSpec.WorkerGroupSpec.all fun spec =>
      (computeTemplateMap.lookup spec.ComputeTemplate).isSome

/-- The accelerator key the GPU block resolves for a template: the fixed default when the
template names none. -/
def acceleratorOf (ct : api.ComputeTemplate) : String :=
  if ct.GpuAccelerator = "" then "nvidia.com/gpu" else ct.GpuAccelerator

/-- The name under which `getPortsFromCluster` enters a container port: the port's own name
when it has one, the name generated from its number otherwise. -/
def servicePortName (port : v1.ContainerPort) : String :=
  if port.Name = "" then SprintInt port.ContainerPort ++ "-port" else port.Name

/-- The reverting step of `TestGetPortsFromCluster`: an entry whose name is the one
generated from its number gets the empty name back. -/
def revertGeneratedName (entry : String × Int) : String :=
  if entry.1 = SprintInt entry.2 ++ "-port" then "" else entry.1

/-! # Lemmas -/

/-! ## Printing and parsing -/

theorem decimalDigits_lt_ten (fuel n : Nat) : ∀ d ∈ decimalDigits fuel n, d < 10 := by
  induction fuel generalizing n with
  | zero => simp [decimalDigits]
  | succ fuel ih =>
    intro d hd
    simp only [decimalDigits, List.mem_cons] at hd
    rcases hd with rfl | hd
    · exact Nat.mod_lt _ (by decide)
    · split at hd
      · simp at hd
      · exact ih _ d hd

theorem decimalDigits_ne_nil (fuel n : Nat) : decimalDigits (fuel + 1) n ≠ [] := by
  simp [decimalDigits]

theorem decimalDigits_value (fuel n : Nat) (h : n < fuel) :
    (decimalDigits fuel n).foldr (fun d a => 10 * a + d) 0 = n := by
  induction fuel generalizing n with
  | zero => omega
  | succ fuel ih =>
    simp only [decimalDigits, List.foldr_cons]
    split
    · simp only [List.foldr_nil]; omega
    · rw [ih (n / 10) (by omega)]; omega

theorem digitChar_isDigit (d : Nat) (h : d < 10) : (digitChar d).isDigit = true := by
  interval_cases d <;> decide

theorem digitChar_toNat (d : Nat) (h : d < 10) : (digitChar d).toNat - 48 = d := by
  interval_cases d <;> decide

theorem parseDecimal_digits (ds : List Nat) (h : ∀ d ∈ ds, d < 10) :
    resource.parseDecimal (ds.reverse.map digitChar) = ds.foldr (fun d a => 10 * a + d) 0 := by
  unfold resource.parseDecimal
  rw [List.foldl_map, List.foldl_reverse]
  induction ds with
  | nil => rfl
  | cons d ds ih =>
    simp only [List.foldr_cons]
    rw [ih (fun x hx => h x (List.mem_cons_of_mem _ hx)), digitChar_toNat d (h d (List.mem_cons_self _ _))]

theorem span_isDigit (cs suffix : List Char) (h : ∀ c ∈ cs, c.isDigit = true)
    (hs : ∀ c ∈ suffix.head?, c.isDigit = false) :
    (cs ++ suffix).span Char.isDigit = (cs, suffix) := by
  rw [List.span_eq_take_drop]
  induction cs with
  | nil =>
    cases suffix with
    | nil => rfl
    | cons c rest => simp [List.takeWhile, List.dropWhile, hs c (by simp)]
  | cons c cs ih =>
    have hc := h c (List.mem_cons_self _ _)
    have := ih (fun x hx => h x (List.mem_cons_of_mem _ hx))
    simp only [List.cons_append, List.takeWhile_cons, List.dropWhile_cons, hc, if_true]
    simp only [Prod.mk.injEq] at this ⊢
    exact ⟨by rw [this.1], this.2⟩

theorem Sprint_data (n : Nat) :
    (Sprint n).data = (decimalDigits (n + 1) n).reverse.map digitChar := rfl

theorem ParseQuantity_digits (n : Nat) (suffix : List Char) (scale : Nat)
    (format : resource.Format) (hs : ∀ c ∈ suffix.head?, c.isDigit = false)
    (hscale : resource.suffixScale suffix = some (scale, format)) :
    resource.ParseQuantity (Sprint n ++ String.mk suffix) =
      some { value := n * scale, format := format } := by
  have hd := decimalDigits_lt_ten (n + 1) n
  have hspan : ((Sprint n ++ String.mk suffix).data).span Char.isDigit =
      ((decimalDigits (n + 1) n).reverse.map digitChar, suffix) := by
    rw [String.data_append, Sprint_data]
    apply span_isDigit _ _ _ hs
    intro c hc
    obtain ⟨d, hd', rfl⟩ := List.mem_map.1 hc
    exact digitChar_isDigit d (hd d (List.mem_reverse.1 hd'))
  unfold resource.ParseQuantity
  rw [hspan]
  have hne : (decimalDigits (n + 1) n).reverse.map digitChar ≠ [] := by
    simpa using decimalDigits_ne_nil n n
  simp only [hne, if_false, hscale, parseDecimal_digits _ hd,
    decimalDigits_value (n + 1) n (Nat.lt_succ_self n)]

/-- Printing a number and parsing it back as a quantity gives that number of units. -/
theorem MustParse_Sprint (n : Nat) :
    resource.MustParse (Sprint n) = .ok { value := n, format := .DecimalSI } := by
  have h := ParseQuantity_digits n [] 1 .DecimalSI (by simp) rfl
  have e : Sprint n ++ String.mk [] = Sprint n := by
    apply String.ext; simp
  rw [e] at h
  simp [resource.MustParse, h]

/-- The string `<n>Gi` parses as `n * 2^30` units in binary notation. -/
theorem MustParse_Sprint_Gi (n : Nat) :
    resource.MustParse (Sprint n ++ "Gi") = .ok { value := n * 2 ^ 30, format := .BinarySI } := by
  have h := ParseQuantity_digits n ['G', 'i'] (2 ^ 30) .BinarySI (by simp) rfl
  have e : String.mk ['G', 'i'] = "Gi" := rfl
  rw [e] at h
  simp [resource.MustParse, h]

/-! ## Maps and loops -/

theorem foldl_append_singleton {α β : Type} (f : α → β) (l : List α) (init : List β) :
    l.foldl (fun acc x => acc ++ [f x]) init = init ++ l.map f := by
  induction l generalizing init with
  | nil => simp
  | cons x xs ih => simp [ih]

theorem string_length_eq_zero (s : String) : s.length = 0 ↔ s = "" := by
  constructor
  · intro h
    apply String.ext
    exact List.length_eq_zero.1 h
  · rintro rfl; rfl

theorem lookup_mapSet_self {β : Type} (m : List (String × β)) (k : String) (v : β) :
    (mapSet m k v).lookup k = some v := by
  induction m with
  | nil => simp [mapSet, List.lookup]
  | cons kv rest ih =>
    obtain ⟨k', v'⟩ := kv
    by_cases h : k' = k
    · simp [mapSet, h, List.lookup]
    · have h' : (k == k') = false := by simpa using fun e => h e.symm
      simp [mapSet, h, List.lookup, h', ih]

theorem lookup_mapSet_of_ne {β : Type} (m : List (String × β)) (k k' : String) (v : β)
    (h : k' ≠ k) : (mapSet m k v).lookup k' = m.lookup k' := by
  induction m with
  | nil =>
    have h' : (k' == k) = false := by simpa using h
    simp [mapSet, List.lookup, h']
  | cons kv rest ih =>
    obtain ⟨k₀, v₀⟩ := kv
    by_cases h₀ : k₀ = k
    · subst h₀
      have h' : (k' == k₀) = false := by simpa using h
      simp [mapSet, List.lookup, h']
    · simp only [mapSet, h₀, if_false, List.lookup]
      cases k' == k₀ <;> simp [ih]

/-- The pod template after the environment loop: the first container gains one literal
variable per visited pair, nothing else changes. -/
theorem appendEnvs_cons (order : RangeOrder) (envs : List (String × String))
    (t : v1.PodTemplateSpec) (c : v1.Container) (cs : List v1.Container)
    (h : t.Spec.Containers = c :: cs) :
    appendEnvs order envs t =
      { t with Spec := { t.Spec with Containers :=
          { c with Env := c.Env ++ (order envs).map fun kv =>
              ({ Name := kv.1, Value := kv.2 } : v1.EnvVar) } :: cs } } := by
  unfold appendEnvs
  generalize order envs = l
  induction l generalizing t c with
  | nil =>
    obtain ⟨meta, ⟨containers, vols⟩⟩ := t
    simp only at h
    subst h
    simp
  | cons kv rest ih =>
    rw [List.foldl_cons]
    rw [ih _ { c with Env := c.Env ++ [{ Name := kv.1, Value := kv.2 }] }]
    · simp [v1.PodTemplateSpec.modifyContainer0]
    · simp [v1.PodTemplateSpec.modifyContainer0, h]

theorem setAccelerator_some (ct : api.ComputeTemplate) (t : v1.PodTemplateSpec)
    (c : v1.Container) (cs : List v1.Container) (h : t.Spec.Containers = c :: cs)
    (hr : c.Resources.Requests =
      [(v1.ResourceCPU, { value := ct.Cpu, format := .DecimalSI }),
       (v1.ResourceMemory, { value := ct.Memory * 2 ^ 30, format := .BinarySI })])
    (hl : c.Resources.Limits = c.Resources.Requests) :
    setAccelerator (some ct) t =
      .ok { t with Spec := { t.Spec with Containers :=
          { c with Resources := { Limits := resourcesOf ct, Requests := resourcesOf ct } }
            :: cs } } := by
  obtain ⟨meta, ⟨containers, vols⟩⟩ := t
  simp only at h
  subst h
  obtain ⟨name, image, env, ports, lifecycle, ⟨limits, requests⟩, mounts⟩ := c
  simp only at hr hl
  subst hl hr
  unfold setAccelerator resourcesOf
  by_cases hg : ct.Gpu = 0
  · simp [api.ComputeTemplate.GetGpu, hg, pure, Except.pure]
  · by_cases ha : ct.GpuAccelerator = ""
    · simp [api.ComputeTemplate.GetGpu, api.ComputeTemplate.GetGpuAccelerator, hg, ha,
        MustParse_Sprint, bind, Except.bind, pure, Except.pure,
        v1.PodTemplateSpec.modifyContainer0]
    · have hlen : ct.GpuAccelerator.length ≠ 0 := fun e => ha ((string_length_eq_zero _).1 e)
      simp [api.ComputeTemplate.GetGpu, api.ComputeTemplate.GetGpuAccelerator, hg, ha, hlen,
        MustParse_Sprint, bind, Except.bind, pure, Except.pure,
        v1.PodTemplateSpec.modifyContainer0]

/-- The head pod template of a non-nil compute template, in closed form. -/
theorem buildHeadPodTemplate_some (K : Constants) (order : RangeOrder) (imageVersion : String)
    (envs : List (String × String)) (spec : api.HeadGroupSpec) (ct : api.ComputeTemplate) :
    buildHeadPodTemplate K order imageVersion envs spec (some ct) = .ok
      { ObjectMeta :=
          { Annotations :=
              mapSet (mapSet [] K.RayClusterComputeTemplateAnnotationKey ct.Name)
                K.RayClusterImageAnnotationKey spec.Image }
        Spec :=
          { Containers :=
              [{ Name := "ray-head"
                 Image :=
                   if spec.Image = "" then
                     constructRayImage K.RayClusterDefaultImageRepository imageVersion
                   else spec.Image
                 Env :=
                   [{ Name := "MY_POD_IP"
                      ValueFrom := some { FieldRef := some { FieldPath := "status.podIP" } } }]
                     ++ (order envs).map fun kv => ({ Name := kv.1, Value := kv.2 } : v1.EnvVar)
                 Ports :=
                   [{ Name := "redis", ContainerPort := 6379 },
                    { Name := "head", ContainerPort := 10001 },
                    { Name := "dashboard", ContainerPort := 8265 },
                    { Name := "metrics", ContainerPort := 8080 }]
                 Resources := { Limits := resourcesOf ct, Requests := resourcesOf ct }
                 VolumeMounts := buildVolumeMounts spec.Volumes }]
            Volumes := buildVols spec.Volumes } } := by
  unfold buildHeadPodTemplate
  simp only [buildNodeGroupAnnotations, api.ComputeTemplate.GetCpu,
    api.ComputeTemplate.GetMemory, MustParse_Sprint, MustParse_Sprint_Gi, bind, Except.bind,
    pure, Except.pure]
  rw [setAccelerator_some ct _ _ [] rfl rfl rfl]
  simp only
  rw [appendEnvs_cons order envs _ _ [] rfl]
  by_cases hi : spec.Image = ""
  · simp [hi]
  · have hlen : spec.Image.length ≠ 0 := fun e => hi ((string_length_eq_zero _).1 e)
    simp [hi, hlen]

/-- The worker pod template of a non-nil compute template, in closed form. -/
theorem buildWorkerPodTemplate_some (K : Constants) (order : RangeOrder)
    (imageVersion : String) (envs : List (String × String)) (spec : api.WorkerGroupSpec)
    (ct : api.ComputeTemplate) :
    buildWorkerPodTemplate K order imageVersion envs spec (some ct) = .ok
      { ObjectMeta :=
          { Annotations :=
              mapSet (mapSet [] K.RayClusterComputeTemplateAnnotationKey ct.Name)
                K.RayClusterImageAnnotationKey spec.Image }
        Spec :=
          { Containers :=
              [{ Name := "ray-worker"
                 Image :=
                   if spec.Image = "" then
                     constructRayImage K.RayClusterDefaultImageRepository imageVersion
                   else spec.Image
                 Env :=
                   [{ Name := "RAY_DISABLE_DOCKER_CPU_WARNING", Value := "1" },
                    { Name := "TYPE", Value := "worker" },
                    { Name := "CPU_REQUEST"
                      ValueFrom := some
                        { ResourceFieldRef := some
                            { ContainerName := "ray-worker", Resource := "requests.cpu" } } },
                    { Name := "CPU_LIMITS"
                      ValueFrom := some
                        { ResourceFieldRef := some
                            { ContainerName := "ray-worker", Resource := "limits.cpu" } } },
                    { Name := "MEMORY_REQUESTS"
                      ValueFrom := some
                        { ResourceFieldRef := some
                            { ContainerName := "ray-worker", Resource := "requests.cpu" } } },
                    { Name := "MEMORY_LIMITS"
                      ValueFrom := some
                        { ResourceFieldRef := some
                            { ContainerName := "ray-worker", Resource := "limits.cpu" } } },
                    { Name := "MY_POD_NAME"
                      ValueFrom := some { FieldRef := some { FieldPath := "metadata.name" } } },
                    { Name := "MY_POD_IP"
                      ValueFrom := some { FieldRef := some { FieldPath := "status.podIP" } } }]
                     ++ (order envs).map fun kv => ({ Name := kv.1, Value := kv.2 } : v1.EnvVar)
                 Ports := [{ ContainerPort := 80 }]
                 Lifecycle :=
                   some { PreStop := some { Exec := some { Command := ["/bin/sh", "-c", "ray stop"] } } }
                 Resources := { Limits := resourcesOf ct, Requests := resourcesOf ct }
                 VolumeMounts := buildVolumeMounts spec.Volumes }]
            Volumes := buildVols spec.Volumes } } := by
  unfold buildWorkerPodTemplate
  simp only [buildNodeGroupAnnotations, api.ComputeTemplate.GetCpu,
    api.ComputeTemplate.GetMemory, MustParse_Sprint, MustParse_Sprint_Gi, bind, Except.bind,
    pure, Except.pure]
  rw [setAccelerator_some ct _ _ [] rfl rfl rfl]
  simp only
  rw [appendEnvs_cons order envs _ _ [] rfl]
  by_cases hi : spec.Image = ""
  · simp [hi]
  · have hlen : spec.Image.length ≠ 0 := fun e => hi ((string_length_eq_zero _).1 e)
    simp [hi, hlen]

/-- A nil compute template makes the head builder panic. -/
theorem buildHeadPodTemplate_none (K : Constants) (order : RangeOrder) (imageVersion : String)
    (envs : List (String × String)) (spec : api.HeadGroupSpec) :
    buildHeadPodTemplate K order imageVersion envs spec none =
      .error (.panic .nilPointerDereference) := rfl

/-- A nil compute template makes the worker builder panic. -/
theorem buildWorkerPodTemplate_none (K : Constants) (order : RangeOrder)
    (imageVersion : String) (envs : List (String × String)) (spec : api.WorkerGroupSpec) :
    buildWorkerPodTemplate K order imageVersion envs spec none =
      .error (.panic .nilPointerDereference) := rfl

/-- Both builders return whenever the compute template is not nil. -/
theorem buildWorkerPodTemplate_isOk (K : Constants) (order : RangeOrder)
    (imageVersion : String) (envs : List (String × String)) (spec : api.WorkerGroupSpec)
    (ct : api.ComputeTemplate) :
    ∃ t, buildWorkerPodTemplate K order imageVersion envs spec (some ct) = .ok t :=
  ⟨_, buildWorkerPodTemplate_some K order imageVersion envs spec ct⟩

theorem workers_ok (K : Constants) (orders : Nat → RangeOrder) (imageVersion : String)
    (envs : List (String × String)) (computeTemplateMap : List (String × api.ComputeTemplate))
    (specs : List api.WorkerGroupSpec) :
    ∀ (i : Nat) (acc : List rayalphaapi.WorkerGroupSpec),
      (∀ spec ∈ specs, (computeTemplateMap.lookup spec.ComputeTemplate).isSome = true) →
      ∃ outs, buildRayClusterSpec.workers K orders imageVersion envs computeTemplateMap i specs
          acc = .ok (acc ++ outs) ∧
        outs.length = specs.length ∧
        ∀ j spec out, specs[j]? = some spec → outs[j]? = some out →
          WorkerEmitted K orders imageVersion envs computeTemplateMap (i + j) spec out := by
  induction specs with
  | nil =>
    intro i acc _
    exact ⟨[], by simp [buildRayClusterSpec.workers, pure, Except.pure], rfl, by simp⟩
  | cons spec rest ih =>
    intro i acc h
    have hs := h spec (List.mem_cons_self _ _)
    obtain ⟨ct, hct⟩ := Option.isSome_iff_exists.1 hs
    obtain ⟨t, ht⟩ := buildWorkerPodTemplate_isOk K (orders (i + 1)) imageVersion envs spec ct
    obtain ⟨w, hw⟩ : ∃ w : rayalphaapi.WorkerGroupSpec, w =
        { GroupName := spec.GroupName
          MinReplicas := intPointer (if spec.MinReplicas ≠ 0 then spec.MinReplicas else spec.Replicas)
          MaxReplicas := intPointer (if spec.MaxReplicas ≠ 0 then spec.MaxReplicas else spec.Replicas)
          Replicas := intPointer spec.Replicas
          RayStartParams := spec.RayStartParams
          Template := t } := ⟨_, rfl⟩
    obtain ⟨outs, hrun, hlen, hall⟩ := ih (i + 1) (acc ++ [w])
      (fun s hs => h s (List.mem_cons_of_mem _ hs))
    refine ⟨w :: outs, ?_, by simp [hlen], ?_⟩
    · rw [buildRayClusterSpec.workers]
      simp only [hct, ht, bind, Except.bind]
      rw [← hw, hrun]
      simp
    · intro j s out hj ho
      cases j with
      | zero =>
        simp only [List.getElem?_cons_zero, Option.some.injEq] at hj ho
        subst hj ho
        rw [hw]
        exact ⟨rfl, rfl, rfl, rfl, rfl, by simpa [hct] using ht⟩
      | succ j =>
        simp only [List.getElem?_cons_succ] at hj ho
        have := hall j s out hj ho
        rwa [show i + 1 + j = i + (j + 1) by omega] at this

theorem workers_panic (K : Constants) (orders : Nat → RangeOrder) (imageVersion : String)
    (envs : List (String × String)) (computeTemplateMap : List (String × api.ComputeTemplate))
    (specs : List api.WorkerGroupSpec) :
    ∀ (i : Nat) (acc : List rayalphaapi.WorkerGroupSpec),
      (∃ spec ∈ specs, computeTemplateMap.lookup spec.ComputeTemplate = none) →
      buildRayClusterSpec.workers K orders imageVersion envs computeTemplateMap i specs acc =
        .error (.panic .nilPointerDereference) := by
  induction specs with
  | nil => intro i acc h; simp at h
  | cons spec rest ih =>
    intro i acc h
    rw [buildRayClusterSpec.workers]
    cases hct : computeTemplateMap.lookup spec.ComputeTemplate with
    | none => simp [buildWorkerPodTemplate_none, bind, Except.bind]
    | some ct =>
      obtain ⟨t, ht⟩ := buildWorkerPodTemplate_isOk K (orders (i + 1)) imageVersion envs spec ct
      simp only [ht, bind, Except.bind]
      apply ih
      obtain ⟨s, hs, hnone⟩ := h
      rcases List.mem_cons.1 hs with rfl | hs
      · rw [hct] at hnone; cases hnone
      · exact ⟨s, hs, hnone⟩

/-! ## Resources -/

theorem resourcesOf_gpu_zero (ct : api.ComputeTemplate) (h : ct.Gpu = 0) :
    resourcesOf ct =
      [(v1.ResourceCPU, { value := ct.Cpu, format := .DecimalSI }),
       (v1.ResourceMemory, { value := ct.Memory * 2 ^ 30, format := .BinarySI })] := by
  simp [resourcesOf, h]

theorem resourcesOf_gpu_pos (ct : api.ComputeTemplate) (h : ct.Gpu ≠ 0) :
    resourcesOf ct =
      mapSet [(v1.ResourceCPU, { value := ct.Cpu, format := .DecimalSI }),
        (v1.ResourceMemory, { value := ct.Memory * 2 ^ 30, format := .BinarySI })]
        (acceleratorOf ct) { value := ct.Gpu, format := .DecimalSI } := by
  simp [resourcesOf, h, acceleratorOf]

theorem acceleratorOf_ne (ct : api.ComputeTemplate) (k : String) (hk : k ≠ "nvidia.com/gpu")
    (h : ct.GpuAccelerator ≠ k) : acceleratorOf ct ≠ k := by
  unfold acceleratorOf
  split
  · exact fun e => hk e.symm
  · exact h

theorem resourcesOf_lookup_accelerator (ct : api.ComputeTemplate) (h : ct.Gpu ≠ 0) :
    (resourcesOf ct).lookup (acceleratorOf ct) = some { value := ct.Gpu, format := .DecimalSI } := by
  rw [resourcesOf_gpu_pos ct h, lookup_mapSet_self]

theorem resourcesOf_lookup_cpu (ct : api.ComputeTemplate)
    (h : ct.Gpu = 0 ∨ ct.GpuAccelerator ≠ "cpu") :
    (resourcesOf ct).lookup v1.ResourceCPU = some { value := ct.Cpu, format := .DecimalSI } := by
  by_cases hg : ct.Gpu = 0
  · rw [resourcesOf_gpu_zero ct hg]; rfl
  · have ha : acceleratorOf ct ≠ v1.ResourceCPU :=
      acceleratorOf_ne ct "cpu" (by decide) (h.resolve_left hg)
    rw [resourcesOf_gpu_pos ct hg, lookup_mapSet_of_ne _ _ _ _ (fun e => ha e.symm)]
    rfl

theorem resourcesOf_lookup_memory (ct : api.ComputeTemplate)
    (h : ct.Gpu = 0 ∨ ct.GpuAccelerator ≠ "memory") :
    (resourcesOf ct).lookup v1.ResourceMemory =
      some { value := ct.Memory * 2 ^ 30, format := .BinarySI } := by
  by_cases hg : ct.Gpu = 0
  · rw [resourcesOf_gpu_zero ct hg]; rfl
  · have ha : acceleratorOf ct ≠ v1.ResourceMemory :=
      acceleratorOf_ne ct "memory" (by decide) (h.resolve_left hg)
    rw [resourcesOf_gpu_pos ct hg, lookup_mapSet_of_ne _ _ _ _ (fun e => ha e.symm)]
    rfl

theorem resourcesOf_three (ct : api.ComputeTemplate) (hg : ct.Gpu ≠ 0)
    (hc : ct.GpuAccelerator ≠ "cpu") (hm : ct.GpuAccelerator ≠ "memory") :
    resourcesOf ct =
      [(v1.ResourceCPU, { value := ct.Cpu, format := .DecimalSI }),
       (v1.ResourceMemory, { value := ct.Memory * 2 ^ 30, format := .BinarySI }),
       (acceleratorOf ct, { value := ct.Gpu, format := .DecimalSI })] := by
  have h1 := acceleratorOf_ne ct "cpu" (by decide) hc
  have h2 := acceleratorOf_ne ct "memory" (by decide) hm
  rw [resourcesOf_gpu_pos ct hg]
  simp [mapSet, v1.ResourceCPU, v1.ResourceMemory, Ne.symm h1, Ne.symm h2]

/-! ## Volumes -/

/-- Every descriptor gets a mount, whatever its volume type. -/
theorem buildVolumeMounts_names (vs : List api.Volume) :
    (buildVolumeMounts vs).map (fun m => m.Name) = vs.map (fun v => v.Name) := by
  unfold buildVolumeMounts
  rw [foldl_append_singleton (fun vol : api.Volume =>
    (match vol.MountPropagationMode with
      | .HOSTTOCONTAINER =>
        { Name := vol.Name, ReadOnly := vol.ReadOnly, MountPath := vol.MountPath,
          MountPropagation := some .MountPropagationHostToContainer }
      | .BIDIRECTIONAL =>
        { Name := vol.Name, ReadOnly := vol.ReadOnly, MountPath := vol.MountPath,
          MountPropagation := some .MountPropagationBidirectional }
      | _ => { Name := vol.Name, ReadOnly := vol.ReadOnly, MountPath := vol.MountPath } :
      v1.VolumeMount))]
  simp only [List.nil_append, List.map_map]
  apply List.map_congr_left
  intro v _
  simp only [Function.comp]
  split <;> rfl

/-- A volume is emitted for the host-path descriptors only. -/
theorem buildVols_names (vs : List api.Volume) :
    (buildVols vs).map (fun v => v.Name) =
      (vs.filter fun v => v.VolumeType = api.VolumeType.HOST_PATH).map (fun v => v.Name) := by
  unfold buildVols
  suffices h : ∀ (init : List v1.Volume),
      (vs.foldl
        (fun vols rayVol =>
          if rayVol.VolumeType = api.VolumeType.HOST_PATH then
            let hostPath : v1.HostPathVolumeSource := { Path := rayVol.Source }
            let hostPath : v1.HostPathVolumeSource :=
              match rayVol.HostPathType with
              | .DIRECTORY => { hostPath with Type_ := newHostPathType v1.HostPathDirectory }
              | .FILE => { hostPath with Type_ := newHostPathType v1.HostPathFile }
              | _ => { hostPath with Type_ := newHostPathType v1.HostPathDirectory }
            vols ++ [{ Name := rayVol.Name, VolumeSource := { HostPath := some hostPath } }]
          else vols)
        init).map (fun v => v.Name) =
      init.map (fun v => v.Name) ++
        (vs.filter fun v => v.VolumeType = api.VolumeType.HOST_PATH).map (fun v => v.Name) by
    simpa using h []
  induction vs with
  | nil => simp
  | cons v vs ih =>
    intro init
    rw [List.foldl_cons, ih]
    by_cases hv : v.VolumeType = api.VolumeType.HOST_PATH
    · simp [hv]
    · simp [hv]

/-! ## Cluster synthesis -/

theorem templatesPresent_iff (computeTemplateMap : List (String × api.ComputeTemplate))
    (clusterSpec : api.ClusterSpec) :
    templatesPresent computeTemplateMap clusterSpec = true ↔
      (computeTemplateMap.lookup clusterSpec.HeadGroupSpec.ComputeTemplate).isSome = true ∧
      ∀ spec ∈ clusterSpec.WorkerGroupSpec,
        (computeTemplateMap.lookup spec.ComputeTemplate).isSome = true := by
  simp [templatesPresent]

/-- With every template present the cluster spec is returned, in closed form. -/
theorem buildRayClusterSpec_ok (K : Constants) (orders : Nat → RangeOrder)
    (imageVersion : String) (envs : List (String × String)) (clusterSpec : api.ClusterSpec)
    (computeTemplateMap : List (String × api.ComputeTemplate))
    (h : templatesPresent computeTemplateMap clusterSpec = true) :
    ∃ headPodTemplate outs,
      buildHeadPodTemplate K (orders 0) imageVersion envs clusterSpec.HeadGroupSpec
        (computeTemplateMap.lookup clusterSpec.HeadGroupSpec.ComputeTemplate) =
        .ok headPodTemplate ∧
      buildRayClusterSpec K orders imageVersion envs clusterSpec computeTemplateMap = .ok
        { RayVersion := imageVersion
          HeadGroupSpec :=
            { ServiceType := clusterSpec.HeadGroupSpec.ServiceType
              Template := headPodTemplate
              Replicas := some 1
              RayStartParams := clusterSpec.HeadGroupSpec.RayStartParams }
          WorkerGroupSpecs := outs } ∧
      outs.length = clusterSpec.WorkerGroupSpec.length ∧
      ∀ j spec out, clusterSpec.WorkerGroupSpec[j]? = some spec → outs[j]? = some out →
        WorkerEmitted K orders imageVersion envs computeTemplateMap j spec out := by
  obtain ⟨hhead, hworkers⟩ := (templatesPresent_iff _ _).1 h
  obtain ⟨ct, hct⟩ := Option.isSome_iff_exists.1 hhead
  obtain ⟨outs, hrun, hlen, hall⟩ :=
    workers_ok K orders imageVersion envs computeTemplateMap clusterSpec.WorkerGroupSpec 0 []
      hworkers
  refine ⟨_, outs, by rw [hct]; exact buildHeadPodTemplate_some _ _ _ _ _ ct, ?_, hlen, ?_⟩
  · unfold buildRayClusterSpec
    simp only [hct, buildHeadPodTemplate_some, bind, Except.bind, hrun, pure, Except.pure,
      List.nil_append]
  · intro j spec out hj ho
    simpa using hall j spec out hj ho

/-- With a template missing the call panics on the nil pointer. -/
theorem buildRayClusterSpec_panic (K : Constants) (orders : Nat → RangeOrder)
    (imageVersion : String) (envs : List (String × String)) (clusterSpec : api.ClusterSpec)
    (computeTemplateMap : List (String × api.ComputeTemplate))
    (h : templatesPresent computeTemplateMap clusterSpec = false) :
    buildRayClusterSpec K orders imageVersion envs clusterSpec computeTemplateMap =
      .error (.panic .nilPointerDereference) := by
  unfold buildRayClusterSpec
  cases hct : computeTemplateMap.lookup clusterSpec.HeadGroupSpec.ComputeTemplate with
  | none => simp [buildHeadPodTemplate_none, bind, Except.bind]
  | some ct =>
    have hw : ∃ spec ∈ clusterSpec.WorkerGroupSpec,
        computeTemplateMap.lookup spec.ComputeTemplate = none := by
      simp only [templatesPresent, hct, Option.isSome_some, Bool.true_and] at h
      obtain ⟨spec, hs, hn⟩ := List.all_eq_false.1 h
      exact ⟨spec, hs, Option.not_isSome_iff_eq_none.1 hn⟩
    simp only [buildHeadPodTemplate_some, bind, Except.bind]
    rw [workers_panic K orders imageVersion envs computeTemplateMap _ 0 _ hw]

/-! ## Configuration records -/

theorem baseDigits_ten (fuel n : Nat) : strconv.baseDigits 10 fuel n = decimalDigits fuel n := by
  induction fuel generalizing n with
  | zero => rfl
  | succ fuel ih => simp only [strconv.baseDigits, decimalDigits, ih]

theorem digits_getD (d : Nat) (h : d < 10) : strconv.digits.getD d '0' = digitChar d := by
  interval_cases d <;> rfl

/-- In base 10 `strconv.FormatUint` prints what `fmt.Sprint` prints. -/
theorem FormatUint_ten (n : Nat) : strconv.FormatUint n 10 = Sprint n := by
  unfold strconv.FormatUint Sprint
  rw [baseDigits_ten]
  congr 1
  apply List.map_congr_left
  intro d hd
  exact digits_getD d (decimalDigits_lt_ten _ _ d (List.mem_reverse.1 hd))

/-- Parsing the decimal print of a number gives the number back. -/
theorem ParseUint_Sprint (n : Nat) : strconv.ParseUint (Sprint n) = some n := by
  have hd := decimalDigits_lt_ten (n + 1) n
  have hne : (Sprint n).data ≠ [] := by
    rw [Sprint_data]
    simpa using decimalDigits_ne_nil n n
  have hall : (Sprint n).data.all Char.isDigit = true := by
    rw [Sprint_data, List.all_eq_true]
    intro c hc
    obtain ⟨d, hd', rfl⟩ := List.mem_map.1 hc
    exact digitChar_isDigit d (hd d (List.mem_reverse.1 hd'))
  unfold strconv.ParseUint
  rw [if_pos ⟨hne, hall⟩, Sprint_data, parseDecimal_digits _ hd,
    decimalDigits_value (n + 1) n (Nat.lt_succ_self n)]

/-! ## Node addresses -/

theorem lookup_foldl_group (T : String) (addresses : List v1.NodeAddress)
    (m : List (String × List v1.NodeAddress)) :
    (addresses.foldl
      (fun addressMap a =>
        mapSet addressMap a.Type_ ((addressMap.lookup a.Type_).getD [] ++ [a])) m).lookup T =
      if addresses.filter (fun a => a.Type_ = T) = [] then m.lookup T
      else some ((m.lookup T).getD [] ++ addresses.filter (fun a => a.Type_ = T)) := by
  induction addresses generalizing m with
  | nil => simp
  | cons a rest ih =>
    rw [List.foldl_cons, ih]
    by_cases ha : a.Type_ = T
    · subst ha
      simp only [lookup_mapSet_self, List.filter_cons, decide_True, if_true, Option.getD_some,
        List.append_assoc, List.singleton_append, reduceCtorEq, if_false]
      split <;> simp_all
    · have hne : T ≠ a.Type_ := fun e => ha e.symm
      simp only [lookup_mapSet_of_ne _ _ _ _ hne, List.filter_cons, ha, decide_False]
      simp

/-- The group of a type in the address map: absent when the node has no address of the
type, else all of them in the order of the list. -/
theorem lookup_groupAddresses (T : String) (addresses : List v1.NodeAddress) :
    (groupAddresses addresses).lookup T =
      if addresses.filter (fun a => a.Type_ = T) = [] then none
      else some (addresses.filter (fun a => a.Type_ = T)) := by
  unfold groupAddresses
  rw [lookup_foldl_group]
  simp

theorem filter_eq_of_find? {α : Type} (p : α → Bool) (l : List α) (a : α)
    (h : l.find? p = some a) : ∃ rest, l.filter p = a :: rest := by
  induction l with
  | nil => simp at h
  | cons x xs ih =>
    by_cases hx : p x = true
    · simp only [List.find?_cons, hx] at h
      cases h
      exact ⟨xs.filter p, by simp [List.filter_cons, hx]⟩
    · simp only [List.find?_cons, hx] at h
      obtain ⟨rest, hr⟩ := ih h
      exact ⟨rest, by simp [List.filter_cons, hx, hr]⟩

theorem filter_eq_nil_of_find? {α : Type} (p : α → Bool) (l : List α)
    (h : l.find? p = none) : l.filter p = [] := by
  rw [List.filter_eq_nil_iff]
  intro a ha
  simpa using List.find?_eq_none.1 h a ha

/-- The volume list in closed form: the host-path descriptors, each turned into a volume. -/
theorem buildVols_eq (vs : List api.Volume) :
    buildVols vs =
      (vs.filter fun d => d.VolumeType = api.VolumeType.HOST_PATH).map fun d =>
        ({ Name := d.Name
           VolumeSource :=
             { HostPath := some
                 { Path := d.Source
                   Type_ := some (if d.HostPathType = api.HostPathType.FILE then "File"
                     else "Directory") } } } : v1.Volume) := by
  unfold buildVols
  suffices h : ∀ (init : List v1.Volume),
      vs.foldl
        (fun vols rayVol =>
          if rayVol.VolumeType = api.VolumeType.HOST_PATH then
            let hostPath : v1.HostPathVolumeSource := { Path := rayVol.Source }
            let hostPath : v1.HostPathVolumeSource :=
              match rayVol.HostPathType with
              | .DIRECTORY => { hostPath with Type_ := newHostPathType v1.HostPathDirectory }
              | .FILE => { hostPath with Type_ := newHostPathType v1.HostPathFile }
              | _ => { hostPath with Type_ := newHostPathType v1.HostPathDirectory }
            vols ++ [{ Name := rayVol.Name, VolumeSource := { HostPath := some hostPath } }]
          else vols)
        init =
      init ++
        (vs.filter fun d => d.VolumeType = api.VolumeType.HOST_PATH).map fun d =>
          ({ Name := d.Name
             VolumeSource :=
               { HostPath := some
                   { Path := d.Source
                     Type_ := some (if d.HostPathType = api.HostPathType.FILE then "File"
                       else "Directory") } } } : v1.Volume) by
    simpa using h []
  induction vs with
  | nil => simp
  | cons v vs ih =>
    intro init
    rw [List.foldl_cons, ih]
    by_cases hv : v.VolumeType = api.VolumeType.HOST_PATH
    · simp only [hv, if_true, List.filter_cons, decide_True, List.map_cons, List.append_assoc,
        List.singleton_append]
      congr 2
      cases v.HostPathType <;> rfl
    · simp [hv]

/-! ## Two calls with the same arguments -/

theorem perm_eq_of_length_le_one {α : Type} {l₁ l₂ : List α} (h : l₁.Perm l₂)
    (hl : l₂.length ≤ 1) : l₁ = l₂ := by
  match l₂, hl with
  | [], _ => exact h.eq_nil
  | [a], _ => exact List.perm_singleton.1 h

/-- Two valid range orders visit a map of at most one pair alike. -/
theorem RangeOrder.Valid.eq_of_length_le_one {o₁ o₂ : RangeOrder} (h₁ : o₁.Valid)
    (h₂ : o₂.Valid) (envs : List (String × String)) (hl : envs.length ≤ 1) :
    o₁ envs = o₂ envs := by
  rw [perm_eq_of_length_le_one (h₁ envs) hl, perm_eq_of_length_le_one (h₂ envs) hl]

/-- The head builder uses the range order on `envs` only. -/
theorem buildHeadPodTemplate_congr (K : Constants) (o₁ o₂ : RangeOrder) (imageVersion : String)
    (envs : List (String × String)) (spec : api.HeadGroupSpec)
    (computeRuntime : Option api.ComputeTemplate) (h : o₁ envs = o₂ envs) :
    buildHeadPodTemplate K o₁ imageVersion envs spec computeRuntime =
      buildHeadPodTemplate K o₂ imageVersion envs spec computeRuntime := by
  simp only [buildHeadPodTemplate, appendEnvs, h]

/-- The worker builder uses the range order on `envs` only. -/
theorem buildWorkerPodTemplate_congr (K : Constants) (o₁ o₂ : RangeOrder)
    (imageVersion : String) (envs : List (String × String)) (spec : api.WorkerGroupSpec)
    (computeRuntime : Option api.ComputeTemplate) (h : o₁ envs = o₂ envs) :
    buildWorkerPodTemplate K o₁ imageVersion envs spec computeRuntime =
      buildWorkerPodTemplate K o₂ imageVersion envs spec computeRuntime := by
  simp only [buildWorkerPodTemplate, appendEnvs, h]

theorem workers_congr (K : Constants) (orders₁ orders₂ : Nat → RangeOrder)
    (imageVersion : String) (envs : List (String × String))
    (computeTemplateMap : List (String × api.ComputeTemplate))
    (h : ∀ i, orders₁ i envs = orders₂ i envs) (specs : List api.WorkerGroupSpec) :
    ∀ (i : Nat) (acc : List rayalphaapi.WorkerGroupSpec),
      buildRayClusterSpec.workers K orders₁ imageVersion envs computeTemplateMap i specs acc =
        buildRayClusterSpec.workers K orders₂ imageVersion envs computeTemplateMap i specs
          acc := by
  induction specs with
  | nil => intro i acc; rfl
  | cons spec rest ih =>
    intro i acc
    rw [buildRayClusterSpec.workers, buildRayClusterSpec.workers,
      buildWorkerPodTemplate_congr K (orders₁ (i + 1)) (orders₂ (i + 1)) _ _ _ _ (h (i + 1))]
    cases buildWorkerPodTemplate K (orders₂ (i + 1)) imageVersion envs spec
        (computeTemplateMap.lookup spec.ComputeTemplate) with
    | error e => rfl
    | ok t => simp only [bind, Except.bind]; exact ih _ _

/-- The cluster is the same when every range visits `envs` in the same way. -/
theorem NewRayCluster_congr (K : Constants) (orders₁ orders₂ : Nat → RangeOrder)
    (apiCluster : api.Cluster) (computeTemplateMap : List (String × api.ComputeTemplate))
    (h : ∀ i, orders₁ i apiCluster.Envs = orders₂ i apiCluster.Envs) :
    NewRayCluster K orders₁ apiCluster computeTemplateMap =
      NewRayCluster K orders₂ apiCluster computeTemplateMap := by
  simp only [NewRayCluster, buildRayClusterSpec,
    buildHeadPodTemplate_congr K (orders₁ 0) (orders₂ 0) _ _ _ _ (h 0),
    workers_congr K orders₁ orders₂ _ _ _ h]

theorem head_sameUpToOverrideOrder (K : Constants) (o₁ o₂ : RangeOrder) (imageVersion : String)
    (envs : List (String × String)) (spec : api.HeadGroupSpec) (ct : api.ComputeTemplate)
    (h₁ : o₁.Valid) (h₂ : o₂.Valid) (t₁ t₂ : v1.PodTemplateSpec)
    (e₁ : buildHeadPodTemplate K o₁ imageVersion envs spec (some ct) = .ok t₁)
    (e₂ : buildHeadPodTemplate K o₂ imageVersion envs spec (some ct) = .ok t₂) :
    t₁.SameUpToOverrideOrder envs.length t₂ := by
  rw [buildHeadPodTemplate_some] at e₁ e₂
  cases e₁
  cases e₂
  refine ⟨rfl, rfl, List.Forall₂.cons ⟨rfl, _, _, _, rfl, rfl, ?_, ?_⟩ List.Forall₂.nil⟩
  · exact ((h₁ envs).trans (h₂ envs).symm).map _
  · simp [(h₁ envs).length_eq]

theorem worker_sameUpToOverrideOrder (K : Constants) (o₁ o₂ : RangeOrder)
    (imageVersion : String) (envs : List (String × String)) (spec : api.WorkerGroupSpec)
    (ct : api.ComputeTemplate) (h₁ : o₁.Valid) (h₂ : o₂.Valid) (t₁ t₂ : v1.PodTemplateSpec)
    (e₁ : buildWorkerPodTemplate K o₁ imageVersion envs spec (some ct) = .ok t₁)
    (e₂ : buildWorkerPodTemplate K o₂ imageVersion envs spec (some ct) = .ok t₂) :
    t₁.SameUpToOverrideOrder envs.length t₂ := by
  rw [buildWorkerPodTemplate_some] at e₁ e₂
  cases e₁
  cases e₂
  refine ⟨rfl, rfl, List.Forall₂.cons ⟨rfl, _, _, _, rfl, rfl, ?_, ?_⟩ List.Forall₂.nil⟩
  · exact ((h₁ envs).trans (h₂ envs).symm).map _
  · simp [(h₁ envs).length_eq]


theorem workerEmitted_same (K : Constants) (orders₁ orders₂ : Nat → RangeOrder)
    (imageVersion : String) (envs : List (String × String))
    (computeTemplateMap : List (String × api.ComputeTemplate)) (j : Nat)
    (spec : api.WorkerGroupSpec) (w₁ w₂ : rayalphaapi.WorkerGroupSpec)
    (h₁ : ∀ i, (orders₁ i).Valid) (h₂ : ∀ i, (orders₂ i).Valid)
    (hs : (computeTemplateMap.lookup spec.ComputeTemplate).isSome = true)
    (e₁ : WorkerEmitted K orders₁ imageVersion envs computeTemplateMap j spec w₁)
    (e₂ : WorkerEmitted K orders₂ imageVersion envs computeTemplateMap j spec w₂) :
    { w₁ with Template := {} } = { w₂ with Template := {} } ∧
      w₁.Template.SameUpToOverrideOrder envs.length w₂.Template := by
  obtain ⟨ct, hct⟩ := Option.isSome_iff_exists.1 hs
  obtain ⟨a₁, a₂, a₃, a₄, a₅, a₆⟩ := e₁
  obtain ⟨b₁, b₂, b₃, b₄, b₅, b₆⟩ := e₂
  rw [hct] at a₆ b₆
  refine ⟨?_, worker_sameUpToOverrideOrder K _ _ imageVersion envs spec ct (h₁ _) (h₂ _) _ _
    a₆ b₆⟩
  obtain ⟨n₁, min₁, max₁, r₁, p₁, t₁⟩ := w₁
  obtain ⟨n₂, min₂, max₂, r₂, p₂, t₂⟩ := w₂
  simp only at a₁ a₂ a₃ a₄ a₅ b₁ b₂ b₃ b₄ b₅
  simp [a₁, a₂, a₃, a₄, a₅, b₁, b₂, b₃, b₄, b₅]

/-- Two runs of NewRayCluster on the same arguments, all templates present. -/
theorem NewRayCluster_same (K : Constants) (orders₁ orders₂ : Nat → RangeOrder)
    (apiCluster : api.Cluster) (computeTemplateMap : List (String × api.ComputeTemplate))
    (h₁ : ∀ i, (orders₁ i).Valid) (h₂ : ∀ i, (orders₂ i).Valid)
    (hp : templatesPresent computeTemplateMap apiCluster.ClusterSpec = true) :
    ∃ c₁ c₂, NewRayCluster K orders₁ apiCluster computeTemplateMap = .ok c₁ ∧
      NewRayCluster K orders₂ apiCluster computeTemplateMap = .ok c₂ ∧
      c₁.SameUpToOverrideOrder apiCluster.Envs.length c₂ := by
  obtain ⟨hhead, hworkers⟩ := (templatesPresent_iff _ _).1 hp
  obtain ⟨ct, hct⟩ := Option.isSome_iff_exists.1 hhead
  obtain ⟨t₁, outs₁, ht₁, hok₁, hlen₁, hall₁⟩ := buildRayClusterSpec_ok K orders₁
    apiCluster.Version apiCluster.Envs apiCluster.ClusterSpec computeTemplateMap hp
  obtain ⟨t₂, outs₂, ht₂, hok₂, hlen₂, hall₂⟩ := buildRayClusterSpec_ok K orders₂
    apiCluster.Version apiCluster.Envs apiCluster.ClusterSpec computeTemplateMap hp
  rw [hct] at ht₁ ht₂
  have e₁ : ∀ (spec : rayalphaapi.RayClusterSpec),
      buildRayClusterSpec K orders₁ apiCluster.Version apiCluster.Envs apiCluster.ClusterSpec
        computeTemplateMap = .ok spec →
      NewRayCluster K orders₁ apiCluster computeTemplateMap = .ok
        { ObjectMeta :=
            { Name := apiCluster.Name
              Namespace := apiCluster.Namespace
              Labels := buildRayClusterLabels K apiCluster
              Annotations := buildRayClusterAnnotations apiCluster }
          Spec := spec } := by
    intro spec h
    simp only [NewRayCluster, h, bind, Except.bind, pure, Except.pure]
  have e₂ : ∀ (spec : rayalphaapi.RayClusterSpec),
      buildRayClusterSpec K orders₂ apiCluster.Version apiCluster.Envs apiCluster.ClusterSpec
        computeTemplateMap = .ok spec →
      NewRayCluster K orders₂ apiCluster computeTemplateMap = .ok
        { ObjectMeta :=
            { Name := apiCluster.Name
              Namespace := apiCluster.Namespace
              Labels := buildRayClusterLabels K apiCluster
              Annotations := buildRayClusterAnnotations apiCluster }
          Spec := spec } := by
    intro spec h
    simp only [NewRayCluster, h, bind, Except.bind, pure, Except.pure]
  refine ⟨_, _, e₁ _ hok₁, e₂ _ hok₂, rfl, rfl, rfl,
    head_sameUpToOverrideOrder K _ _ _ _ _ ct (h₁ 0) (h₂ 0) _ _ ht₁ ht₂, ?_⟩
  rw [List.forall₂_iff_get]
  refine ⟨by simp only [hlen₁, hlen₂], ?_⟩
  intro i hi₁ hi₂
  simp only at hi₁ hi₂
  have hi : i < apiCluster.ClusterSpec.WorkerGroupSpec.length := by omega
  have hspec : apiCluster.ClusterSpec.WorkerGroupSpec[i]? =
      some apiCluster.ClusterSpec.WorkerGroupSpec[i] := List.getElem?_eq_getElem hi
  have ho₁ : outs₁[i]? = some outs₁[i] := List.getElem?_eq_getElem hi₁
  have ho₂ : outs₂[i]? = some outs₂[i] := List.getElem?_eq_getElem hi₂
  exact workerEmitted_same K orders₁ orders₂ _ _ _ i _ _ _ h₁ h₂
    (hworkers _ (List.getElem_mem hi)) (hall₁ i _ _ hspec ho₁) (hall₂ i _ _ hspec ho₂)

/-! ## Maps, again -/

theorem mapKeys_mapSet {β : Type} (m : List (String × β)) (k : String) (v : β) :
    mapKeys (mapSet m k v) = if k ∈ mapKeys m then mapKeys m else mapKeys m ++ [k] := by
  induction m with
  | nil => simp [mapSet, mapKeys]
  | cons kv rest ih =>
    obtain ⟨k', v'⟩ := kv
    by_cases h : k' = k
    · subst h; simp [mapSet, mapKeys]
    · have h' : ¬ k = k' := fun e => h e.symm
      simp only [mapKeys] at ih
      simp only [mapSet, h, if_false, mapKeys, List.map_cons, List.mem_cons, h', false_or, ih]
      split <;> simp

theorem mapKeys_mapSet_nodup {β : Type} (m : List (String × β)) (k : String) (v : β)
    (h : (mapKeys m).Nodup) : (mapKeys (mapSet m k v)).Nodup := by
  rw [mapKeys_mapSet]
  split
  · exact h
  · rename_i hk
    exact List.Nodup.append h (List.nodup_singleton k) (by simpa using hk)

theorem lookup_of_mem_of_nodup {β : Type} (m : List (String × β)) (k : String) (v : β)
    (hn : (mapKeys m).Nodup) (h : (k, v) ∈ m) : m.lookup k = some v := by
  induction m with
  | nil => simp at h
  | cons kv rest ih =>
    obtain ⟨k', v'⟩ := kv
    simp only [mapKeys, List.map_cons, List.nodup_cons] at hn
    rcases List.mem_cons.1 h with e | hm
    · cases e; simp [List.lookup]
    · have hne : (k == k') = false := by
        have : k ≠ k' := fun e => hn.1 (e ▸ List.mem_map_of_mem Prod.fst hm)
        simpa using this
      simp only [List.lookup, hne]
      exact ih hn.2 hm

theorem lookup_eq_none_iff_not_mem_keys {β : Type} (m : List (String × β)) (k : String) :
    m.lookup k = none ↔ k ∉ mapKeys m := by
  induction m with
  | nil => simp [mapKeys]
  | cons kv rest ih =>
    obtain ⟨k', v'⟩ := kv
    by_cases h : k = k'
    · subst h; simp [List.lookup, mapKeys]
    · have hne : (k == k') = false := by simpa using h
      simp only [mapKeys] at ih
      simp [List.lookup, hne, mapKeys, h, ih]

theorem lookup_filter_keys {β : Type} (m : List (String × β)) (q : String → Bool) (k : String)
    (hk : q k = true) : (m.filter fun kv => q kv.1).lookup k = m.lookup k := by
  induction m with
  | nil => rfl
  | cons kv rest ih =>
    obtain ⟨k', v'⟩ := kv
    by_cases h : k = k'
    · subst h; simp [List.filter_cons, hk, List.lookup]
    · have hne : (k == k') = false := by simpa using h
      by_cases hq : q k' = true
      · simp [List.filter_cons, hq, List.lookup, hne, ih]
      · simp [List.filter_cons, hq, List.lookup, hne, ih]

theorem lookup_append' {β : Type} (m₁ m₂ : List (String × β)) (k : String) :
    (m₁ ++ m₂).lookup k = match m₁.lookup k with
      | some v => some v
      | none => m₂.lookup k := by
  induction m₁ with
  | nil => rfl
  | cons kv rest ih =>
    obtain ⟨k', v'⟩ := kv
    by_cases h : k = k'
    · subst h; simp [List.lookup]
    · have hne : (k == k') = false := by simpa using h
      simp only [List.cons_append, List.lookup, hne]
      exact ih

/-- A key looks up in the union as in the winner, and as in the other map when the winner
lacks it. -/
theorem lookup_mapUnion (winner other : List (String × String)) (k : String) :
    (mapUnion winner other).lookup k = match winner.lookup k with
      | some v => some v
      | none => other.lookup k := by
  unfold mapUnion
  rw [lookup_append']
  cases h : winner.lookup k with
  | some v => rfl
  | none =>
    simp only
    exact lookup_filter_keys other (fun k' => (winner.lookup k').isNone) k (by simp [h])

/-- The keys of the union are the keys of the two maps. -/
theorem mem_mapKeys_mapUnion (winner other : List (String × String)) (k : String) :
    k ∈ mapKeys (mapUnion winner other) ↔ k ∈ mapKeys winner ∨ k ∈ mapKeys other := by
  have h := lookup_mapUnion winner other k
  have e₁ := lookup_eq_none_iff_not_mem_keys (mapUnion winner other) k
  have e₂ := lookup_eq_none_iff_not_mem_keys winner k
  have e₃ := lookup_eq_none_iff_not_mem_keys other k
  cases hw : winner.lookup k with
  | some v =>
    rw [hw] at h e₂
    simp only at h
    rw [h] at e₁
    simp only [reduceCtorEq, false_iff, not_not] at e₁ e₂
    exact ⟨fun _ => Or.inl e₂, fun _ => e₁⟩
  | none =>
    rw [hw] at h e₂
    simp only at h
    rw [h] at e₁
    simp only [true_iff] at e₂
    constructor
    · intro hm
      by_contra hc
      exact (e₁.1 (e₃.2 (fun ho => hc (Or.inr ho)))) hm
    · rintro (hm | hm)
      · exact absurd hm e₂
      · by_contra hc
        exact (e₃.1 (e₁.2 hc)) hm

theorem mapKeys_mapUnion_nodup (winner other : List (String × String))
    (hw : (mapKeys winner).Nodup) (ho : (mapKeys other).Nodup) :
    (mapKeys (mapUnion winner other)).Nodup := by
  unfold mapUnion mapKeys
  rw [List.map_append]
  refine List.Nodup.append hw ?_ ?_
  · exact (List.Nodup.sublist (List.Sublist.map _ (List.filter_sublist _)) ho)
  · intro k hk₁ hk₂
    obtain ⟨⟨k', v'⟩, hm, rfl⟩ := List.mem_map.1 hk₂
    have := (List.mem_filter.1 hm).2
    simp only [Option.isNone_iff_eq_none] at this
    exact (lookup_eq_none_iff_not_mem_keys winner k').1 this hk₁

/-! ## Service ports -/

theorem mergePort_names (ports : List v1.ServicePort) (u : v1.ServicePort) :
    (mergePort ports u).map (fun p => p.Name) =
      if u.Name ∈ ports.map (fun p => p.Name) then ports.map (fun p => p.Name)
      else ports.map (fun p => p.Name) ++ [u.Name] := by
  unfold mergePort
  by_cases h : u.Name ∈ ports.map (fun p => p.Name)
  · have hany : ports.any (fun p => p.Name = u.Name) = true := by
      obtain ⟨p, hp, e⟩ := List.mem_map.1 h
      exact List.any_eq_true.2 ⟨p, hp, by simpa using e⟩
    rw [if_pos hany, if_pos h, List.map_map]
    apply List.map_congr_left
    intro p _
    simp only [Function.comp]
    split
    · rename_i e; exact e.symm
    · rfl
  · have hany : ¬ ports.any (fun p => p.Name = u.Name) = true := by
      intro ha
      obtain ⟨p, hp, e⟩ := List.any_eq_true.1 ha
      exact h (List.mem_map.2 ⟨p, hp, by simpa using e⟩)
    rw [if_neg hany, if_neg h]
    simp

theorem mergePort_nodup (ports : List v1.ServicePort) (u : v1.ServicePort)
    (h : (ports.map fun p => p.Name).Nodup) :
    ((mergePort ports u).map fun p => p.Name).Nodup := by
  rw [mergePort_names]
  split
  · exact h
  · rename_i hk
    exact List.Nodup.append h (List.nodup_singleton _) (by simpa using hk)

theorem mem_mergePort_self (ports : List v1.ServicePort) (u : v1.ServicePort) :
    u ∈ mergePort ports u := by
  unfold mergePort
  split
  · rename_i hany
    obtain ⟨p, hp, e⟩ := List.any_eq_true.1 hany
    have e' : p.Name = u.Name := by simpa using e
    exact List.mem_map.2 ⟨p, hp, by rw [if_pos e']⟩
  · simp

theorem mem_mergePort_of_ne (ports : List v1.ServicePort) (u q : v1.ServicePort)
    (hq : q ∈ ports) (hne : q.Name ≠ u.Name) : q ∈ mergePort ports u := by
  unfold mergePort
  split
  · exact List.mem_map.2 ⟨q, hq, by simp [hne]⟩
  · exact List.mem_append_left _ hq

theorem mem_mergePort (ports : List v1.ServicePort) (u x : v1.ServicePort)
    (hx : x ∈ mergePort ports u) : x = u ∨ (x ∈ ports ∧ x.Name ≠ u.Name) := by
  unfold mergePort at hx
  split at hx
  · obtain ⟨p, hp, e⟩ := List.mem_map.1 hx
    by_cases hn : p.Name = u.Name
    · rw [if_pos hn] at e; exact Or.inl e.symm
    · rw [if_neg hn] at e; subst e; exact Or.inr ⟨hp, hn⟩
  · rename_i hany
    rcases List.mem_append.1 hx with h | h
    · refine Or.inr ⟨h, fun e => hany (List.any_eq_true.2 ⟨x, h, by simpa using e⟩)⟩
    · exact Or.inl (by simpa using h)

theorem foldl_mergePort_nodup (us ports : List v1.ServicePort)
    (h : (ports.map fun p => p.Name).Nodup) :
    ((us.foldl mergePort ports).map fun p => p.Name).Nodup := by
  induction us generalizing ports with
  | nil => exact h
  | cons u rest ih => exact ih _ (mergePort_nodup ports u h)

theorem mem_foldl_mergePort_of_ne (us ports : List v1.ServicePort) (q : v1.ServicePort)
    (hq : q ∈ ports) (hne : ∀ u ∈ us, u.Name ≠ q.Name) : q ∈ us.foldl mergePort ports := by
  induction us generalizing ports with
  | nil => exact hq
  | cons u rest ih =>
    exact ih _ (mem_mergePort_of_ne ports u q hq (fun e => hne u (List.mem_cons_self _ _) e.symm))
      (fun u' hu' => hne u' (List.mem_cons_of_mem _ hu'))

theorem mem_foldl_mergePort_user (us ports : List v1.ServicePort) (u : v1.ServicePort)
    (hn : (us.map fun p => p.Name).Nodup) (hu : u ∈ us) : u ∈ us.foldl mergePort ports := by
  induction us generalizing ports with
  | nil => simp at hu
  | cons u' rest ih =>
    simp only [List.map_cons, List.nodup_cons] at hn
    rcases List.mem_cons.1 hu with rfl | hm
    · refine mem_foldl_mergePort_of_ne rest _ u (mem_mergePort_self ports u) ?_
      intro x hx e
      exact hn.1 (List.mem_map.2 ⟨x, hx, e⟩)
    · exact ih _ hn.2 hm

theorem mem_foldl_mergePort (us ports : List v1.ServicePort) (x : v1.ServicePort)
    (hx : x ∈ us.foldl mergePort ports) :
    x ∈ us ∨ (x ∈ ports ∧ ∀ u ∈ us, u.Name ≠ x.Name) := by
  induction us generalizing ports with
  | nil => exact Or.inr ⟨hx, by simp⟩
  | cons u rest ih =>
    rcases ih _ hx with h | ⟨h, hne⟩
    · exact Or.inl (List.mem_cons_of_mem _ h)
    · rcases mem_mergePort ports u x h with rfl | ⟨hp, hn⟩
      · exact Or.inl (List.mem_cons_self _ _)
      · refine Or.inr ⟨hp, ?_⟩
        intro u' hu'
        rcases List.mem_cons.1 hu' with rfl | hm
        · exact fun e => hn e.symm
        · exact hne u' hm

theorem foldl_mapSet_nodup {α : Type} (f : α → String × Int) (l : List α)
    (m : List (String × Int)) (h : (mapKeys m).Nodup) :
    (mapKeys (l.foldl (fun acc a => mapSet acc (f a).1 (f a).2) m)).Nodup := by
  induction l generalizing m with
  | nil => exact h
  | cons a rest ih => exact ih _ (mapKeys_mapSet_nodup m _ _ h)

/-- The port map of a cluster whose head template has a primary container: it is returned,
and its names are pairwise different. -/
theorem getServicePorts_ok (S : ServiceConstants) (cluster : rayalphaapi.RayCluster)
    (h : ∃ c ∈ cluster.Spec.HeadGroupSpec.Template.Spec.Containers, c.Name = S.RayContainerName) :
    ∃ portsInt, getServicePorts S cluster = .ok portsInt ∧ (mapKeys portsInt).Nodup := by
  obtain ⟨c, hc, hname⟩ := h
  have hfind : ∃ c', cluster.Spec.HeadGroupSpec.Template.Spec.Containers.find?
      (fun c => c.Name = S.RayContainerName) = some c' := by
    cases hf : cluster.Spec.HeadGroupSpec.Template.Spec.Containers.find?
        (fun c => c.Name = S.RayContainerName) with
    | some c' => exact ⟨c', rfl⟩
    | none =>
      have := List.find?_eq_none.1 hf c hc
      simp [hname] at this
  obtain ⟨c', hc'⟩ := hfind
  have hn := foldl_mapSet_nodup
    (fun port : v1.ContainerPort =>
      (if port.Name = "" then SprintInt port.ContainerPort ++ "-port" else port.Name,
        port.ContainerPort)) c'.Ports [] (by simp [mapKeys])
  unfold getServicePorts getPortsFromCluster
  rw [hc']
  simp only [bind, Except.bind]
  split
  · exact ⟨_, rfl, hn⟩
  · exact ⟨_, rfl, mapKeys_mapSet_nodup _ _ _ hn⟩

/-- The computed ports of such a cluster: they are returned, one per entry of the port map,
and their names are pairwise different. -/
theorem computedServicePorts_ok (S : ServiceConstants) (order : PortRangeOrder)
    (cluster : rayalphaapi.RayCluster) (horder : order.Valid)
    (h : ∃ c ∈ cluster.Spec.HeadGroupSpec.Template.Spec.Containers, c.Name = S.RayContainerName) :
    ∃ portsInt ports, getServicePorts S cluster = .ok portsInt ∧
      computedServicePorts S order cluster = .ok ports ∧
      ports.Perm (portsInt.map fun kv =>
        ({ Name := kv.1, Port := kv.2, AppProtocol := some S.DefaultServiceAppProtocol } :
          v1.ServicePort)) ∧
      (ports.map fun p => p.Name).Nodup := by
  obtain ⟨portsInt, hp, hn⟩ := getServicePorts_ok S cluster h
  have hperm : (((order portsInt).map fun kv =>
      ({ Name := kv.1, Port := kv.2, AppProtocol := some S.DefaultServiceAppProtocol } :
        v1.ServicePort)).insertionSort
        fun p q => stringLE p.Name.data q.Name.data = true).Perm
      (portsInt.map fun kv =>
        ({ Name := kv.1, Port := kv.2, AppProtocol := some S.DefaultServiceAppProtocol } :
          v1.ServicePort)) :=
    (List.perm_insertionSort _ _).trans ((horder portsInt).map _)
  refine ⟨portsInt, _, hp, by simp only [computedServicePorts, hp, bind, Except.bind, pure,
    Except.pure], hperm, ?_⟩
  have hnames := (hperm.map fun p => p.Name)
  rw [hnames.nodup_iff, List.map_map]
  exact hn

/-! ## The head service -/

/-- The computed ports are returned whenever the head template has a primary container. -/
theorem computedServicePorts_isOk (S : ServiceConstants) (order : PortRangeOrder)
    (cluster : rayalphaapi.RayCluster)
    (h : ∃ c ∈ cluster.Spec.HeadGroupSpec.Template.Spec.Containers, c.Name = S.RayContainerName) :
    ∃ ports, computedServicePorts S order cluster = .ok ports := by
  obtain ⟨portsInt, hp, -⟩ := getServicePorts_ok S cluster h
  simp only [computedServicePorts, hp, bind, Except.bind, pure, Except.pure]
  exact ⟨_, rfl⟩

/-- The service built without a user override, in closed form. -/
theorem BuildServiceForHeadPod_none (S : ServiceConstants) (order : PortRangeOrder)
    (cluster : rayalphaapi.RayCluster) (labels annotations : List (String × String))
    (ports : List v1.ServicePort) (hp : computedServicePorts S order cluster = .ok ports)
    (hov : cluster.Spec.HeadGroupSpec.HeadService = none) :
    BuildServiceForHeadPod S order cluster labels annotations = .ok
      { ObjectMeta :=
          { Name := S.GenerateServiceName cluster.ObjectMeta.Name
            Namespace := cluster.ObjectMeta.Namespace
            Labels := (HeadServiceLabels S cluster).map fun kv =>
              (kv.1, (labels.lookup kv.1).getD kv.2)
            Annotations := annotations }
        Spec :=
          { Selector := (HeadServiceLabels S cluster).map fun kv =>
              (kv.1, (labels.lookup kv.1).getD kv.2)
            Ports := ports
            Type_ := v1.ServiceTypeClusterIP } } := by
  simp only [BuildServiceForHeadPod, hp, hov, bind, Except.bind, pure, Except.pure]

/-- The service built with a user override, in closed form. -/
theorem BuildServiceForHeadPod_some (S : ServiceConstants) (order : PortRangeOrder)
    (cluster : rayalphaapi.RayCluster) (labels annotations : List (String × String))
    (ports : List v1.ServicePort) (headService : v1.Service)
    (hp : computedServicePorts S order cluster = .ok ports)
    (hov : cluster.Spec.HeadGroupSpec.HeadService = some headService) :
    BuildServiceForHeadPod S order cluster labels annotations = .ok
      { ObjectMeta :=
          { Name := if headService.ObjectMeta.Name = "" then
              S.GenerateServiceName cluster.ObjectMeta.Name else headService.ObjectMeta.Name
            Namespace := cluster.ObjectMeta.Namespace
            Labels := mapUnion
              ((HeadServiceLabels S cluster).map fun kv => (kv.1, (labels.lookup kv.1).getD kv.2))
              headService.ObjectMeta.Labels
            Annotations := mapUnion annotations headService.ObjectMeta.Annotations }
        Spec :=
          { Selector := (HeadServiceLabels S cluster).map fun kv =>
              (kv.1, (labels.lookup kv.1).getD kv.2)
            Ports := headService.Spec.Ports.foldl mergePort ports
            Type_ := if headService.Spec.Type_ = "" then v1.ServiceTypeClusterIP
              else headService.Spec.Type_ } } := by
  simp only [BuildServiceForHeadPod, hp, hov, bind, Except.bind, pure, Except.pure]

/-- The selector of every service built: the default keys with the template's values. -/
theorem BuildServiceForHeadPod_selector (S : ServiceConstants) (order : PortRangeOrder)
    (cluster : rayalphaapi.RayCluster) (labels annotations : List (String × String))
    (h : ∃ c ∈ cluster.Spec.HeadGroupSpec.Template.Spec.Containers, c.Name = S.RayContainerName) :
    ∃ svc, BuildServiceForHeadPod S order cluster labels annotations = .ok svc ∧
      svc.Spec.Selector = (HeadServiceLabels S cluster).map fun kv =>
        (kv.1, (labels.lookup kv.1).getD kv.2) := by
  obtain ⟨ports, hp⟩ := computedServicePorts_isOk S order cluster h
  cases hov : cluster.Spec.HeadGroupSpec.HeadService with
  | none => exact ⟨_, BuildServiceForHeadPod_none S order cluster labels annotations ports hp hov, rfl⟩
  | some headService =>
    exact ⟨_, BuildServiceForHeadPod_some S order cluster labels annotations ports headService
      hp hov, rfl⟩

theorem mapKeys_selector (S : ServiceConstants) (cluster : rayalphaapi.RayCluster)
    (labels : List (String × String)) :
    mapKeys ((HeadServiceLabels S cluster).map fun kv =>
      (kv.1, (labels.lookup kv.1).getD kv.2)) =
      [S.RayClusterLabelKey, S.RayNodeTypeLabelKey, S.KubernetesApplicationNameLabelKey,
        S.ManagedByLabelKey, S.TemplateLabelKey] := rfl

/-! ## Volume mounts -/

/-- The mount list in closed form: one mount per descriptor, in order. -/
theorem buildVolumeMounts_eq (vs : List api.Volume) :
    buildVolumeMounts vs =
      vs.map fun vol =>
        ({ Name := vol.Name
           ReadOnly := vol.ReadOnly
           MountPath := vol.MountPath
           MountPropagation :=
             match vol.MountPropagationMode with
             | .HOSTTOCONTAINER => some .MountPropagationHostToContainer
             | .BIDIRECTIONAL => some .MountPropagationBidirectional
             | _ => none } : v1.VolumeMount) := by
  unfold buildVolumeMounts
  rw [foldl_append_singleton (fun vol : api.Volume =>
    (match vol.MountPropagationMode with
      | .HOSTTOCONTAINER =>
        { Name := vol.Name, ReadOnly := vol.ReadOnly, MountPath := vol.MountPath,
          MountPropagation := some .MountPropagationHostToContainer }
      | .BIDIRECTIONAL =>
        { Name := vol.Name, ReadOnly := vol.ReadOnly, MountPath := vol.MountPath,
          MountPropagation := some .MountPropagationBidirectional }
      | _ => { Name := vol.Name, ReadOnly := vol.ReadOnly, MountPath := vol.MountPath } :
      v1.VolumeMount))]
  simp only [List.nil_append]
  apply List.map_congr_left
  intro v _
  split <;> rfl

/-! ## The port map -/

theorem mapSet_of_not_mem {β : Type} (m : List (String × β)) (k : String) (v : β)
    (h : k ∉ mapKeys m) : mapSet m k v = m ++ [(k, v)] := by
  induction m with
  | nil => rfl
  | cons kv rest ih =>
    obtain ⟨k', v'⟩ := kv
    simp only [mapKeys, List.map_cons, List.mem_cons, not_or] at h
    have hne : ¬ k' = k := fun e => h.1 e.symm
    simp only [mapSet, if_neg hne, List.cons_append]
    rw [ih (by simpa [mapKeys] using h.2)]

/-- Entering pairs with new, pairwise different keys appends them in order. -/
theorem foldl_mapSet_eq_append {α : Type} (f : α → String × Int) (l : List α)
    (m : List (String × Int)) (h : (mapKeys m ++ l.map fun a => (f a).1).Nodup) :
    l.foldl (fun acc a => mapSet acc (f a).1 (f a).2) m = m ++ l.map f := by
  induction l generalizing m with
  | nil => simp
  | cons a rest ih =>
    have hk : (f a).1 ∉ mapKeys m := by
      intro hm
      have := List.nodup_append.1 h
      exact this.2.2 hm (by simp)
    rw [List.foldl_cons, mapSet_of_not_mem m _ _ hk, ih]
    · simp
    · have e : mapKeys (m ++ [((f a).1, (f a).2)]) ++ rest.map (fun a => (f a).1) =
          mapKeys m ++ (a :: rest).map fun a => (f a).1 := by
        simp [mapKeys]
      rw [e]
      exact h

/-- A key looks up, after the pass, as the last pair entered under it. -/
theorem lookup_foldl_mapSet {α : Type} (f : α → String × Int) (l : List α)
    (m : List (String × Int)) (k : String) :
    (l.foldl (fun acc a => mapSet acc (f a).1 (f a).2) m).lookup k =
      match l.reverse.find? (fun a => (f a).1 = k) with
      | some a => some (f a).2
      | none => m.lookup k := by
  induction l generalizing m with
  | nil => rfl
  | cons a rest ih =>
    rw [List.foldl_cons, ih, List.reverse_cons, List.find?_append]
    cases hr : rest.reverse.find? (fun a => (f a).1 = k) with
    | some b => rfl
    | none =>
      by_cases ha : (f a).1 = k
      · simp [ha, lookup_mapSet_self]
      · have hne : k ≠ (f a).1 := fun e => ha e.symm
        simp [ha, lookup_mapSet_of_ne _ _ _ _ hne]

/-- The port map of a cluster, given its primary container. -/
theorem getPortsFromCluster_eq (S : ServiceConstants) (cluster : rayalphaapi.RayCluster)
    (c : v1.Container)
    (hc : cluster.Spec.HeadGroupSpec.Template.Spec.Containers.find?
      (fun c => c.Name = S.RayContainerName) = some c) :
    getPortsFromCluster S cluster = .ok
      (c.Ports.foldl
        (fun acc port => mapSet acc (servicePortName port, port.ContainerPort).1
          (servicePortName port, port.ContainerPort).2) []) := by
  unfold getPortsFromCluster
  rw [hc]
  rfl

/-- The entry of the metrics name in the map of `getServicePorts`, in terms of the names
under which the container ports are entered. -/
theorem getServicePorts_metrics (S : ServiceConstants) (cluster : rayalphaapi.RayCluster)
    (c : v1.Container)
    (hprimary : cluster.Spec.HeadGroupSpec.Template.Spec.Containers.find?
      (fun c => c.Name = S.RayContainerName) = some c) :
    ∃ ports number,
      getServicePorts S cluster = .ok ports ∧
      ports.lookup S.DefaultMetricsName = some number ∧
      (c.Ports = [] → number = S.DefaultMetricsPort) ∧
      ((∀ port ∈ c.Ports, servicePortName port ≠ S.DefaultMetricsName) →
        number = S.DefaultMetricsPort) ∧
      (∀ port,
        c.Ports.reverse.find? (fun port => servicePortName port = S.DefaultMetricsName) =
          some port →
        number = port.ContainerPort) := by
  have hget := getPortsFromCluster_eq S cluster c hprimary
  have hlook := lookup_foldl_mapSet
    (fun port : v1.ContainerPort => (servicePortName port, port.ContainerPort)) c.Ports []
    S.DefaultMetricsName
  generalize c.Ports.foldl
    (fun acc port => mapSet acc (servicePortName port, port.ContainerPort).1
      (servicePortName port, port.ContainerPort).2) [] = base at hget hlook
  cases hf : c.Ports.reverse.find? (fun port => servicePortName port = S.DefaultMetricsName) with
  | some port =>
    rw [hf] at hlook
    simp only at hlook
    have hs : getServicePorts S cluster = .ok base := by
      simp only [getServicePorts, hget, bind, Except.bind, hlook, pure, Except.pure]
    refine ⟨base, port.ContainerPort, hs, hlook, ?_, ?_, ?_⟩
    · intro he
      rw [he] at hf
      simp at hf
    · intro hall
      have hmem := List.mem_of_find?_eq_some hf
      have hp := List.find?_some hf
      exact absurd (by simpa using hp) (hall port (List.mem_reverse.1 hmem))
    · intro port' e
      cases e
      rfl
  | none =>
    rw [hf] at hlook
    simp only [List.lookup] at hlook
    have hs : getServicePorts S cluster =
        .ok (mapSet base S.DefaultMetricsName S.DefaultMetricsPort) := by
      simp only [getServicePorts, hget, bind, Except.bind, hlook, pure, Except.pure]
    refine ⟨_, S.DefaultMetricsPort, hs, lookup_mapSet_self _ _ _, fun _ => rfl, fun _ => rfl,
      ?_⟩
    intro port e
    cases e

/-- A name that is not empty and not a generated one is the entry name of the ports
declared under it, and of no other port. -/
theorem servicePortName_eq_iff (name : String) (hne : name ≠ "")
    (hgen : ∀ n : Int, SprintInt n ++ "-port" ≠ name) (port : v1.ContainerPort) :
    servicePortName port = name ↔ port.Name = name := by
  unfold servicePortName
  by_cases h : port.Name = ""
  · rw [if_pos h]
    constructor
    · intro e; exact absurd e (hgen _)
    · intro e; rw [h] at e; exact absurd e.symm hne
  · rw [if_neg h]

/-- No generated port name is "metrics". -/
theorem generated_ne_metrics (n : Int) : SprintInt n ++ "-port" ≠ "metrics" := by
  intro e
  have h := congrArg (fun s : String => s.data.getLast?) e
  have h1 : ("-port" : String).data = ['-', 'p', 'o', 'r', 't'] := rfl
  have h2 : ("metrics" : String).data = ['m', 'e', 't', 'r', 'i', 'c', 's'] := rfl
  simp only [String.data_append, h1, h2] at h
  simp at h

/-! ## The order of the computed ports -/

theorem stringLE_total (a b : List Char) : stringLE a b = true ∨ stringLE b a = true := by
  induction a generalizing b with
  | nil => exact Or.inl rfl
  | cons x xs ih =>
    cases b with
    | nil => exact Or.inr rfl
    | cons y ys =>
      simp only [stringLE]
      by_cases h₁ : x.toNat < y.toNat
      · simp [h₁]
      · by_cases h₂ : y.toNat < x.toNat
        · simp [h₂]
        · simp only [h₁, h₂, if_false]
          exact ih ys

theorem stringLE_trans (a b c : List Char) (hab : stringLE a b = true)
    (hbc : stringLE b c = true) : stringLE a c = true := by
  induction a generalizing b c with
  | nil => rfl
  | cons x xs ih =>
    cases b with
    | nil => simp [stringLE] at hab
    | cons y ys =>
      cases c with
      | nil => simp [stringLE] at hbc
      | cons z zs =>
        simp only [stringLE] at hab hbc ⊢
        by_cases h₁ : x.toNat < z.toNat
        · simp [h₁]
        · simp only [h₁, if_false]
          by_cases hxy : x.toNat < y.toNat
          · by_cases hyz : y.toNat < z.toNat
            · omega
            · simp only [hyz, if_false] at hbc
              by_cases hzy : z.toNat < y.toNat
              · simp [hzy] at hbc
              · omega
          · simp only [hxy, if_false] at hab
            by_cases hyx : y.toNat < x.toNat
            · simp [hyx] at hab
            · simp only [hyx, if_false] at hab
              by_cases hyz : y.toNat < z.toNat
              · omega
              · simp only [hyz, if_false] at hbc
                by_cases hzy : z.toNat < y.toNat
                · simp [hzy] at hbc
                · simp only [hzy, if_false] at hbc
                  have hzx : ¬ z.toNat < x.toNat := by omega
                  simp only [hzx, if_false]
                  exact ih ys zs hab hbc

theorem char_eq_of_toNat_eq (x y : Char) (h : x.toNat = y.toNat) : x = y := by
  apply Char.ext
  apply UInt32.ext
  exact h

theorem stringLE_antisymm (a b : List Char) (hab : stringLE a b = true)
    (hba : stringLE b a = true) : a = b := by
  induction a generalizing b with
  | nil =>
    cases b with
    | nil => rfl
    | cons y ys => simp [stringLE] at hba
  | cons x xs ih =>
    cases b with
    | nil => simp [stringLE] at hab
    | cons y ys =>
      simp only [stringLE] at hab hba
      by_cases hxy : x.toNat < y.toNat
      · have hyx : ¬ y.toNat < x.toNat := by omega
        simp [hyx, hxy] at hba
      · by_cases hyx : y.toNat < x.toNat
        · simp [hxy, hyx] at hab
        · simp only [hxy, hyx, if_false] at hab hba
          rw [char_eq_of_toNat_eq x y (by omega), ih ys hab hba]

/-- Sorting by name gives one list for all arrangements of ports with different names. -/
theorem insertionSort_ports_eq (l₁ l₂ : List v1.ServicePort) (hp : l₁.Perm l₂)
    (hn : (l₁.map fun p => p.Name).Nodup) :
    l₁.insertionSort (fun p q => stringLE p.Name.data q.Name.data = true) =
      l₂.insertionSort (fun p q => stringLE p.Name.data q.Name.data = true) := by
  haveI : IsTotal v1.ServicePort (fun p q => stringLE p.Name.data q.Name.data = true) :=
    ⟨fun p q => stringLE_total _ _⟩
  haveI : IsTrans v1.ServicePort (fun p q => stringLE p.Name.data q.Name.data = true) :=
    ⟨fun p q r => stringLE_trans _ _ _⟩
  haveI : IsAntisymm v1.ServicePort
      (fun p q => stringLE p.Name.data q.Name.data = true ∧ p.Name ≠ q.Name) :=
    ⟨fun p q h₁ h₂ => absurd (String.ext (stringLE_antisymm _ _ h₁.1 h₂.1)) h₁.2⟩
  have p₁ := List.perm_insertionSort (fun p q => stringLE p.Name.data q.Name.data = true) l₁
  have p₂ := List.perm_insertionSort (fun p q => stringLE p.Name.data q.Name.data = true) l₂
  have s₁ := List.sorted_insertionSort (fun p q => stringLE p.Name.data q.Name.data = true) l₁
  have s₂ := List.sorted_insertionSort (fun p q => stringLE p.Name.data q.Name.data = true) l₂
  have n₁ : ((l₁.insertionSort
      (fun p q => stringLE p.Name.data q.Name.data = true)).map fun p => p.Name).Nodup :=
    ((p₁.map fun p => p.Name).nodup_iff).2 hn
  have n₂ : ((l₂.insertionSort
      (fun p q => stringLE p.Name.data q.Name.data = true)).map fun p => p.Name).Nodup :=
    (((p₂.trans hp.symm).map fun p => p.Name).nodup_iff).2 hn
  exact List.eq_of_perm_of_sorted (p₁.trans (hp.trans p₂.symm))
    (List.Pairwise.and s₁ (List.pairwise_map.1 n₁))
    (List.Pairwise.and s₂ (List.pairwise_map.1 n₂))

/-- The computed ports do not depend on the order in which the port map is visited. -/
theorem computedServicePorts_order (S : ServiceConstants) (o₁ o₂ : PortRangeOrder)
    (cluster : rayalphaapi.RayCluster) (h₁ : o₁.Valid) (h₂ : o₂.Valid) :
    computedServicePorts S o₁ cluster = computedServicePorts S o₂ cluster := by
  cases hf : cluster.Spec.HeadGroupSpec.Template.Spec.Containers.find?
      (fun c => c.Name = S.RayContainerName) with
  | none =>
    have hg : getServicePorts S cluster =
        .error (.error "the head template has no primary container") := by
      simp only [getServicePorts, getPortsFromCluster, hf, bind, Except.bind]
    simp only [computedServicePorts, hg, bind, Except.bind]
  | some c =>
    have hprimary : ∃ c ∈ cluster.Spec.HeadGroupSpec.Template.Spec.Containers,
        c.Name = S.RayContainerName :=
      ⟨c, List.mem_of_find?_eq_some hf, by simpa using List.find?_some hf⟩
    obtain ⟨portsInt, hp, hn⟩ := getServicePorts_ok S cluster hprimary
    simp only [computedServicePorts, hp, bind, Except.bind, pure, Except.pure]
    congr 1
    apply insertionSort_ports_eq
    · exact ((h₁ portsInt).trans (h₂ portsInt).symm).map _
    · rw [List.map_map]
      exact (((h₁ portsInt).map Prod.fst).nodup_iff).2 hn

/-- The service does not depend on the order in which the port map is visited. -/
theorem BuildServiceForHeadPod_order (S : ServiceConstants) (o₁ o₂ : PortRangeOrder)
    (cluster : rayalphaapi.RayCluster) (labels annotations : List (String × String))
    (h₁ : o₁.Valid) (h₂ : o₂.Valid) :
    BuildServiceForHeadPod S o₁ cluster labels annotations =
      BuildServiceForHeadPod S o₂ cluster labels annotations := by
  simp only [BuildServiceForHeadPod, computedServicePorts_order S o₁ o₂ cluster h₁ h₂]

/-! # The claims -/

/-- C1 (code defect): buildVolumeMounts does not look at the volume type. For a descriptor
that is not host-path it still emits a mount, while buildVols emits no volume, so the mount
named "data" has no volume of that name and the two lists differ in length. -/
theorem C1_mount_without_volume :
    buildVolumeMounts
        [{ Name := "data", MountPath := "/data", VolumeType := .PERSISTENT_VOLUME_CLAIM }] =
      [{ Name := "data", ReadOnly := false, MountPath := "/data" }] ∧
    buildVols
        [{ Name := "data", MountPath := "/data", VolumeType := .PERSISTENT_VOLUME_CLAIM }] =
      [] := by
  decide

/-- C2 (counterexample): with no image on the group, the container of the head template and
of the worker template runs the default image "rayproject/ray:2.0.0", but the image
annotation is the empty string, not that resolved image. -/
theorem C2_image_annotation_unresolved :
    (buildHeadPodTemplate exampleConstants id "2.0.0" [] { ComputeTemplate := "small" }
        (some { Name := "small", Cpu := 1, Memory := 1 })).map
      (fun t =>
        (t.ObjectMeta.Annotations.lookup exampleConstants.RayClusterImageAnnotationKey,
          t.Spec.Containers.map fun c => c.Image)) =
      .ok (some "", ["rayproject/ray:2.0.0"]) ∧
    (buildWorkerPodTemplate exampleConstants id "2.0.0" [] { ComputeTemplate := "small" }
        (some { Name := "small", Cpu := 1, Memory := 1 })).map
      (fun t =>
        (t.ObjectMeta.Annotations.lookup exampleConstants.RayClusterImageAnnotationKey,
          t.Spec.Containers.map fun c => c.Image)) =
      .ok (some "", ["rayproject/ray:2.0.0"]) := by
  decide

/-- C2 (amended): for every head or worker group spec, cluster version and compute template,
the pod template returned by buildHeadPodTemplate / buildWorkerPodTemplate carries an image
annotation equal to the group's own Image field as given (the empty string when the group
gives no image, although the container then runs the default image) and, the two annotation
keys being different, a compute-template annotation equal to the template's name. -/
theorem C2_annotations (K : Constants) (order : RangeOrder) (imageVersion : String)
    (envs : List (String × String)) (head : api.HeadGroupSpec) (worker : api.WorkerGroupSpec)
    (ct : api.ComputeTemplate)
    (hkeys : K.RayClusterComputeTemplateAnnotationKey ≠ K.RayClusterImageAnnotationKey) :
    ∃ th tw,
      buildHeadPodTemplate K order imageVersion envs head (some ct) = .ok th ∧
      buildWorkerPodTemplate K order imageVersion envs worker (some ct) = .ok tw ∧
      th.ObjectMeta.Annotations.lookup K.RayClusterImageAnnotationKey = some head.Image ∧
      tw.ObjectMeta.Annotations.lookup K.RayClusterImageAnnotationKey = some worker.Image ∧
      th.ObjectMeta.Annotations.lookup K.RayClusterComputeTemplateAnnotationKey =
        some ct.Name ∧
      tw.ObjectMeta.Annotations.lookup K.RayClusterComputeTemplateAnnotationKey =
        some ct.Name ∧
      mapKeys th.ObjectMeta.Annotations =
        [K.RayClusterComputeTemplateAnnotationKey, K.RayClusterImageAnnotationKey] ∧
      mapKeys tw.ObjectMeta.Annotations =
        [K.RayClusterComputeTemplateAnnotationKey, K.RayClusterImageAnnotationKey] := by
  have hname : ∀ image : String,
      (mapSet (mapSet [] K.RayClusterComputeTemplateAnnotationKey ct.Name)
        K.RayClusterImageAnnotationKey image).lookup K.RayClusterComputeTemplateAnnotationKey =
        some ct.Name := by
    intro image
    rw [lookup_mapSet_of_ne _ _ _ _ hkeys, lookup_mapSet_self]
  have hk : ∀ image : String,
      mapKeys (mapSet (mapSet [] K.RayClusterComputeTemplateAnnotationKey ct.Name)
        K.RayClusterImageAnnotationKey image) =
        [K.RayClusterComputeTemplateAnnotationKey, K.RayClusterImageAnnotationKey] := by
    intro image
    simp [mapSet, mapKeys, hkeys]
  exact ⟨_, _, buildHeadPodTemplate_some K order imageVersion envs head ct,
    buildWorkerPodTemplate_some K order imageVersion envs worker ct,
    lookup_mapSet_self _ _ _, lookup_mapSet_self _ _ _, hname _, hname _, hk _, hk _⟩

/-- C2 (witness): the worker group with image "example/ray:nightly" and template "small"
is annotated with that image and with "small". -/
theorem C2_annotations_witness :
    ∃ tw,
      buildWorkerPodTemplate exampleConstants id "2.0.0" []
        { ComputeTemplate := "small", Image := "example/ray:nightly" }
        (some { Name := "small", Cpu := 1, Memory := 1 }) = .ok tw ∧
      tw.ObjectMeta.Annotations.lookup "ray.io/compute-image" = some "example/ray:nightly" ∧
      tw.ObjectMeta.Annotations.lookup "ray.io/compute-template" = some "small" := by
  obtain ⟨th, tw, -, hw, -, h1, -, h2, -, -⟩ :=
    C2_annotations exampleConstants id "2.0.0" [] { ComputeTemplate := "small" }
      { ComputeTemplate := "small", Image := "example/ray:nightly" }
      { Name := "small", Cpu := 1, Memory := 1 } (by decide)
  exact ⟨tw, hw, h1, h2⟩

/-- C3 (code defect): for every input the worker container's fifth and sixth built-in
variables, MEMORY_REQUESTS and MEMORY_LIMITS, reference the resources "requests.cpu" and
"limits.cpu" of container "ray-worker", the same as CPU_REQUEST and CPU_LIMITS, and not
the memory request and the memory limit. -/
theorem C3_memory_variables_reference_cpu (K : Constants) (order : RangeOrder)
    (imageVersion : String) (envs : List (String × String)) (spec : api.WorkerGroupSpec)
    (ct : api.ComputeTemplate) :
    ∃ t c, buildWorkerPodTemplate K order imageVersion envs spec (some ct) = .ok t ∧
      t.Spec.Containers = [c] ∧
      c.Env[4]? = some
        { Name := "MEMORY_REQUESTS"
          ValueFrom := some
            { ResourceFieldRef := some
                { ContainerName := "ray-worker", Resource := "requests.cpu" } } } ∧
      c.Env[5]? = some
        { Name := "MEMORY_LIMITS"
          ValueFrom := some
            { ResourceFieldRef := some
                { ContainerName := "ray-worker", Resource := "limits.cpu" } } } :=
  ⟨_, _, buildWorkerPodTemplate_some K order imageVersion envs spec ct, rfl, rfl, rfl⟩

/-- C4 (counterexample): for a head group naming a template the map lacks,
buildRayClusterSpec returns no not-found error to its caller: the call ends in a nil-pointer
panic. -/
theorem C4_no_error_returned :
    buildRayClusterSpec exampleConstants (fun _ => id) "2.0.0" []
        { HeadGroupSpec := { ComputeTemplate := "missing" } } [] =
      .error (.panic .nilPointerDereference) ∧
    ¬ ∃ msg, buildRayClusterSpec exampleConstants (fun _ => id) "2.0.0" []
        { HeadGroupSpec := { ComputeTemplate := "missing" } } [] = .error (.error msg) := by
  refine ⟨rfl, ?_⟩
  rintro ⟨msg, h⟩
  have h' : buildRayClusterSpec exampleConstants (fun _ => id) "2.0.0" []
      { HeadGroupSpec := { ComputeTemplate := "missing" } } [] =
      .error (.panic .nilPointerDereference) := rfl
  rw [h'] at h
  cases h

/-- C4 (amended): when the head group or a worker group names a compute template that the
map lacks, buildRayClusterSpec and NewRayCluster yield no manifest: they end in a
nil-pointer panic, not in a returned error; when every named template is present both yield
a manifest. -/
theorem C4_missing_template_panics (K : Constants) (orders : Nat → RangeOrder)
    (apiCluster : api.Cluster) (computeTemplateMap : List (String × api.ComputeTemplate)) :
    (templatesPresent computeTemplateMap apiCluster.ClusterSpec = false →
      buildRayClusterSpec K orders apiCluster.Version apiCluster.Envs apiCluster.ClusterSpec
          computeTemplateMap = .error (.panic .nilPointerDereference) ∧
        NewRayCluster K orders apiCluster computeTemplateMap =
          .error (.panic .nilPointerDereference)) ∧
    (templatesPresent computeTemplateMap apiCluster.ClusterSpec = true →
      (∃ spec, buildRayClusterSpec K orders apiCluster.Version apiCluster.Envs
          apiCluster.ClusterSpec computeTemplateMap = .ok spec) ∧
        ∃ rayCluster, NewRayCluster K orders apiCluster computeTemplateMap = .ok rayCluster) := by
  constructor
  · intro h
    have hp := buildRayClusterSpec_panic K orders apiCluster.Version apiCluster.Envs
      apiCluster.ClusterSpec computeTemplateMap h
    exact ⟨hp, by simp [NewRayCluster, hp, bind, Except.bind]⟩
  · intro h
    obtain ⟨t, outs, -, hok, -, -⟩ := buildRayClusterSpec_ok K orders apiCluster.Version
      apiCluster.Envs apiCluster.ClusterSpec computeTemplateMap h
    exact ⟨⟨_, hok⟩, by simp [NewRayCluster, hok, bind, Except.bind, pure, Except.pure]⟩

/-- C4 (witness): a cluster whose worker group names a missing template panics, and the
same cluster with the template present is built. -/
theorem C4_missing_template_panics_witness :
    NewRayCluster exampleConstants (fun _ => id)
        { Name := "c", Version := "2.0.0"
          ClusterSpec :=
            { HeadGroupSpec := { ComputeTemplate := "small" }
              WorkerGroupSpec := [{ GroupName := "w", ComputeTemplate := "large" }] } }
        [("small", { Name := "small", Cpu := 1, Memory := 1 })] =
      .error (.panic .nilPointerDereference) ∧
    ∃ rayCluster, NewRayCluster exampleConstants (fun _ => id)
        { Name := "c", Version := "2.0.0"
          ClusterSpec :=
            { HeadGroupSpec := { ComputeTemplate := "small" }
              WorkerGroupSpec := [{ GroupName := "w", ComputeTemplate := "large" }] } }
        [("small", { Name := "small", Cpu := 1, Memory := 1 }),
         ("large", { Name := "large", Cpu := 8, Memory := 32 })] = .ok rayCluster :=
  ⟨((C4_missing_template_panics exampleConstants (fun _ => id) _ _).1 (by decide)).2,
    ((C4_missing_template_panics exampleConstants (fun _ => id) _ _).2 (by decide)).2⟩

/-- C5: for every cluster spec whose templates are all present, buildRayClusterSpec returns
one worker group per input group, in order; the emitted Replicas is the group's replica
count, the emitted MinReplicas is the group's MinReplicas when that is non-zero and the
replica count otherwise, the emitted MaxReplicas likewise from MaxReplicas, each decided on
its own; so with a non-zero replica count neither emitted bound is zero. -/
theorem C5_replica_bounds (K : Constants) (orders : Nat → RangeOrder) (imageVersion : String)
    (envs : List (String × String)) (clusterSpec : api.ClusterSpec)
    (computeTemplateMap : List (String × api.ComputeTemplate))
    (h : templatesPresent computeTemplateMap clusterSpec = true) :
    ∃ rayClusterSpec,
      buildRayClusterSpec K orders imageVersion envs clusterSpec computeTemplateMap =
        .ok rayClusterSpec ∧
      rayClusterSpec.WorkerGroupSpecs.length = clusterSpec.WorkerGroupSpec.length ∧
      ∀ (j : Nat) (spec : api.WorkerGroupSpec) (out : rayalphaapi.WorkerGroupSpec),
        clusterSpec.WorkerGroupSpec[j]? = some spec →
        rayClusterSpec.WorkerGroupSpecs[j]? = some out →
          out.Replicas = some spec.Replicas ∧
          out.MinReplicas =
            some (if spec.MinReplicas ≠ 0 then spec.MinReplicas else spec.Replicas) ∧
          out.MaxReplicas =
            some (if spec.MaxReplicas ≠ 0 then spec.MaxReplicas else spec.Replicas) ∧
          (spec.Replicas ≠ 0 → out.MinReplicas ≠ some 0 ∧ out.MaxReplicas ≠ some 0) := by
  obtain ⟨t, outs, -, hok, hlen, hall⟩ :=
    buildRayClusterSpec_ok K orders imageVersion envs clusterSpec computeTemplateMap h
  refine ⟨_, hok, hlen, ?_⟩
  intro j spec out hj ho
  obtain ⟨-, hr, hmin, hmax, -, -⟩ := hall j spec out hj ho
  refine ⟨hr, hmin, hmax, fun hne => ?_⟩
  rw [hmin, hmax]
  constructor
  · split
    · simpa
    · simpa using hne
  · split
    · simpa
    · simpa using hne

/-- C5 (witness): a worker group with replicas 3 and no bounds is emitted with
MinReplicas 3 and MaxReplicas 3, neither of them zero. -/
theorem C5_replica_bounds_witness :
    ∃ rayClusterSpec,
      buildRayClusterSpec exampleConstants (fun _ => id) "2.0.0" []
          { HeadGroupSpec := { ComputeTemplate := "small" }
            WorkerGroupSpec := [{ GroupName := "w", ComputeTemplate := "small", Replicas := 3 }] }
          [("small", { Name := "small", Cpu := 1, Memory := 1 })] = .ok rayClusterSpec ∧
      rayClusterSpec.WorkerGroupSpecs.length = 1 ∧
      ∀ out : rayalphaapi.WorkerGroupSpec, rayClusterSpec.WorkerGroupSpecs[0]? = some out →
        out.Replicas = some 3 ∧ out.MinReplicas = some 3 ∧ out.MaxReplicas = some 3 ∧
          out.MinReplicas ≠ some 0 ∧ out.MaxReplicas ≠ some 0 := by
  obtain ⟨r, hok, hlen, hall⟩ := C5_replica_bounds exampleConstants (fun _ => id) "2.0.0" []
    { HeadGroupSpec := { ComputeTemplate := "small" }
      WorkerGroupSpec := [{ GroupName := "w", ComputeTemplate := "small", Replicas := 3 }] }
    [("small", { Name := "small", Cpu := 1, Memory := 1 })] (by decide)
  refine ⟨r, hok, hlen, fun out ho => ?_⟩
  obtain ⟨h1, h2, h3, h4⟩ := hall 0 _ out rfl ho
  exact ⟨h1, h2, h3, h4 (by decide)⟩

/-- C6 (counterexample): for the template cpu = 4, memory = 8, gpu = 1 whose accelerator key
is "cpu", the GPU block overwrites the CPU entry: requests and limits hold 1 core, not 4. -/
theorem C6_cpu_entry_overwritten :
    (buildHeadPodTemplate exampleConstants id "2.0.0" [] { ComputeTemplate := "t" }
        (some { Name := "t", Cpu := 4, Memory := 8, Gpu := 1, GpuAccelerator := "cpu" })).map
      (fun t => t.Spec.Containers.map fun c =>
        (c.Resources.Requests.lookup v1.ResourceCPU, c.Resources.Limits.lookup v1.ResourceCPU)) =
      .ok [(some { value := 1, format := .DecimalSI }, some { value := 1, format := .DecimalSI })] ∧
    (buildHeadPodTemplate exampleConstants id "2.0.0" [] { ComputeTemplate := "t" }
        (some { Name := "t", Cpu := 4, Memory := 8, Gpu := 1, GpuAccelerator := "cpu" })).map
      (fun t => t.Spec.Containers.map fun c =>
        (c.Resources.Requests.lookup v1.ResourceCPU, c.Resources.Limits.lookup v1.ResourceCPU)) ≠
      .ok [(some { value := 4, format := .DecimalSI }, some { value := 4, format := .DecimalSI })] := by
  decide

/-- C6 (amended): for every compute template with cpu = c and memory = m, the container
built by buildHeadPodTemplate and by buildWorkerPodTemplate has a requests map equal to its
limits map; in both maps the CPU entry is the quantity of the decimal string of c, c cores,
provided gpu = 0 or the template's accelerator key is not "cpu", and the memory entry is the
quantity of "<m>Gi", m * 2^30 bytes, provided gpu = 0 or the accelerator key is not
"memory". -/
theorem C6_requests_equal_limits (K : Constants) (order : RangeOrder) (imageVersion : String)
    (envs : List (String × String)) (head : api.HeadGroupSpec) (worker : api.WorkerGroupSpec)
    (ct : api.ComputeTemplate) :
    ∃ th tw ch cw,
      buildHeadPodTemplate K order imageVersion envs head (some ct) = .ok th ∧
      buildWorkerPodTemplate K order imageVersion envs worker (some ct) = .ok tw ∧
      th.Spec.Containers = [ch] ∧ tw.Spec.Containers = [cw] ∧
      ∀ c : v1.Container, c = ch ∨ c = cw →
        c.Resources.Requests = c.Resources.Limits ∧
        (ct.Gpu = 0 ∨ ct.GpuAccelerator ≠ "cpu" →
          resource.MustParse (Sprint ct.Cpu) = .ok { value := ct.Cpu, format := .DecimalSI } ∧
          c.Resources.Requests.lookup v1.ResourceCPU =
            some { value := ct.Cpu, format := .DecimalSI } ∧
          c.Resources.Limits.lookup v1.ResourceCPU =
            some { value := ct.Cpu, format := .DecimalSI }) ∧
        (ct.Gpu = 0 ∨ ct.GpuAccelerator ≠ "memory" →
          resource.MustParse (Sprint ct.Memory ++ "Gi") =
            .ok { value := ct.Memory * 2 ^ 30, format := .BinarySI } ∧
          c.Resources.Requests.lookup v1.ResourceMemory =
            some { value := ct.Memory * 2 ^ 30, format := .BinarySI } ∧
          c.Resources.Limits.lookup v1.ResourceMemory =
            some { value := ct.Memory * 2 ^ 30, format := .BinarySI }) := by
  refine ⟨_, _, _, _, buildHeadPodTemplate_some K order imageVersion envs head ct,
    buildWorkerPodTemplate_some K order imageVersion envs worker ct, rfl, rfl, ?_⟩
  rintro c (rfl | rfl) <;>
    exact ⟨rfl,
      fun h => ⟨MustParse_Sprint _, resourcesOf_lookup_cpu ct h, resourcesOf_lookup_cpu ct h⟩,
      fun h => ⟨MustParse_Sprint_Gi _, resourcesOf_lookup_memory ct h,
        resourcesOf_lookup_memory ct h⟩⟩

/-- C6 (witness): the template cpu = 4, memory = 8, gpu = 2 with the default accelerator
gives 4 cores and 8 * 2^30 bytes in the requests and the limits of the head container. -/
theorem C6_requests_equal_limits_witness :
    ∃ th ch,
      buildHeadPodTemplate exampleConstants id "2.0.0" [] { ComputeTemplate := "t" }
        (some { Name := "t", Cpu := 4, Memory := 8, Gpu := 2 }) = .ok th ∧
      th.Spec.Containers = [ch] ∧
      ch.Resources.Requests = ch.Resources.Limits ∧
      ch.Resources.Requests.lookup v1.ResourceCPU = some { value := 4, format := .DecimalSI } ∧
      ch.Resources.Limits.lookup v1.ResourceMemory =
        some { value := 8 * 2 ^ 30, format := .BinarySI } := by
  obtain ⟨th, tw, ch, cw, hh, -, hch, -, hall⟩ :=
    C6_requests_equal_limits exampleConstants id "2.0.0" [] { ComputeTemplate := "t" }
      { ComputeTemplate := "t" } { Name := "t", Cpu := 4, Memory := 8, Gpu := 2 }
  obtain ⟨heq, hcpu, hmem⟩ := hall ch (Or.inl rfl)
  exact ⟨th, ch, hh, hch, heq, (hcpu (Or.inr (by decide))).2.1, (hmem (Or.inr (by decide))).2.2⟩

/-- C7: for every compute template, in the container of buildHeadPodTemplate and of
buildWorkerPodTemplate: if gpu > 0 the accelerator key (the template's, or "nvidia.com/gpu"
when the template names none) is present in the requests and in the limits with the
quantity gpu; if gpu = 0 neither map has a key other than CPU and memory. -/
theorem C7_accelerator_key (K : Constants) (order : RangeOrder) (imageVersion : String)
    (envs : List (String × String)) (head : api.HeadGroupSpec) (worker : api.WorkerGroupSpec)
    (ct : api.ComputeTemplate) :
    ∃ th tw ch cw,
      buildHeadPodTemplate K order imageVersion envs head (some ct) = .ok th ∧
      buildWorkerPodTemplate K order imageVersion envs worker (some ct) = .ok tw ∧
      th.Spec.Containers = [ch] ∧ tw.Spec.Containers = [cw] ∧
      ∀ c : v1.Container, c = ch ∨ c = cw →
        (0 < ct.Gpu →
          c.Resources.Requests.lookup
              (if ct.GpuAccelerator = "" then "nvidia.com/gpu" else ct.GpuAccelerator) =
            some { value := ct.Gpu, format := .DecimalSI } ∧
          c.Resources.Limits.lookup
              (if ct.GpuAccelerator = "" then "nvidia.com/gpu" else ct.GpuAccelerator) =
            some { value := ct.Gpu, format := .DecimalSI }) ∧
        (ct.Gpu = 0 →
          (∀ k ∈ mapKeys c.Resources.Requests, k = v1.ResourceCPU ∨ k = v1.ResourceMemory) ∧
          (∀ k ∈ mapKeys c.Resources.Limits, k = v1.ResourceCPU ∨ k = v1.ResourceMemory)) := by
  refine ⟨_, _, _, _, buildHeadPodTemplate_some K order imageVersion envs head ct,
    buildWorkerPodTemplate_some K order imageVersion envs worker ct, rfl, rfl, ?_⟩
  have hkeys : ct.Gpu = 0 →
      ∀ k ∈ mapKeys (resourcesOf ct), k = v1.ResourceCPU ∨ k = v1.ResourceMemory := by
    intro h k hk
    rw [resourcesOf_gpu_zero ct h] at hk
    simpa [mapKeys] using hk
  rintro c (rfl | rfl) <;>
    exact ⟨fun h => ⟨resourcesOf_lookup_accelerator ct (by omega),
        resourcesOf_lookup_accelerator ct (by omega)⟩,
      fun h => ⟨hkeys h, hkeys h⟩⟩

/-- C7 (witness): with gpu = 2 and the accelerator "amd.com/gpu" the worker container
requests and is limited to 2 of "amd.com/gpu"; with gpu = 0 the keys of the head
container's requests are CPU and memory alone. -/
theorem C7_accelerator_key_witness :
    (∃ tw cw,
      buildWorkerPodTemplate exampleConstants id "2.0.0" [] { ComputeTemplate := "t" }
        (some { Name := "t", Cpu := 4, Memory := 8, Gpu := 2, GpuAccelerator := "amd.com/gpu" }) =
        .ok tw ∧
      tw.Spec.Containers = [cw] ∧
      cw.Resources.Requests.lookup "amd.com/gpu" = some { value := 2, format := .DecimalSI } ∧
      cw.Resources.Limits.lookup "amd.com/gpu" = some { value := 2, format := .DecimalSI }) ∧
    (∃ th ch,
      buildHeadPodTemplate exampleConstants id "2.0.0" [] { ComputeTemplate := "t" }
        (some { Name := "t", Cpu := 4, Memory := 8 }) = .ok th ∧
      th.Spec.Containers = [ch] ∧
      ∀ k ∈ mapKeys ch.Resources.Requests, k = v1.ResourceCPU ∨ k = v1.ResourceMemory) := by
  constructor
  · obtain ⟨th, tw, ch, cw, -, hw, -, hcw, hall⟩ :=
      C7_accelerator_key exampleConstants id "2.0.0" [] { ComputeTemplate := "t" }
        { ComputeTemplate := "t" }
        { Name := "t", Cpu := 4, Memory := 8, Gpu := 2, GpuAccelerator := "amd.com/gpu" }
    exact ⟨tw, cw, hw, hcw, (hall cw (Or.inr rfl)).1 (by decide)⟩
  · obtain ⟨th, tw, ch, cw, hh, -, hch, -, hall⟩ :=
      C7_accelerator_key exampleConstants id "2.0.0" [] { ComputeTemplate := "t" }
        { ComputeTemplate := "t" } { Name := "t", Cpu := 4, Memory := 8 }
    exact ⟨th, ch, hh, hch, ((hall ch (Or.inl rfl)).2 rfl).1⟩

/-- C8 (counterexample): for the template cpu = 4, memory = 8, gpu = 2 whose accelerator key
is "memory", requests and limits of the worker container hold two entries, not three, and
the memory entry holds the gpu count. -/
theorem C8_two_entries :
    (buildWorkerPodTemplate exampleConstants id "2.0.0" [] { ComputeTemplate := "t" }
        (some { Name := "t", Cpu := 4, Memory := 8, Gpu := 2, GpuAccelerator := "memory" })).map
      (fun t => t.Spec.Containers.map fun c => (c.Resources.Requests, c.Resources.Limits)) =
      .ok [([("cpu", { value := 4, format := .DecimalSI }),
              ("memory", { value := 2, format := .DecimalSI })],
            [("cpu", { value := 4, format := .DecimalSI }),
              ("memory", { value := 2, format := .DecimalSI })])] := by
  decide

/-- C8 (amended): for every compute template with gpu > 0 whose gpuAccelerator is neither
"cpu" nor "memory", the requests and the limits of the container of buildHeadPodTemplate
and of buildWorkerPodTemplate each hold exactly three entries: CPU with the template's cpu,
memory with the template's memory in Gi, and one accelerator key with the gpu count, the
key being "nvidia.com/gpu" when gpuAccelerator is empty and gpuAccelerator otherwise. -/
theorem C8_three_entries (K : Constants) (order : RangeOrder) (imageVersion : String)
    (envs : List (String × String)) (head : api.HeadGroupSpec) (worker : api.WorkerGroupSpec)
    (ct : api.ComputeTemplate) (hg : 0 < ct.Gpu) (hc : ct.GpuAccelerator ≠ "cpu")
    (hm : ct.GpuAccelerator ≠ "memory") :
    ∃ th tw ch cw,
      buildHeadPodTemplate K order imageVersion envs head (some ct) = .ok th ∧
      buildWorkerPodTemplate K order imageVersion envs worker (some ct) = .ok tw ∧
      th.Spec.Containers = [ch] ∧ tw.Spec.Containers = [cw] ∧
      ∀ c : v1.Container, c = ch ∨ c = cw →
        c.Resources.Requests =
          [(v1.ResourceCPU, { value := ct.Cpu, format := .DecimalSI }),
           (v1.ResourceMemory, { value := ct.Memory * 2 ^ 30, format := .BinarySI }),
           (if ct.GpuAccelerator = "" then "nvidia.com/gpu" else ct.GpuAccelerator,
             { value := ct.Gpu, format := .DecimalSI })] ∧
        c.Resources.Limits = c.Resources.Requests ∧
        (mapKeys c.Resources.Requests).Nodup := by
  refine ⟨_, _, _, _, buildHeadPodTemplate_some K order imageVersion envs head ct,
    buildWorkerPodTemplate_some K order imageVersion envs worker ct, rfl, rfl, ?_⟩
  have h3 := resourcesOf_three ct (by omega) hc hm
  have h1 : acceleratorOf ct ≠ "cpu" := acceleratorOf_ne ct "cpu" (by decide) hc
  have h2 : acceleratorOf ct ≠ "memory" := acceleratorOf_ne ct "memory" (by decide) hm
  have hnd : (mapKeys (resourcesOf ct)).Nodup := by
    rw [h3]
    simp [mapKeys, v1.ResourceCPU, v1.ResourceMemory, Ne.symm h1, Ne.symm h2]
  rintro c (rfl | rfl) <;> exact ⟨h3, rfl, hnd⟩

/-- C8 (witness): gpu = 1 with no accelerator named gives the three entries cpu, memory and
"nvidia.com/gpu" on the head container. -/
theorem C8_three_entries_witness :
    ∃ th ch,
      buildHeadPodTemplate exampleConstants id "2.0.0" [] { ComputeTemplate := "t" }
        (some { Name := "t", Cpu := 4, Memory := 8, Gpu := 1 }) = .ok th ∧
      th.Spec.Containers = [ch] ∧
      ch.Resources.Requests =
        [("cpu", { value := 4, format := .DecimalSI }),
         ("memory", { value := 8 * 2 ^ 30, format := .BinarySI }),
         ("nvidia.com/gpu", { value := 1, format := .DecimalSI })] ∧
      ch.Resources.Limits = ch.Resources.Requests := by
  obtain ⟨th, tw, ch, cw, hh, -, hch, -, hall⟩ :=
    C8_three_entries exampleConstants id "2.0.0" [] { ComputeTemplate := "t" }
      { ComputeTemplate := "t" } { Name := "t", Cpu := 4, Memory := 8, Gpu := 1 }
      (by decide) (by decide) (by decide)
  obtain ⟨h1, h2, -⟩ := hall ch (Or.inl rfl)
  exact ⟨th, ch, hh, hch, h1, h2⟩

/-- C9: for every group spec and cluster version, the container image of
buildHeadPodTemplate and of buildWorkerPodTemplate is the group's image when that string is
not empty, and otherwise the default repository, a colon and the cluster version, which is
what constructRayImage returns. -/
theorem C9_image (K : Constants) (order : RangeOrder) (imageVersion : String)
    (envs : List (String × String)) (head : api.HeadGroupSpec) (worker : api.WorkerGroupSpec)
    (ct : api.ComputeTemplate) :
    constructRayImage K.RayClusterDefaultImageRepository imageVersion =
      K.RayClusterDefaultImageRepository ++ ":" ++ imageVersion ∧
    ∃ th tw ch cw,
      buildHeadPodTemplate K order imageVersion envs head (some ct) = .ok th ∧
      buildWorkerPodTemplate K order imageVersion envs worker (some ct) = .ok tw ∧
      th.Spec.Containers = [ch] ∧ tw.Spec.Containers = [cw] ∧
      ch.Image =
        (if head.Image = "" then K.RayClusterDefaultImageRepository ++ ":" ++ imageVersion
          else head.Image) ∧
      cw.Image =
        (if worker.Image = "" then K.RayClusterDefaultImageRepository ++ ":" ++ imageVersion
          else worker.Image) :=
  ⟨rfl, _, _, _, _, buildHeadPodTemplate_some K order imageVersion envs head ct,
    buildWorkerPodTemplate_some K order imageVersion envs worker ct, rfl, rfl, rfl, rfl⟩

/-- C10: for every environment-override map envs, visited by the range in any order, the
environment of the head container is the one built-in MY_POD_IP (field reference
status.podIP) followed by the overrides, and that of the worker container is its eight
built-ins followed by the overrides; the overrides are one literal entry (Name k, Value v)
per pair of envs and nothing else, so every built-in precedes every override and the length
is the built-in count plus the number of pairs. -/
theorem C10_environment (K : Constants) (order : RangeOrder) (imageVersion : String)
    (envs : List (String × String)) (head : api.HeadGroupSpec) (worker : api.WorkerGroupSpec)
    (ct : api.ComputeTemplate) (horder : order.Valid) :
    ∃ th tw ch cw overrides builtins,
      buildHeadPodTemplate K order imageVersion envs head (some ct) = .ok th ∧
      buildWorkerPodTemplate K order imageVersion envs worker (some ct) = .ok tw ∧
      th.Spec.Containers = [ch] ∧ tw.Spec.Containers = [cw] ∧
      overrides.Perm (envs.map fun kv => ({ Name := kv.1, Value := kv.2 } : v1.EnvVar)) ∧
      ch.Env =
        { Name := "MY_POD_IP"
          ValueFrom := some { FieldRef := some { FieldPath := "status.podIP" } } } ::
          overrides ∧
      ch.Env.length = 1 + envs.length ∧
      cw.Env = builtins ++ overrides ∧
      builtins.map (fun e => e.Name) =
        ["RAY_DISABLE_DOCKER_CPU_WARNING", "TYPE", "CPU_REQUEST", "CPU_LIMITS",
          "MEMORY_REQUESTS", "MEMORY_LIMITS", "MY_POD_NAME", "MY_POD_IP"] ∧
      cw.Env.length = 8 + envs.length := by
  have hperm : ((order envs).map fun kv => ({ Name := kv.1, Value := kv.2 } : v1.EnvVar)).Perm
      (envs.map fun kv => ({ Name := kv.1, Value := kv.2 } : v1.EnvVar)) :=
    (horder envs).map _
  have hlen : (order envs).length = envs.length := (horder envs).length_eq
  refine ⟨_, _, _, _, _, _, buildHeadPodTemplate_some K order imageVersion envs head ct,
    buildWorkerPodTemplate_some K order imageVersion envs worker ct, rfl, rfl, hperm, rfl, ?_,
    rfl, rfl, ?_⟩
  · simp [hlen]; omega
  · simp [hlen]; omega

/-- C10 (witness): with the two overrides A and B visited in reverse, the head container's
environment is MY_POD_IP, B, A. -/
theorem C10_environment_witness :
    ∃ th ch,
      buildHeadPodTemplate exampleConstants List.reverse "2.0.0" [("A", "1"), ("B", "2")]
        { ComputeTemplate := "t" } (some { Name := "t", Cpu := 4, Memory := 8 }) = .ok th ∧
      th.Spec.Containers = [ch] ∧
      ch.Env.length = 3 ∧
      ch.Env.map (fun e => e.Name) = ["MY_POD_IP", "B", "A"] := by
  obtain ⟨th, tw, ch, cw, overrides, builtins, hh, -, hch, -, -, -, hlen, -⟩ :=
    C10_environment exampleConstants List.reverse "2.0.0" [("A", "1"), ("B", "2")]
      { ComputeTemplate := "t" } { ComputeTemplate := "t" } { Name := "t", Cpu := 4, Memory := 8 }
      (fun m => List.reverse_perm m)
  refine ⟨th, ch, hh, hch, hlen, ?_⟩
  have hev : buildHeadPodTemplate exampleConstants List.reverse "2.0.0" [("A", "1"), ("B", "2")]
      { ComputeTemplate := "t" } (some { Name := "t", Cpu := 4, Memory := 8 }) =
      .ok th → th.Spec.Containers = [ch] →
      ch.Env.map (fun e => e.Name) = ["MY_POD_IP", "B", "A"] := by
    rw [buildHeadPodTemplate_some]
    intro h1 h2
    cases h1
    simp only [List.cons.injEq, and_true] at h2
    subst h2
    rfl
  exact hev hh hch

/-- C11 (counterexample): with the two overrides A and B, a call whose range visits A first
and a call whose range visits B first, both of them orders Go allows, return head templates
that differ: the environment is MY_POD_IP, A, B in one and MY_POD_IP, B, A in the other. -/
theorem C11_env_order_differs :
    RangeOrder.Valid id ∧ RangeOrder.Valid List.reverse ∧
    buildHeadPodTemplate exampleConstants id "2.0.0" [("A", "1"), ("B", "2")]
        { ComputeTemplate := "t" } (some { Name := "t", Cpu := 4, Memory := 8 }) ≠
      buildHeadPodTemplate exampleConstants List.reverse "2.0.0" [("A", "1"), ("B", "2")]
        { ComputeTemplate := "t" } (some { Name := "t", Cpu := 4, Memory := 8 }) :=
  ⟨fun m => List.Perm.refl m, fun m => List.reverse_perm m, by decide⟩

/-- C11 (amended): two calls of buildHeadPodTemplate, of buildWorkerPodTemplate and of
NewRayCluster with identical arguments end the same way, with the same panic or both with
an output, and the two outputs agree in every field, the volume list, the port list and the
built-in entries of the environment list included, except for the order of the override
entries that close each environment list, which are the same entries in both; when the
override mapping has fewer than two keys the two outputs are identical. -/
theorem C11_same_up_to_override_order (K : Constants) (orders₁ orders₂ : Nat → RangeOrder)
    (apiCluster : api.Cluster) (computeTemplateMap : List (String × api.ComputeTemplate))
    (head : api.HeadGroupSpec) (worker : api.WorkerGroupSpec)
    (computeRuntime : Option api.ComputeTemplate)
    (h₁ : ∀ i, (orders₁ i).Valid) (h₂ : ∀ i, (orders₂ i).Valid) :
    SameOutcome (v1.PodTemplateSpec.SameUpToOverrideOrder apiCluster.Envs.length)
      (buildHeadPodTemplate K (orders₁ 0) apiCluster.Version apiCluster.Envs head computeRuntime)
      (buildHeadPodTemplate K (orders₂ 0) apiCluster.Version apiCluster.Envs head
        computeRuntime) ∧
    SameOutcome (v1.PodTemplateSpec.SameUpToOverrideOrder apiCluster.Envs.length)
      (buildWorkerPodTemplate K (orders₁ 1) apiCluster.Version apiCluster.Envs worker
        computeRuntime)
      (buildWorkerPodTemplate K (orders₂ 1) apiCluster.Version apiCluster.Envs worker
        computeRuntime) ∧
    SameOutcome (rayalphaapi.RayCluster.SameUpToOverrideOrder apiCluster.Envs.length)
      (NewRayCluster K orders₁ apiCluster computeTemplateMap)
      (NewRayCluster K orders₂ apiCluster computeTemplateMap) ∧
    (apiCluster.Envs.length ≤ 1 →
      buildHeadPodTemplate K (orders₁ 0) apiCluster.Version apiCluster.Envs head computeRuntime =
        buildHeadPodTemplate K (orders₂ 0) apiCluster.Version apiCluster.Envs head
          computeRuntime ∧
      buildWorkerPodTemplate K (orders₁ 1) apiCluster.Version apiCluster.Envs worker
          computeRuntime =
        buildWorkerPodTemplate K (orders₂ 1) apiCluster.Version apiCluster.Envs worker
          computeRuntime ∧
      NewRayCluster K orders₁ apiCluster computeTemplateMap =
        NewRayCluster K orders₂ apiCluster computeTemplateMap) := by
  refine ⟨?_, ?_, ?_, fun hl => ?_⟩
  · cases computeRuntime with
    | none => simp [buildHeadPodTemplate_none, SameOutcome]
    | some ct =>
      have := head_sameUpToOverrideOrder K (orders₁ 0) (orders₂ 0) apiCluster.Version
        apiCluster.Envs head ct (h₁ 0) (h₂ 0) _ _ (buildHeadPodTemplate_some ..)
        (buildHeadPodTemplate_some ..)
      simpa only [buildHeadPodTemplate_some, SameOutcome] using this
  · cases computeRuntime with
    | none => simp [buildWorkerPodTemplate_none, SameOutcome]
    | some ct =>
      have := worker_sameUpToOverrideOrder K (orders₁ 1) (orders₂ 1) apiCluster.Version
        apiCluster.Envs worker ct (h₁ 1) (h₂ 1) _ _ (buildWorkerPodTemplate_some ..)
        (buildWorkerPodTemplate_some ..)
      simpa only [buildWorkerPodTemplate_some, SameOutcome] using this
  · cases hp : templatesPresent computeTemplateMap apiCluster.ClusterSpec with
    | false =>
      have e₁ := buildRayClusterSpec_panic K orders₁ apiCluster.Version apiCluster.Envs
        apiCluster.ClusterSpec computeTemplateMap hp
      have e₂ := buildRayClusterSpec_panic K orders₂ apiCluster.Version apiCluster.Envs
        apiCluster.ClusterSpec computeTemplateMap hp
      simp [NewRayCluster, e₁, e₂, bind, Except.bind, SameOutcome]
    | true =>
      obtain ⟨c₁, c₂, e₁, e₂, hsame⟩ :=
        NewRayCluster_same K orders₁ orders₂ apiCluster computeTemplateMap h₁ h₂ hp
      rw [e₁, e₂]
      exact hsame
  · have hall : ∀ i, orders₁ i apiCluster.Envs = orders₂ i apiCluster.Envs := fun i =>
      RangeOrder.Valid.eq_of_length_le_one (h₁ i) (h₂ i) _ hl
    exact ⟨buildHeadPodTemplate_congr K _ _ _ _ _ _ (hall 0),
      buildWorkerPodTemplate_congr K _ _ _ _ _ _ (hall 1),
      NewRayCluster_congr K orders₁ orders₂ apiCluster computeTemplateMap hall⟩

/-- C11 (witness): the cluster with the overrides A and B, built once with every range
visiting A first and once with every range visiting B first, comes out the same up to the
order of the two override entries. -/
theorem C11_same_up_to_override_order_witness :
    SameOutcome (rayalphaapi.RayCluster.SameUpToOverrideOrder 2)
      (NewRayCluster exampleConstants (fun _ => id)
        { Name := "c", Version := "2.0.0", Envs := [("A", "1"), ("B", "2")]
          ClusterSpec :=
            { HeadGroupSpec := { ComputeTemplate := "t" }
              WorkerGroupSpec := [{ GroupName := "w", ComputeTemplate := "t", Replicas := 2 }] } }
        [("t", { Name := "t", Cpu := 4, Memory := 8 })])
      (NewRayCluster exampleConstants (fun _ => List.reverse)
        { Name := "c", Version := "2.0.0", Envs := [("A", "1"), ("B", "2")]
          ClusterSpec :=
            { HeadGroupSpec := { ComputeTemplate := "t" }
              WorkerGroupSpec := [{ GroupName := "w", ComputeTemplate := "t", Replicas := 2 }] } }
        [("t", { Name := "t", Cpu := 4, Memory := 8 })]) :=
  (C11_same_up_to_override_order exampleConstants (fun _ => id) (fun _ => List.reverse)
    { Name := "c", Version := "2.0.0", Envs := [("A", "1"), ("B", "2")]
      ClusterSpec :=
        { HeadGroupSpec := { ComputeTemplate := "t" }
          WorkerGroupSpec := [{ GroupName := "w", ComputeTemplate := "t", Replicas := 2 }] } }
    [("t", { Name := "t", Cpu := 4, Memory := 8 })] {} {} none
    (fun _ m => List.Perm.refl m) (fun _ m => List.reverse_perm m)).2.2.1

/-- C12: for every node record, GetNodeHostIP fails if and only if the address list holds no
address of type internal and none of type external, and then it returns an error to the
caller; otherwise it returns, with no error, the parsed address of the first internal-type
entry when there is one, wherever it stands, and else that of the first external-type
entry. -/
theorem C12_node_host_ip {IP : Type} (ParseIP : String → IP) (node : v1.Node) :
    ((∃ failure, GetNodeHostIP ParseIP node = .error failure) ↔
      ∀ a ∈ node.Status.Addresses,
        a.Type_ ≠ v1.NodeInternalIP ∧ a.Type_ ≠ v1.NodeExternalIP) ∧
    ((∀ a ∈ node.Status.Addresses,
        a.Type_ ≠ v1.NodeInternalIP ∧ a.Type_ ≠ v1.NodeExternalIP) →
      ∃ msg, GetNodeHostIP ParseIP node = .error (.error msg)) ∧
    (∀ a, node.Status.Addresses.find? (fun a => a.Type_ = v1.NodeInternalIP) = some a →
      GetNodeHostIP ParseIP node = .ok (ParseIP a.Address)) ∧
    (∀ a, node.Status.Addresses.find? (fun a => a.Type_ = v1.NodeInternalIP) = none →
      node.Status.Addresses.find? (fun a => a.Type_ = v1.NodeExternalIP) = some a →
      GetNodeHostIP ParseIP node = .ok (ParseIP a.Address)) := by
  have hint : ∀ a, node.Status.Addresses.find? (fun a => a.Type_ = v1.NodeInternalIP) = some a →
      GetNodeHostIP ParseIP node = .ok (ParseIP a.Address) := by
    intro a h
    obtain ⟨rest, hr⟩ := filter_eq_of_find? _ _ a h
    simp [GetNodeHostIP, lookup_groupAddresses, hr]
  have hext : ∀ a, node.Status.Addresses.find? (fun a => a.Type_ = v1.NodeInternalIP) = none →
      node.Status.Addresses.find? (fun a => a.Type_ = v1.NodeExternalIP) = some a →
      GetNodeHostIP ParseIP node = .ok (ParseIP a.Address) := by
    intro a h0 h
    obtain ⟨rest, hr⟩ := filter_eq_of_find? _ _ a h
    have h0' := filter_eq_nil_of_find? _ _ h0
    simp [GetNodeHostIP, lookup_groupAddresses, hr, h0']
  have hnone : (∀ a ∈ node.Status.Addresses,
        a.Type_ ≠ v1.NodeInternalIP ∧ a.Type_ ≠ v1.NodeExternalIP) →
      ∃ msg, GetNodeHostIP ParseIP node = .error (.error msg) := by
    intro h
    have h1 : node.Status.Addresses.filter (fun a => a.Type_ = v1.NodeInternalIP) = [] := by
      rw [List.filter_eq_nil_iff]; intro a ha; simpa using (h a ha).1
    have h2 : node.Status.Addresses.filter (fun a => a.Type_ = v1.NodeExternalIP) = [] := by
      rw [List.filter_eq_nil_iff]; intro a ha; simpa using (h a ha).2
    exact ⟨"host IP unknown; known addresses: " ++ formatAddresses node.Status.Addresses,
      by simp [GetNodeHostIP, lookup_groupAddresses, h1, h2]⟩
  refine ⟨⟨?_, fun h => ?_⟩, hnone, hint, hext⟩
  · rintro ⟨failure, hf⟩ a ha
    constructor
    · intro hty
      cases h : node.Status.Addresses.find? (fun a => a.Type_ = v1.NodeInternalIP) with
      | some b => rw [hint b h] at hf; cases hf
      | none =>
        have := List.find?_eq_none.1 h a ha
        simp [hty] at this
    · intro hty
      cases h : node.Status.Addresses.find? (fun a => a.Type_ = v1.NodeInternalIP) with
      | some b => rw [hint b h] at hf; cases hf
      | none =>
        cases h' : node.Status.Addresses.find? (fun a => a.Type_ = v1.NodeExternalIP) with
        | some b => rw [hext b h h'] at hf; cases hf
        | none =>
          have := List.find?_eq_none.1 h' a ha
          simp [hty] at this
  · obtain ⟨msg, hm⟩ := hnone h
    exact ⟨_, hm⟩

/-- C12 (witness): an external address listed before two internal ones is passed over for
the first internal one; a node with a host name only gets the error. -/
theorem C12_node_host_ip_witness :
    GetNodeHostIP id
        { Status := { Addresses :=
            [⟨"Hostname", "node-1"⟩, ⟨"ExternalIP", "203.0.113.7"⟩, ⟨"InternalIP", "10.0.0.1"⟩,
              ⟨"InternalIP", "10.0.0.22"⟩] } } = .ok "10.0.0.1" ∧
    ∃ msg, GetNodeHostIP id
        { Status := { Addresses := [⟨"Hostname", "node-1"⟩] } } = .error (.error msg) :=
  ⟨(C12_node_host_ip id _).2.2.1 ⟨"InternalIP", "10.0.0.1"⟩ (by decide),
    (C12_node_host_ip id _).2.1 (by decide)⟩

/-- C13: for every compute template, NewComputeTemplate returns no error and a configuration
record whose name and namespace are the template's and whose data holds exactly the six
fields name, namespace, cpu, memory, gpu and gpu_accelerator; cpu, memory and gpu are the
unsigned decimal of the template's value, so that parsing each string back yields the
template's number, and name, namespace and accelerator are copied verbatim. -/
theorem C13_compute_template_record (runtime : api.ComputeTemplate) :
    ∃ config cpu memory gpu,
      NewComputeTemplate runtime = .ok config ∧
      config.ObjectMeta.Name = runtime.Name ∧
      config.ObjectMeta.Namespace = runtime.Namespace ∧
      config.Data =
        [("name", runtime.Name), ("namespace", runtime.Namespace), ("cpu", cpu),
          ("memory", memory), ("gpu", gpu), ("gpu_accelerator", runtime.GpuAccelerator)] ∧
      (mapKeys config.Data).Nodup ∧
      cpu = strconv.FormatUint runtime.Cpu 10 ∧
      memory = strconv.FormatUint runtime.Memory 10 ∧
      gpu = strconv.FormatUint runtime.Gpu 10 ∧
      strconv.ParseUint cpu = some runtime.Cpu ∧
      strconv.ParseUint memory = some runtime.Memory ∧
      strconv.ParseUint gpu = some runtime.Gpu := by
  refine ⟨_, _, _, _, rfl, rfl, rfl, rfl, by simp [mapKeys], rfl, rfl, rfl, ?_, ?_, ?_⟩ <;>
    rw [FormatUint_ten, ParseUint_Sprint]

/-- C14: buildVols emits, for the host-path descriptors in order, a volume with the
descriptor's name, a host path equal to the descriptor's source, and a host-path type that
is set and is "File" exactly when the descriptor's hostPathType is file and "Directory" in
every other case, for the directory type as for an unknown value. -/
theorem C14_host_path_volumes (apiVolumes : List api.Volume) :
    buildVols apiVolumes =
      (apiVolumes.filter fun d => d.VolumeType = api.VolumeType.HOST_PATH).map fun d =>
        ({ Name := d.Name
           VolumeSource :=
             { HostPath := some
                 { Path := d.Source
                   Type_ := some (if d.HostPathType = api.HostPathType.FILE then "File"
                     else "Directory") } } } : v1.Volume) :=
  buildVols_eq apiVolumes

/-- C15: whatever the inputs, the head container of buildHeadPodTemplate exposes exactly the
four ports redis 6379, head 10001, dashboard 8265 and metrics 8080, in this order, and the
worker container of buildWorkerPodTemplate exactly one port, unnamed, with number 80. -/
theorem C15_container_ports (K : Constants) (order : RangeOrder) (imageVersion : String)
    (envs : List (String × String)) (head : api.HeadGroupSpec) (worker : api.WorkerGroupSpec)
    (ct : api.ComputeTemplate) :
    ∃ th tw ch cw,
      buildHeadPodTemplate K order imageVersion envs head (some ct) = .ok th ∧
      buildWorkerPodTemplate K order imageVersion envs worker (some ct) = .ok tw ∧
      th.Spec.Containers = [ch] ∧ tw.Spec.Containers = [cw] ∧
      ch.Ports =
        [{ Name := "redis", ContainerPort := 6379 }, { Name := "head", ContainerPort := 10001 },
          { Name := "dashboard", ContainerPort := 8265 },
          { Name := "metrics", ContainerPort := 8080 }] ∧
      cw.Ports = [{ Name := "", ContainerPort := 80 }] :=
  ⟨_, _, _, _, buildHeadPodTemplate_some K order imageVersion envs head ct,
    buildWorkerPodTemplate_some K order imageVersion envs worker ct, rfl, rfl, rfl, rfl⟩

/-- C16: for every cluster whose head template has the primary container, every
template-label map and every user override, the selector of the service returned by
BuildServiceForHeadPod has exactly the keys of HeadServiceLabels(cluster), five different
keys; each key carries the template label's value when the template labels define the key
and the default label's value otherwise; and the selector is the same whatever override the
cluster carries, so the override's Selector and labels contribute no key and no value. -/
theorem C16_selector (S : ServiceConstants) (order : PortRangeOrder)
    (cluster : rayalphaapi.RayCluster) (labels annotations : List (String × String))
    (hprimary : ∃ c ∈ cluster.Spec.HeadGroupSpec.Template.Spec.Containers,
      c.Name = S.RayContainerName) :
    ∃ svc, BuildServiceForHeadPod S order cluster labels annotations = .ok svc ∧
      mapKeys svc.Spec.Selector = mapKeys (HeadServiceLabels S cluster) ∧
      (mapKeys svc.Spec.Selector).Nodup ∧
      (mapKeys svc.Spec.Selector).length = 5 ∧
      (∀ k v, (k, v) ∈ HeadServiceLabels S cluster →
        svc.Spec.Selector.lookup k = some
          (match labels.lookup k with
            | some templateValue => templateValue
            | none => v)) ∧
      ∀ headService : Option v1.Service,
        ∃ svc', BuildServiceForHeadPod S order
            { cluster with Spec := { cluster.Spec with HeadGroupSpec :=
                { cluster.Spec.HeadGroupSpec with HeadService := headService } } }
            labels annotations = .ok svc' ∧
          svc'.Spec.Selector = svc.Spec.Selector := by
  obtain ⟨svc, hsvc, hsel⟩ := BuildServiceForHeadPod_selector S order cluster labels annotations
    hprimary
  have hkeys := mapKeys_selector S cluster labels
  refine ⟨svc, hsvc, by rw [hsel]; rfl, by rw [hsel, hkeys]; exact S.keys_nodup,
    by rw [hsel, hkeys]; rfl, ?_, ?_⟩
  · intro k v hkv
    rw [hsel]
    apply lookup_of_mem_of_nodup _ _ _ (by rw [hkeys]; exact S.keys_nodup)
    have := List.mem_map_of_mem
      (fun kv : String × String => (kv.1, (labels.lookup kv.1).getD kv.2)) hkv
    cases hl : labels.lookup k <;> simpa [hl] using this
  · intro headService
    obtain ⟨svc', hsvc', hsel'⟩ := BuildServiceForHeadPod_selector S order
      { cluster with Spec := { cluster.Spec with HeadGroupSpec :=
          { cluster.Spec.HeadGroupSpec with HeadService := headService } } }
      labels annotations hprimary
    exact ⟨svc', hsvc', by rw [hsel', hsel]; rfl⟩

/-- C16 (witness): for the cluster of the tests, whose override sets a Selector and labels
of its own, and the template label that renames the cluster, the selector has the five
default keys and the cluster key carries the template's value. -/
theorem C16_selector_witness :
    ∃ svc, BuildServiceForHeadPod exampleServiceConstants id exampleRayCluster
        [("ray.io/cluster", "userTemplateClusterName")]
        exampleRayCluster.Spec.HeadServiceAnnotations = .ok svc ∧
      mapKeys svc.Spec.Selector =
        ["ray.io/cluster", "ray.io/node-type", "app.kubernetes.io/name",
          "app.kubernetes.io/created-by", "ray.io/identifier"] ∧
      svc.Spec.Selector.lookup "ray.io/cluster" = some "userTemplateClusterName" ∧
      svc.Spec.Selector.lookup "ray.io/node-type" = some "head" := by
  obtain ⟨svc, hsvc, hkeys, -, -, hval, -⟩ := C16_selector exampleServiceConstants id
    exampleRayCluster [("ray.io/cluster", "userTemplateClusterName")]
    exampleRayCluster.Spec.HeadServiceAnnotations (by decide)
  exact ⟨svc, hsvc, hkeys, hval "ray.io/cluster" "raycluster-sample" (by decide),
    hval "ray.io/node-type" "head" (by decide)⟩

/-- C17: for every cluster with a user head-service override, the labels of the service
returned by BuildServiceForHeadPod are the union of the final selector and the override's
labels: a key is a label key exactly when it is a selector key or an override label key,
every selector key carries the selector's value, also when the override gives it another,
and every other override label key carries the override's value. -/
theorem C17_labels (S : ServiceConstants) (order : PortRangeOrder)
    (cluster : rayalphaapi.RayCluster) (labels annotations : List (String × String))
    (headService : v1.Service)
    (hoverride : cluster.Spec.HeadGroupSpec.HeadService = some headService)
    (hprimary : ∃ c ∈ cluster.Spec.HeadGroupSpec.Template.Spec.Containers,
      c.Name = S.RayContainerName) :
    ∃ svc, BuildServiceForHeadPod S order cluster labels annotations = .ok svc ∧
      (∀ k, k ∈ mapKeys svc.ObjectMeta.Labels ↔
        k ∈ mapKeys svc.Spec.Selector ∨ k ∈ mapKeys headService.ObjectMeta.Labels) ∧
      (∀ k v, svc.Spec.Selector.lookup k = some v → svc.ObjectMeta.Labels.lookup k = some v) ∧
      (∀ k, k ∉ mapKeys svc.Spec.Selector →
        svc.ObjectMeta.Labels.lookup k = headService.ObjectMeta.Labels.lookup k) := by
  obtain ⟨ports, hp⟩ := computedServicePorts_isOk S order cluster hprimary
  refine ⟨_, BuildServiceForHeadPod_some S order cluster labels annotations ports headService hp
    hoverride, fun k => mem_mapKeys_mapUnion _ _ k, ?_, ?_⟩
  · intro k v hk
    simp only at hk ⊢
    rw [lookup_mapUnion, hk]
  · intro k hk
    simp only at hk ⊢
    rw [lookup_mapUnion, (lookup_eq_none_iff_not_mem_keys _ k).2 hk]

/-- C17 (witness): in the tests' cluster the override's label for the cluster key loses to
the selector's value, and the override's own label is kept. -/
theorem C17_labels_witness :
    ∃ svc, BuildServiceForHeadPod exampleServiceConstants id exampleRayCluster
        [("ray.io/cluster", "userTemplateClusterName")]
        exampleRayCluster.Spec.HeadServiceAnnotations = .ok svc ∧
      svc.ObjectMeta.Labels.lookup "userLabelKey" = some "userLabelValue" ∧
      (∀ v, svc.Spec.Selector.lookup "ray.io/cluster" = some v →
        svc.ObjectMeta.Labels.lookup "ray.io/cluster" = some v) := by
  obtain ⟨svc, hsvc, hkeys, hsel, huser⟩ := C17_labels exampleServiceConstants id
    exampleRayCluster [("ray.io/cluster", "userTemplateClusterName")]
    exampleRayCluster.Spec.HeadServiceAnnotations _ rfl (by decide)
  have hs : svc.Spec.Selector =
      (HeadServiceLabels exampleServiceConstants exampleRayCluster).map fun kv =>
        (kv.1, (List.lookup kv.1 [("ray.io/cluster", "userTemplateClusterName")]).getD kv.2) := by
    obtain ⟨svc', hsvc', hsel'⟩ := BuildServiceForHeadPod_selector exampleServiceConstants id
      exampleRayCluster [("ray.io/cluster", "userTemplateClusterName")]
      exampleRayCluster.Spec.HeadServiceAnnotations (by decide)
    rw [hsvc] at hsvc'
    cases hsvc'
    exact hsel'
  refine ⟨svc, hsvc, ?_, fun v hv => hsel _ v hv⟩
  rw [huser "userLabelKey" (by rw [hs]; decide)]
  rfl

/-- C18: for every cluster and caller-supplied annotation map, the annotations of the
service returned by BuildServiceForHeadPod are, with a user override, the union of the
caller-supplied annotations and the override's: a key both have carries the caller-supplied
value and a key of the override alone carries the override's value; with no override they
are the caller-supplied map itself. -/
theorem C18_annotations (S : ServiceConstants) (order : PortRangeOrder)
    (cluster : rayalphaapi.RayCluster) (labels annotations : List (String × String))
    (hprimary : ∃ c ∈ cluster.Spec.HeadGroupSpec.Template.Spec.Containers,
      c.Name = S.RayContainerName) :
    ∃ svc, BuildServiceForHeadPod S order cluster labels annotations = .ok svc ∧
      (cluster.Spec.HeadGroupSpec.HeadService = none → svc.ObjectMeta.Annotations = annotations) ∧
      ∀ headService, cluster.Spec.HeadGroupSpec.HeadService = some headService →
        (∀ k, k ∈ mapKeys svc.ObjectMeta.Annotations ↔
          k ∈ mapKeys annotations ∨ k ∈ mapKeys headService.ObjectMeta.Annotations) ∧
        (∀ k v, annotations.lookup k = some v → svc.ObjectMeta.Annotations.lookup k = some v) ∧
        (∀ k, k ∉ mapKeys annotations →
          svc.ObjectMeta.Annotations.lookup k = headService.ObjectMeta.Annotations.lookup k) := by
  obtain ⟨ports, hp⟩ := computedServicePorts_isOk S order cluster hprimary
  cases hov : cluster.Spec.HeadGroupSpec.HeadService with
  | none =>
    exact ⟨_, BuildServiceForHeadPod_none S order cluster labels annotations ports hp hov,
      fun _ => rfl, fun _ h => by cases h⟩
  | some headService =>
    refine ⟨_, BuildServiceForHeadPod_some S order cluster labels annotations ports headService hp
      hov, (fun h => by cases h), ?_⟩
    intro hs' e
    cases e
    refine ⟨fun k => mem_mapKeys_mapUnion _ _ k, ?_, ?_⟩
    · intro k v hk
      simp only
      rw [lookup_mapUnion, hk]
    · intro k hk
      simp only
      rw [lookup_mapUnion, (lookup_eq_none_iff_not_mem_keys _ k).2 hk]

/-- C18 (witness): in the tests' cluster the override's value for HeadServiceAnnotationKey1
loses to the caller's, and the override's own annotation is kept. -/
theorem C18_annotations_witness :
    ∃ svc, BuildServiceForHeadPod exampleServiceConstants id exampleRayCluster []
        exampleRayCluster.Spec.HeadServiceAnnotations = .ok svc ∧
      svc.ObjectMeta.Annotations.lookup "HeadServiceAnnotationKey1" =
        some "HeadServiceAnnotationValue1" ∧
      svc.ObjectMeta.Annotations.lookup "userAnnotationKey" = some "userAnnotationValue" := by
  obtain ⟨svc, hsvc, -, hall⟩ := C18_annotations exampleServiceConstants id exampleRayCluster []
    exampleRayCluster.Spec.HeadServiceAnnotations (by decide)
  obtain ⟨-, hcaller, huser⟩ := hall _ rfl
  exact ⟨svc, hsvc, hcaller _ _ rfl, by rw [huser "userAnnotationKey" (by decide)]; rfl⟩

/-- C19: for every cluster with a user head-service override whose port names are pairwise
different, the port list of the service returned by BuildServiceForHeadPod holds every user
port as the user gave it; the names in the list are pairwise different, so a user port
named like an operator-computed port has replaced that entry and the one port of that name
carries the user's number; a user port with a new name is added; every operator-computed
port whose name no user port uses is kept; and the list holds nothing else. -/
theorem C19_ports (S : ServiceConstants) (order : PortRangeOrder)
    (cluster : rayalphaapi.RayCluster) (labels annotations : List (String × String))
    (headService : v1.Service) (horder : order.Valid)
    (hoverride : cluster.Spec.HeadGroupSpec.HeadService = some headService)
    (hprimary : ∃ c ∈ cluster.Spec.HeadGroupSpec.Template.Spec.Containers,
      c.Name = S.RayContainerName)
    (hnames : (headService.Spec.Ports.map fun p => p.Name).Nodup) :
    ∃ computed svc,
      computedServicePorts S order cluster = .ok computed ∧
      BuildServiceForHeadPod S order cluster labels annotations = .ok svc ∧
      (∀ u ∈ headService.Spec.Ports, u ∈ svc.Spec.Ports) ∧
      (svc.Spec.Ports.map fun p => p.Name).Nodup ∧
      (∀ u ∈ headService.Spec.Ports, ∀ p ∈ svc.Spec.Ports, p.Name = u.Name → p = u) ∧
      (∀ q ∈ computed, (∀ u ∈ headService.Spec.Ports, u.Name ≠ q.Name) → q ∈ svc.Spec.Ports) ∧
      (∀ p ∈ svc.Spec.Ports, p ∈ headService.Spec.Ports ∨ p ∈ computed) := by
  obtain ⟨portsInt, computed, -, hc, -, hnodup⟩ :=
    computedServicePorts_ok S order cluster horder hprimary
  have hfinal := foldl_mergePort_nodup headService.Spec.Ports computed hnodup
  have huser := fun u hu => mem_foldl_mergePort_user headService.Spec.Ports computed u hnames hu
  refine ⟨computed, _, hc, BuildServiceForHeadPod_some S order cluster labels annotations computed
    headService hc hoverride, huser, hfinal, ?_, ?_, ?_⟩
  · intro u hu p hp e
    exact List.inj_on_of_nodup_map hfinal hp (huser u hu) e
  · intro q hq hne
    exact mem_foldl_mergePort_of_ne headService.Spec.Ports computed q hq hne
  · intro p hp
    rcases mem_foldl_mergePort headService.Spec.Ports computed p hp with h | ⟨h, -⟩
    · exact Or.inl h
    · exact Or.inr h

/-- C19 (witness): in the tests' cluster with a container port named "client" the user's
port "client" 98765 is the only port of that name, the user's port "userPort" is there, and
the computed port "gcs" is kept. -/
theorem C19_ports_witness :
    ∃ svc, BuildServiceForHeadPod exampleServiceConstants List.reverse
        { exampleRayCluster with Spec := { exampleRayCluster.Spec with HeadGroupSpec :=
            { exampleRayCluster.Spec.HeadGroupSpec with Template :=
                { Spec := { Containers :=
                    [{ Name := "ray-head", Image := "rayproject/autoscaler"
                       Ports :=
                         [{ Name := "gcs", ContainerPort := 6379 },
                          { Name := "client", ContainerPort := 10001 }] }] } } } } }
        [] [] = .ok svc ∧
      { Name := "userPort", Port := 12345 } ∈ svc.Spec.Ports ∧
      { Name := "client", Port := 98765 } ∈ svc.Spec.Ports ∧
      (∀ p ∈ svc.Spec.Ports, p.Name = "client" → p.Port = 98765) ∧
      (svc.Spec.Ports.map fun p => p.Name).Nodup := by
  obtain ⟨computed, svc, -, hsvc, huser, hnodup, hone, -, -⟩ :=
    C19_ports exampleServiceConstants List.reverse
      { exampleRayCluster with Spec := { exampleRayCluster.Spec with HeadGroupSpec :=
          { exampleRayCluster.Spec.HeadGroupSpec with Template :=
              { Spec := { Containers :=
                  [{ Name := "ray-head", Image := "rayproject/autoscaler"
                     Ports :=
                       [{ Name := "gcs", ContainerPort := 6379 },
                        { Name := "client", ContainerPort := 10001 }] }] } } } } }
      [] [] _ (fun m => List.reverse_perm m) rfl (by decide) (by decide)
  refine ⟨svc, hsvc, huser _ (by decide), huser _ (by decide), ?_, hnodup⟩
  intro p hp hname
  rw [hone { Name := "client", Port := 98765 } (by decide) p hp hname]

/-- C20: for every cluster with a user head-service override, the service returned by
BuildServiceForHeadPod has the cluster's namespace whatever namespace the override names,
and the override's name when the override gives a non-empty one, the name generated from
the cluster's name otherwise; for a cluster with a non-empty name and namespace neither the
name nor the namespace of the service is empty. -/
theorem C20_name_and_namespace (S : ServiceConstants) (order : PortRangeOrder)
    (cluster : rayalphaapi.RayCluster) (labels annotations : List (String × String))
    (headService : v1.Service)
    (hoverride : cluster.Spec.HeadGroupSpec.HeadService = some headService)
    (hprimary : ∃ c ∈ cluster.Spec.HeadGroupSpec.Template.Spec.Containers,
      c.Name = S.RayContainerName) :
    ∃ svc, BuildServiceForHeadPod S order cluster labels annotations = .ok svc ∧
      svc.ObjectMeta.Namespace = cluster.ObjectMeta.Namespace ∧
      (headService.ObjectMeta.Name ≠ "" → svc.ObjectMeta.Name = headService.ObjectMeta.Name) ∧
      (headService.ObjectMeta.Name = "" →
        svc.ObjectMeta.Name = S.GenerateServiceName cluster.ObjectMeta.Name) ∧
      (cluster.ObjectMeta.Name ≠ "" → cluster.ObjectMeta.Namespace ≠ "" →
        svc.ObjectMeta.Name ≠ "" ∧ svc.ObjectMeta.Namespace ≠ "") := by
  obtain ⟨ports, hp⟩ := computedServicePorts_isOk S order cluster hprimary
  refine ⟨_, BuildServiceForHeadPod_some S order cluster labels annotations ports headService hp
    hoverride, rfl, ?_, ?_, ?_⟩
  · intro h; simp only [if_neg h]
  · intro h; simp only [if_pos h]
  · intro hname hns
    refine ⟨?_, hns⟩
    simp only
    split
    · exact S.generated_ne _ hname
    · assumption

/-- C20 (witness): the tests' cluster in namespace "default", with the override named
"user-custom-name" in "user-custom-namespace", gets a service of that name in "default". -/
theorem C20_name_and_namespace_witness :
    ∃ svc, BuildServiceForHeadPod exampleServiceConstants id exampleRayCluster [] [] = .ok svc ∧
      svc.ObjectMeta.Namespace = "default" ∧ svc.ObjectMeta.Name = "user-custom-name" ∧
      svc.ObjectMeta.Name ≠ "" ∧ svc.ObjectMeta.Namespace ≠ "" := by
  obtain ⟨svc, hsvc, hns, hname, -, hne⟩ := C20_name_and_namespace exampleServiceConstants id
    exampleRayCluster [] [] _ rfl (by decide)
  exact ⟨svc, hsvc, hns, hname (by decide), hne (by decide) (by decide)⟩

/-- C21: for every cluster whose head template has the primary container, the map returned
by getServicePorts has an entry under the fixed metrics name, that name being one a port
can be declared under (not empty, not a generated name). The entry is the default metrics
port number when the container declares no ports or no port under the metrics name, and it
is the container's own number, whatever it is, when the container declares a port under the
metrics name, the last such port if it declares several. -/
theorem C21_metrics_port (S : ServiceConstants) (cluster : rayalphaapi.RayCluster)
    (c : v1.Container)
    (hprimary : cluster.Spec.HeadGroupSpec.Template.Spec.Containers.find?
      (fun c => c.Name = S.RayContainerName) = some c)
    (hname : S.DefaultMetricsName ≠ "")
    (hgenerated : ∀ n : Int, SprintInt n ++ "-port" ≠ S.DefaultMetricsName) :
    ∃ ports number,
      getServicePorts S cluster = .ok ports ∧
      ports.lookup S.DefaultMetricsName = some number ∧
      (c.Ports = [] → number = S.DefaultMetricsPort) ∧
      ((∀ port ∈ c.Ports, port.Name ≠ S.DefaultMetricsName) → number = S.DefaultMetricsPort) ∧
      (∀ port,
        c.Ports.reverse.find? (fun port => port.Name = S.DefaultMetricsName) = some port →
        number = port.ContainerPort) := by
  obtain ⟨ports, number, hs, hl, h0, hnone, hown⟩ := getServicePorts_metrics S cluster c hprimary
  have hiff := servicePortName_eq_iff S.DefaultMetricsName hname hgenerated
  have hfun : (fun port : v1.ContainerPort => decide (servicePortName port = S.DefaultMetricsName)) =
      fun port => decide (port.Name = S.DefaultMetricsName) := by
    funext port
    exact decide_eq_decide.2 (hiff port)
  refine ⟨ports, number, hs, hl, h0, ?_, ?_⟩
  · intro hall
    exact hnone fun port hp e => hall port hp ((hiff port).1 e)
  · intro port hf
    apply hown port
    rw [hfun]
    exact hf

/-- C21 (witness): the three cases of the test: no ports and one unrelated port give the
default 8080 under "metrics"; a port declared under "metrics" with number 8081 is kept. -/
theorem C21_metrics_port_witness :
    (∃ ports, getServicePorts exampleServiceConstants
        { Spec := { HeadGroupSpec := { Template := { Spec := { Containers :=
          [{ Name := "ray-head", Image := "rayproject/autoscaler", Ports := [] }] } } } } } =
        .ok ports ∧ ports.lookup "metrics" = some 8080) ∧
    (∃ ports, getServicePorts exampleServiceConstants
        { Spec := { HeadGroupSpec := { Template := { Spec := { Containers :=
          [{ Name := "ray-head", Image := "rayproject/autoscaler"
             Ports := [{ Name := "random", ContainerPort := 1234 }] }] } } } } } =
        .ok ports ∧ ports.lookup "metrics" = some 8080) ∧
    (∃ ports, getServicePorts exampleServiceConstants
        { Spec := { HeadGroupSpec := { Template := { Spec := { Containers :=
          [{ Name := "ray-head", Image := "rayproject/autoscaler"
             Ports :=
               [{ Name := "random", ContainerPort := 1234 },
                { Name := "metrics", ContainerPort := 8081 }] }] } } } } } =
        .ok ports ∧ ports.lookup "metrics" = some 8081) := by
  refine ⟨?_, ?_, ?_⟩
  · obtain ⟨ports, n, hp, hl, h0, -, -⟩ := C21_metrics_port exampleServiceConstants
      { Spec := { HeadGroupSpec := { Template := { Spec := { Containers :=
        [{ Name := "ray-head", Image := "rayproject/autoscaler", Ports := [] }] } } } } }
      _ rfl (by decide) generated_ne_metrics
    exact ⟨ports, hp, hl.trans (congrArg some (h0 rfl))⟩
  · obtain ⟨ports, n, hp, hl, -, hnone, -⟩ := C21_metrics_port exampleServiceConstants
      { Spec := { HeadGroupSpec := { Template := { Spec := { Containers :=
        [{ Name := "ray-head", Image := "rayproject/autoscaler"
           Ports := [{ Name := "random", ContainerPort := 1234 }] }] } } } } }
      _ rfl (by decide) generated_ne_metrics
    exact ⟨ports, hp, hl.trans (congrArg some (hnone (by decide)))⟩
  · obtain ⟨ports, n, hp, hl, -, -, hown⟩ := C21_metrics_port exampleServiceConstants
      { Spec := { HeadGroupSpec := { Template := { Spec := { Containers :=
        [{ Name := "ray-head", Image := "rayproject/autoscaler"
           Ports :=
             [{ Name := "random", ContainerPort := 1234 },
              { Name := "metrics", ContainerPort := 8081 }] }] } } } } }
      _ rfl (by decide) generated_ne_metrics
    exact ⟨ports, hp,
      hl.trans (congrArg some (hown { Name := "metrics", ContainerPort := 8081 } (by decide)))⟩

/-- C22 (counterexample): a container port that is itself named "8265-port" and has the
number 8265 is entered under its own name, and undoing the generated names turns that name
into the empty one, which is not the port's original name. -/
theorem C22_explicit_name_lost :
    (getPortsFromCluster exampleServiceConstants
        { Spec := { HeadGroupSpec := { Template := { Spec := { Containers :=
          [{ Name := "ray-head", Image := "rayproject/autoscaler"
             Ports := [{ Name := "8265-port", ContainerPort := 8265 }] }] } } } } }).map
      (fun ports => ports.map fun entry => (entry, revertGeneratedName entry)) =
      .ok [(("8265-port", 8265), "")] := by
  decide

/-- C22 (amended): for every cluster whose primary container declares ports with pairwise
different resulting names, getPortsFromCluster succeeds and returns a map with exactly one
entry per declared container port, in order, keyed by the port's own name when it has one
and by "<portNumber>-port" when it has none, and valued by the container port number;
undoing the generated names recovers the original, possibly empty, name of every container
port that is not itself named "<its own number>-port". -/
theorem C22_ports_from_cluster (S : ServiceConstants) (cluster : rayalphaapi.RayCluster)
    (c : v1.Container)
    (hprimary : cluster.Spec.HeadGroupSpec.Template.Spec.Containers.find?
      (fun c => c.Name = S.RayContainerName) = some c)
    (hdistinct : (c.Ports.map servicePortName).Nodup) :
    getPortsFromCluster S cluster = .ok
      (c.Ports.map fun port =>
        (if port.Name = "" then SprintInt port.ContainerPort ++ "-port" else port.Name,
          port.ContainerPort)) ∧
    ∀ port ∈ c.Ports, port.Name ≠ SprintInt port.ContainerPort ++ "-port" →
      revertGeneratedName
        (if port.Name = "" then SprintInt port.ContainerPort ++ "-port" else port.Name,
          port.ContainerPort) = port.Name := by
  constructor
  · rw [getPortsFromCluster_eq S cluster c hprimary,
      foldl_mapSet_eq_append
        (fun port : v1.ContainerPort => (servicePortName port, port.ContainerPort)) c.Ports []
        (by simpa [mapKeys] using hdistinct)]
    rfl
  · intro port _ hne
    unfold revertGeneratedName
    by_cases hn : port.Name = ""
    · simp [hn]
    · simp [hn, hne]

/-- C22 (witness): the container of the tests, with the port "gcs" 6379 and the unnamed
port 8265, gives the entries "gcs" and "8265-port", and undoing the generated names gives
back "gcs" and the empty name. -/
theorem C22_ports_from_cluster_witness :
    getPortsFromCluster exampleServiceConstants exampleRayCluster =
      .ok [("gcs", 6379), ("8265-port", 8265)] ∧
    revertGeneratedName ("gcs", 6379) = "gcs" ∧ revertGeneratedName ("8265-port", 8265) = "" := by
  obtain ⟨h, hrev⟩ := C22_ports_from_cluster exampleServiceConstants exampleRayCluster _ rfl
    (by decide)
  exact ⟨h, hrev { Name := "gcs", ContainerPort := 6379 } (by decide) (by decide),
    hrev { Name := "", ContainerPort := 8265 } (by decide) (by decide)⟩

/-- C23: for every cluster, two calls of BuildServiceForHeadPod with identical arguments,
whatever order each call's range over the port map takes, end the same way; when the head
template has the primary container both return a service, and the two port lists have the
same length and the same port name at every index. -/
theorem C23_ports_order (S : ServiceConstants) (o₁ o₂ : PortRangeOrder)
    (cluster : rayalphaapi.RayCluster) (labels annotations : List (String × String))
    (h₁ : o₁.Valid) (h₂ : o₂.Valid) :
    BuildServiceForHeadPod S o₁ cluster labels annotations =
      BuildServiceForHeadPod S o₂ cluster labels annotations ∧
    ((∃ c ∈ cluster.Spec.HeadGroupSpec.Template.Spec.Containers, c.Name = S.RayContainerName) →
      ∃ svc₁ svc₂,
        BuildServiceForHeadPod S o₁ cluster labels annotations = .ok svc₁ ∧
        BuildServiceForHeadPod S o₂ cluster labels annotations = .ok svc₂ ∧
        svc₁.Spec.Ports.length = svc₂.Spec.Ports.length ∧
        ∀ i : Nat, (svc₁.Spec.Ports[i]?).map (fun p => p.Name) =
          (svc₂.Spec.Ports[i]?).map (fun p => p.Name)) := by
  have heq := BuildServiceForHeadPod_order S o₁ o₂ cluster labels annotations h₁ h₂
  refine ⟨heq, fun hprimary => ?_⟩
  obtain ⟨svc, hsvc, -⟩ := BuildServiceForHeadPod_selector S o₁ cluster labels annotations
    hprimary
  exact ⟨svc, svc, hsvc, heq ▸ hsvc, rfl, fun _ => rfl⟩

/-- C23 (witness): the tests' cluster, built once with the port map visited in its own order
and once in the reverse order, gets the same service, with port lists of equal length. -/
theorem C23_ports_order_witness :
    BuildServiceForHeadPod exampleServiceConstants id exampleRayCluster [] [] =
      BuildServiceForHeadPod exampleServiceConstants List.reverse exampleRayCluster [] [] ∧
    ∃ svc₁ svc₂,
      BuildServiceForHeadPod exampleServiceConstants id exampleRayCluster [] [] = .ok svc₁ ∧
      BuildServiceForHeadPod exampleServiceConstants List.reverse exampleRayCluster [] [] =
        .ok svc₂ ∧
      svc₁.Spec.Ports.length = svc₂.Spec.Ports.length := by
  have h := C23_ports_order exampleServiceConstants id List.reverse exampleRayCluster [] []
    (fun m => List.Perm.refl m) (fun m => List.reverse_perm m)
  obtain ⟨svc₁, svc₂, e₁, e₂, hlen, -⟩ := h.2 (by decide)
  exact ⟨h.1, svc₁, svc₂, e₁, e₂, hlen⟩

/-- C24: for every list of volume descriptors, buildVolumeMounts emits the mounts in the
order of the descriptors, one for each; a mount copies its descriptor's name, mount path
and read-only flag, and its propagation mode is HostToContainer when the descriptor's mode
is host-to-container, Bidirectional when it is bidirectional, and unset when it is none. -/
theorem C24_volume_mounts (apiVolumes : List api.Volume) :
    (buildVolumeMounts apiVolumes).length = apiVolumes.length ∧
    ∀ (i : Nat) (vol : api.Volume), apiVolumes[i]? = some vol →
      ∃ mount, (buildVolumeMounts apiVolumes)[i]? = some mount ∧
        mount.Name = vol.Name ∧ mount.MountPath = vol.MountPath ∧
        mount.ReadOnly = vol.ReadOnly ∧
        (vol.MountPropagationMode = .HOSTTOCONTAINER →
          mount.MountPropagation = some .MountPropagationHostToContainer) ∧
        (vol.MountPropagationMode = .BIDIRECTIONAL →
          mount.MountPropagation = some .MountPropagationBidirectional) ∧
        (vol.MountPropagationMode = .NONE → mount.MountPropagation = none) := by
  rw [buildVolumeMounts_eq]
  refine ⟨by simp, ?_⟩
  intro i vol hi
  refine ⟨_, by rw [List.getElem?_map, hi]; rfl, rfl, rfl, rfl, ?_, ?_, ?_⟩ <;>
    intro h <;> simp only [h]

/-- C24 (witness): the first of two descriptors, read-only and bidirectional, gives the
first mount, with its name, path, flag and the Bidirectional mode. -/
theorem C24_volume_mounts_witness :
    ∃ mount,
      (buildVolumeMounts
        [{ Name := "logs", MountPath := "/var/log", ReadOnly := true, VolumeType := .HOST_PATH
           MountPropagationMode := .BIDIRECTIONAL },
         { Name := "data", MountPath := "/data", VolumeType := .HOST_PATH }])[0]? = some mount ∧
      mount.Name = "logs" ∧ mount.MountPath = "/var/log" ∧ mount.ReadOnly = true ∧
      mount.MountPropagation = some .MountPropagationBidirectional := by
  obtain ⟨mount, hm, hn, hp, hr, -, hb, -⟩ := (C24_volume_mounts
    [{ Name := "logs", MountPath := "/var/log", ReadOnly := true, VolumeType := .HOST_PATH
       MountPropagationMode := .BIDIRECTIONAL },
     { Name := "data", MountPath := "/data", VolumeType := .HOST_PATH }]).2 0 _ rfl
  exact ⟨mount, hm, hn, hp, hr, hb rfl⟩

/-- C25: for every cluster spec whose compute templates are all present, buildRayClusterSpec
returns a spec whose RayVersion is the given version; whose head group has replica count 1,
the head group's start parameters and service type, and the pod template built from the
head group and its compute template; and whose worker groups are as many as the input's
and in the same order, the i-th carrying the i-th input's group name and start parameters
and the pod template built from the i-th input and its own compute template. -/
theorem C25_cluster_spec (K : Constants) (orders : Nat → RangeOrder) (imageVersion : String)
    (envs : List (String × String)) (clusterSpec : api.ClusterSpec)
    (computeTemplateMap : List (String × api.ComputeTemplate))
    (h : templatesPresent computeTemplateMap clusterSpec = true) :
    ∃ rayClusterSpec,
      buildRayClusterSpec K orders imageVersion envs clusterSpec computeTemplateMap =
        .ok rayClusterSpec ∧
      rayClusterSpec.RayVersion = imageVersion ∧
      rayClusterSpec.HeadGroupSpec.Replicas = some 1 ∧
      rayClusterSpec.HeadGroupSpec.RayStartParams = clusterSpec.HeadGroupSpec.RayStartParams ∧
      rayClusterSpec.HeadGroupSpec.ServiceType = clusterSpec.HeadGroupSpec.ServiceType ∧
      buildHeadPodTemplate K (orders 0) imageVersion envs clusterSpec.HeadGroupSpec
        (computeTemplateMap.lookup clusterSpec.HeadGroupSpec.ComputeTemplate) =
        .ok rayClusterSpec.HeadGroupSpec.Template ∧
      rayClusterSpec.WorkerGroupSpecs.length = clusterSpec.WorkerGroupSpec.length ∧
      ∀ (i : Nat) (spec : api.WorkerGroupSpec), clusterSpec.WorkerGroupSpec[i]? = some spec →
        ∃ out, rayClusterSpec.WorkerGroupSpecs[i]? = some out ∧
          out.GroupName = spec.GroupName ∧
          out.RayStartParams = spec.RayStartParams ∧
          buildWorkerPodTemplate K (orders (i + 1)) imageVersion envs spec
            (computeTemplateMap.lookup spec.ComputeTemplate) = .ok out.Template := by
  obtain ⟨t, outs, ht, hok, hlen, hall⟩ :=
    buildRayClusterSpec_ok K orders imageVersion envs clusterSpec computeTemplateMap h
  refine ⟨_, hok, rfl, rfl, rfl, rfl, ht, hlen, ?_⟩
  intro i spec hi
  have hlt : i < outs.length := by
    rw [hlen]
    exact (List.getElem?_eq_some.1 hi).1
  have ho : outs[i]? = some outs[i] := List.getElem?_eq_getElem hlt
  obtain ⟨h₁, -, -, -, h₅, h₆⟩ := hall i spec _ hi ho
  exact ⟨_, ho, h₁, h₅, h₆⟩

/-- C25 (witness): a cluster with the worker groups "a" and "b" comes out with two worker
groups named "a" and "b", in this order, and a head group of one replica. -/
theorem C25_cluster_spec_witness :
    ∃ rayClusterSpec,
      buildRayClusterSpec exampleConstants (fun _ => id) "2.0.0" []
          { HeadGroupSpec := { ComputeTemplate := "small", ServiceType := "NodePort" }
            WorkerGroupSpec :=
              [{ GroupName := "a", ComputeTemplate := "small", Replicas := 1 },
               { GroupName := "b", ComputeTemplate := "large", Replicas := 2 }] }
          [("small", { Name := "small", Cpu := 1, Memory := 1 }),
           ("large", { Name := "large", Cpu := 8, Memory := 32 })] = .ok rayClusterSpec ∧
      rayClusterSpec.RayVersion = "2.0.0" ∧
      rayClusterSpec.HeadGroupSpec.Replicas = some 1 ∧
      rayClusterSpec.HeadGroupSpec.ServiceType = "NodePort" ∧
      rayClusterSpec.WorkerGroupSpecs.length = 2 ∧
      (∃ out, rayClusterSpec.WorkerGroupSpecs[1]? = some out ∧ out.GroupName = "b") := by
  obtain ⟨r, hok, hv, hr, -, hs, -, hlen, hall⟩ :=
    C25_cluster_spec exampleConstants (fun _ => id) "2.0.0" []
      { HeadGroupSpec := { ComputeTemplate := "small", ServiceType := "NodePort" }
        WorkerGroupSpec :=
          [{ GroupName := "a", ComputeTemplate := "small", Replicas := 1 },
           { GroupName := "b", ComputeTemplate := "large", Replicas := 2 }] }
      [("small", { Name := "small", Cpu := 1, Memory := 1 }),
       ("large", { Name := "large", Cpu := 8, Memory := 32 })] (by decide)
  obtain ⟨out, ho, hn, -, -⟩ := hall 1 _ rfl
  exact ⟨r, hok, hv, hr, hs, hlen, out, ho, hn⟩

/-- C26: for every worker group handled by buildRayClusterSpec whose explicit bounds are
consistent with its replica count (MinReplicas is unset, that is zero, or at most Replicas,
and MaxReplicas is unset or at least Replicas) the emitted bounds satisfy
MinReplicas <= Replicas <= MaxReplicas; the code checks nothing itself, so a group whose
MinReplicas is set above its Replicas while MaxReplicas is unset is emitted with a minimum
greater than its maximum. -/
theorem C26_bounds_order (K : Constants) (orders : Nat → RangeOrder) (imageVersion : String)
    (envs : List (String × String)) (clusterSpec : api.ClusterSpec)
    (computeTemplateMap : List (String × api.ComputeTemplate))
    (h : templatesPresent computeTemplateMap clusterSpec = true) :
    ∃ rayClusterSpec,
      buildRayClusterSpec K orders imageVersion envs clusterSpec computeTemplateMap =
        .ok rayClusterSpec ∧
      ∀ (i : Nat) (spec : api.WorkerGroupSpec), clusterSpec.WorkerGroupSpec[i]? = some spec →
        ∃ out min max, rayClusterSpec.WorkerGroupSpecs[i]? = some out ∧
          out.MinReplicas = some min ∧ out.MaxReplicas = some max ∧
          out.Replicas = some spec.Replicas ∧
          ((spec.MinReplicas = 0 ∨ spec.MinReplicas ≤ spec.Replicas) →
            (spec.MaxReplicas = 0 ∨ spec.Replicas ≤ spec.MaxReplicas) →
            min ≤ spec.Replicas ∧ spec.Replicas ≤ max) ∧
          (spec.MinReplicas ≠ 0 → spec.Replicas < spec.MinReplicas → spec.MaxReplicas = 0 →
            min = spec.MinReplicas ∧ max = spec.Replicas ∧ max < min) := by
  obtain ⟨t, outs, -, hok, hlen, hall⟩ :=
    buildRayClusterSpec_ok K orders imageVersion envs clusterSpec computeTemplateMap h
  refine ⟨_, hok, ?_⟩
  intro i spec hi
  have hlt : i < outs.length := by
    rw [hlen]
    exact (List.getElem?_eq_some.1 hi).1
  have ho : outs[i]? = some outs[i] := List.getElem?_eq_getElem hlt
  obtain ⟨-, h₂, h₃, h₄, -, -⟩ := hall i spec _ hi ho
  refine ⟨_, _, _, ho, h₃, h₄, h₂, ?_, ?_⟩
  · intro hmin hmax
    constructor
    · split
      · rename_i hne; exact hmin.resolve_left hne
      · exact le_refl _
    · split
      · rename_i hne; exact hmax.resolve_left hne
      · exact le_refl _
  · intro hne hlt' hmax
    simp [hne, hmax, hlt']

/-- C26 (witness): replicas 3 with the bounds 1 and 5 is emitted with 1 <= 3 <= 5, and
replicas 1 with MinReplicas 5 and no MaxReplicas is emitted with minimum 5 and maximum 1. -/
theorem C26_bounds_order_witness :
    ∃ rayClusterSpec,
      buildRayClusterSpec exampleConstants (fun _ => id) "2.0.0" []
          { HeadGroupSpec := { ComputeTemplate := "small" }
            WorkerGroupSpec :=
              [{ GroupName := "a", ComputeTemplate := "small", Replicas := 3, MinReplicas := 1
                 MaxReplicas := 5 },
               { GroupName := "b", ComputeTemplate := "small", Replicas := 1,
                 MinReplicas := 5 }] }
          [("small", { Name := "small", Cpu := 1, Memory := 1 })] = .ok rayClusterSpec ∧
      (∃ out min max, rayClusterSpec.WorkerGroupSpecs[0]? = some out ∧
        out.MinReplicas = some min ∧ out.MaxReplicas = some max ∧ min ≤ 3 ∧ 3 ≤ max) ∧
      (∃ out, rayClusterSpec.WorkerGroupSpecs[1]? = some out ∧
        out.MinReplicas = some 5 ∧ out.MaxReplicas = some 1) := by
  obtain ⟨r, hok, hall⟩ :=
    C26_bounds_order exampleConstants (fun _ => id) "2.0.0" []
      { HeadGroupSpec := { ComputeTemplate := "small" }
        WorkerGroupSpec :=
          [{ GroupName := "a", ComputeTemplate := "small", Replicas := 3, MinReplicas := 1
             MaxReplicas := 5 },
           { GroupName := "b", ComputeTemplate := "small", Replicas := 1,
             MinReplicas := 5 }] }
      [("small", { Name := "small", Cpu := 1, Memory := 1 })] (by decide)
  obtain ⟨out₀, min₀, max₀, ho₀, hmin₀, hmax₀, -, hcons, -⟩ := hall 0 _ rfl
  obtain ⟨out₁, min₁, max₁, ho₁, hmin₁, hmax₁, -, -, hpass⟩ := hall 1 _ rfl
  obtain ⟨e₁, e₂, -⟩ := hpass (by decide) (by decide) rfl
  refine ⟨r, hok, ⟨out₀, min₀, max₀, ho₀, hmin₀, hmax₀,
    hcons (Or.inr (by decide)) (Or.inr (by decide))⟩, out₁, ho₁, ?_, ?_⟩
  · rw [hmin₁, e₁]; rfl
  · rw [hmax₁, e₂]; rfl

end Kuberay
